import Mathlib

/-!
TESIS_PRODUCCION: authentication and user endpoints.

A shallow embedding of `src/backend/authMiddleware.js` and of the user
endpoints of `src/backend/primero.js` / `src/index.js` (the two entry points
carry the same handler bodies for `/register`, `/api/login` and
`/api/crearusuarios`).

Conventions of the embedding.

* JavaScript values that travel in request bodies, token claims and row
  columns are `JVal`; response bodies are `Json`.
* Promise chains and `await` are sequential composition; a rejected promise
  and a thrown exception are both a `JsError`.
* The libraries `jsonwebtoken`, `bcrypt` and `pg` are outside the sources.
  Their observable contract is passed in explicitly: the signing secret, the
  clock, the token codec and the hasher are fields of `Env`; the store is a
  function of type `Pool`.
-/

set_option autoImplicit false

namespace Tesis

/-! ## JavaScript values -/

/-- Scalar JavaScript values (plus arrays of strings), as they occur in a JSON
request body, in token claims and in row columns. -/
inductive JVal where
  | undefined
  | null
  | bool (b : Bool)
  | num (n : Int)
  | str (s : String)
  | arr (xs : List String)
  deriving DecidableEq, Repr

/-- JavaScript `ToBoolean`: the test performed by `!x`, `x || y` and `if (x)`. -/
def JVal.truthy : JVal → Bool
  | .undefined => false
  | .null => false
  | .bool b => b
  | .num n => n != 0
  | .str s => s != ""
  | .arr _ => true

/-- A plain JavaScript object with scalar fields, in key order. -/
abbrev JObj := List (String × JVal)

/-- Property read `o.k`: `undefined` when the key is absent. -/
def JObj.get (o : JObj) (k : String) : JVal :=
  (o.lookup k).getD JVal.undefined

/-- JSON response bodies. -/
inductive Json where
  | val (v : JVal)
  | obj (fields : List (String × Json))
  | list (items : List Json)

/-- The keys of a JSON object, in order (empty for a non-object). -/
def Json.keys : Json → List String
  | .obj fields => fields.map Prod.fst
  | _ => []

/-- Field read on a JSON object. -/
def Json.field (j : Json) (k : String) : Option Json :=
  match j with
  | .obj fields => fields.lookup k
  | _ => none

/-- The own properties that `JSON.stringify` keeps: those whose value is not
`undefined`. -/
def definedFields (o : JObj) : JObj :=
  o.filter fun kv => kv.2 ≠ JVal.undefined

/-- A plain object as it appears in a JSON response. -/
def jsonObj (o : JObj) : Json :=
  Json.obj ((definedFields o).map fun kv => (kv.1, Json.val kv.2))

/-- An exception or promise rejection: `err.code` and `err.message`. -/
structure JsError where
  code : Option String
  message : String
  deriving DecidableEq, Repr

/-- What `res.status(s).json(b)` writes. -/
structure Response where
  status : Nat
  body : Json

/-- The body `{ error: msg }`. -/
def errorBody (msg : String) : Json :=
  Json.obj [("error", Json.val (JVal.str msg))]

/-! ## Process environment and libraries -/

/-- Decoded content of a signed token: the custom claims handed to
`jwt.sign`, the registered claims `iat` and `exp` it adds, and the key the
signature was made with. -/
structure Jwt where
  payload : JObj
  iat : Nat
  exp : Option Nat
  key : String
  deriving DecidableEq, Repr

/-- Process-wide configuration and library behaviour.
`secret` is `process.env.SECRET_KEY` (the empty string stands for an unset
variable, both being falsy); `now` is the clock in seconds; `encode`/`decode`
are the compact serialisation of `jsonwebtoken`; `hash`/`compare` are
`bcrypt.hash(·, 10)` and `bcrypt.compare` on strings. -/
structure Env where
  secret : String
  now : Nat
  encode : Jwt → String
  decode : String → Option Jwt
  hash : String → String
  compare : String → String → Bool

/-- Seconds denoted by an `expiresIn` string made of decimal digits followed
by one of the units `s`, `m`, `h`, `d` (the `ms` grammar used by
`jsonwebtoken`, restricted to these units). -/
def timespan (s : String) : Option Nat :=
  let digits := s.data.takeWhile Char.isDigit
  let unit := s.data.dropWhile Char.isDigit
  if digits = [] then none
  else
    let n := digits.foldl (fun acc c => 10 * acc + (c.toNat - 48)) 0
    match unit with
    | ['s'] => some n
    | ['m'] => some (60 * n)
    | ['h'] => some (3600 * n)
    | ['d'] => some (86400 * n)
    | _ => none

/-- The token content `jwt.sign(payload, SECRET_KEY, { expiresIn })` signs:
the payload with `iat` set to the clock and `exp` to `iat` plus the span. -/
def signedContent (env : Env) (payload : JObj) (span : Nat) : Jwt :=
  { payload := definedFields payload, iat := env.now, exp := some (env.now + span),
    key := env.secret }

/-- The call `jwt.sign(payload, SECRET_KEY, { expiresIn })`. Throws when the secret is
falsy or the span is not understood. -/
def jwtSign (env : Env) (payload : JObj) (expiresIn : String) : Except JsError String :=
  if env.secret = "" then
    .error { code := none, message := "secretOrPrivateKey must have a value" }
  else
    match timespan expiresIn with
    | none => .error { code := none, message := "expiresIn should be a number of seconds or string representing a timespan" }
    | some span => .ok (env.encode (signedContent env payload span))

/-- The object `jwt.verify` returns for a token: its payload followed by
`iat` and, if present, `exp`. -/
def Jwt.claims (t : Jwt) : JObj :=
  t.payload ++ [("iat", JVal.num t.iat)] ++
    (match t.exp with
     | some e => [("exp", JVal.num e)]
     | none => [])

/-- The call `jwt.verify(token, SECRET_KEY)`. Throws when the token is malformed, when
the secret is falsy, when the signature was not made with the secret, or
when the clock has reached `exp`. -/
def jwtVerify (env : Env) (token : String) : Except JsError JObj :=
  match env.decode token with
  | none => .error { code := none, message := "jwt malformed" }
  | some t =>
    if env.secret = "" then
      .error { code := none, message := "secret or public key must be provided" }
    else if t.key ≠ env.secret then
      .error { code := none, message := "invalid signature" }
    else
      match t.exp with
      | some e =>
        if e ≤ env.now then .error { code := none, message := "jwt expired" }
        else .ok t.claims
      | none => .ok t.claims

/-- The call `bcrypt.hash(data, 10)`: rejects when `data` is not a string. -/
def bcryptHash (env : Env) (data : JVal) : Except JsError String :=
  match data with
  | .str s => .ok (env.hash s)
  | .undefined => .error { code := none, message := "data and salt arguments required" }
  | .null => .error { code := none, message := "data and salt arguments required" }
  | _ => .error { code := none, message := "data must be a string or Buffer and salt must either be a salt string or a number of rounds" }

/-- The call `bcrypt.compare(data, encrypted)`: rejects when an argument is not a
string. -/
def bcryptCompare (env : Env) (data : JVal) (encrypted : JVal) : Except JsError Bool :=
  match data, encrypted with
  | .str d, .str h => .ok (env.compare d h)
  | _, _ => .error { code := none, message := "data and hash arguments required" }

/-! ## The store -/

/-- The statements the user endpoints and the middleware send to the pool. -/
inductive Sql where
  /-- Text `SELECT rol FROM usuarios WHERE id = $1` -/
  | selectRolById
  /-- Text `INSERT INTO usuarios (nombre, apellido, email, cedula, password, token, rol)
  VALUES ($1, $2, $3, $4, $5, $6, $7) RETURNING *` -/
  | insertUsuarioToken
  /-- Text `INSERT INTO usuarios (nombre, apellido, email, cedula, password, rol)
  VALUES ($1, $2, $3, $4, $5, $6) RETURNING id, nombre, apellido, email, cedula, rol` -/
  | insertUsuario
  /-- Text `SELECT * FROM usuarios WHERE email = $1` -/
  | selectUsuarioByEmail
  /-- Text `SELECT id, nombre, email, rol FROM usuarios WHERE id = $1` -/
  | selectVerifyById
  /-- Text `SELECT nombre, apellido, email, rol FROM usuarios WHERE id = $1` -/
  | selectProfileById
  /-- Text `DELETE FROM usuarios WHERE id = $1 RETURNING *` -/
  | deleteUsuarioById
  /-- Text `UPDATE usuarios SET nombre = $1, apellido = $2, email = $3, cedula = $4,
  rol = $5, password = $6 WHERE id = $7 RETURNING *` -/
  | updateUsuarioPassword
  /-- Text `UPDATE usuarios SET nombre = $1, apellido = $2, email = $3, cedula = $4,
  rol = $5 WHERE id = $6 RETURNING *` -/
  | updateUsuario
  /-- Text `SELECT * FROM usuarios` -/
  | selectUsuarios
  deriving DecidableEq, Repr

/-- A call `pool.query(text, values)`. -/
structure Query where
  text : Sql
  values : List JVal
  deriving DecidableEq, Repr

/-- What a resolved `pool.query` yields. -/
structure QueryResult where
  rows : List JObj
  deriving DecidableEq, Repr

/-- A row of table `usuarios`. Text columns are nullable; `id` is the serial
primary key. -/
structure Usuario where
  id : Int
  nombre : Option String
  apellido : Option String
  email : Option String
  cedula : Option String
  password : Option String
  token : Option String
  rol : Option String
  deriving DecidableEq, Repr

/-- The tables of the relational store that the user endpoints touch, with the
next value of the `usuarios` id sequence. -/
structure Db where
  usuarios : List Usuario
  nextId : Int
  deriving DecidableEq, Repr

/-- A connection pool: a query either rejects or resolves, and leaves the
store in a new state. -/
abbrev Pool := Query → Db → Except JsError QueryResult × Db

/-! ## `authMiddleware.js` -/

/-- The part of the request/response pair and of the world that a middleware
chain reads and writes: `req.user`, the responses written on `res` (oldest
first) and the store. -/
structure Ctx where
  user : Option JObj
  sent : List Response
  db : Db

/-- The effect of `res.status(s).json(b)`. -/
def Ctx.respond (c : Ctx) (status : Nat) (body : Json) : Ctx :=
  { c with sent := c.sent ++ [{ status := status, body := body }] }

/-- A callable handed to a middleware as `next`: it runs on the current
context and either returns or throws synchronously. -/
abbrev Next := Ctx → Ctx × Option JsError

/-- The method `String.prototype.split(' ')` on the characters of a string: the maximal
runs between single spaces, empty runs included. -/
def splitSpace : List Char → List (List Char)
  | [] => [[]]
  | c :: cs =>
    if c = ' ' then [] :: splitSpace cs
    else
      match splitSpace cs with
      | [] => [[c]]
      | seg :: rest => (c :: seg) :: rest

/-- The expression `authHeader.split(' ')[1]`: the second space-separated segment, if any. -/
def bearerSegment (authHeader : String) : Option String :=
  ((splitSpace authHeader.data).map String.mk)[1]?

/-- Function `authRequired(req, res, next)` of `authMiddleware.js`, lines 5-19.
`authorization` is `req.headers['authorization']`. The call `next()` sits
inside the `try` block, so an exception thrown synchronously by `next` is
handled by the same `catch` as a failed verification. -/
def authRequired (env : Env) (authorization : Option String) (next : Next) (c : Ctx) : Ctx :=
  match authorization with
  | none => c.respond 401 (errorBody "Token requerido")
  | some authHeader =>
    if authHeader = "" then c.respond 401 (errorBody "Token requerido")
    else
      match bearerSegment authHeader with
      | none => c.respond 401 (errorBody "Token no proporcionado")
      | some token =>
        if token = "" then c.respond 401 (errorBody "Token no proporcionado")
        else
          match jwtVerify env token with
          | .error _ => c.respond 401 (errorBody "Token inválido o expirado")
          | .ok decoded =>
            match next { c with user := some decoded } with
            | (c1, none) => c1
            | (c1, some _) => c1.respond 401 (errorBody "Token inválido o expirado")

/-- The identifiers a module can resolve besides its own parameters and
locals. `pool` is `none` when no binding named `pool` is in scope, in which
case evaluating `pool` throws a `ReferenceError`. -/
structure ModuleScope where
  pool : Option Pool

/-- The scope of `authMiddleware.js`: the module binds `jwt` and `SECRET_KEY`
(lines 2-3) and its two functions; nothing binds `pool`. -/
def authMiddlewareScope : ModuleScope :=
  { pool := none }

/-- The exception raised by evaluating the unbound identifier `pool`. -/
def poolReferenceError : JsError :=
  { code := none, message := "pool is not defined" }

/-- The function passed to `authRequired` by `adminRequired`, lines 23-35:
read the role of `req.user.id` from the store, pass control to `next` when it
is `'admin'`, answer 403 otherwise, 500 when the promise chain rejects. -/
def adminCheck (scope : ModuleScope) (next : Next) : Next := fun c =>
  match scope.pool with
  | none => (c, some poolReferenceError)
  | some pool =>
    match c.user with
    | none => (c, some { code := none, message := "Cannot read properties of undefined (reading id)" })
    | some user =>
      match pool { text := Sql.selectRolById, values := [user.get "id"] } c.db with
      | (.error _, db1) =>
        ({ c with db := db1 }.respond 500 (errorBody "Error interno"), none)
      | (.ok result, db1) =>
        let c1 : Ctx := { c with db := db1 }
        let rol := match result.rows.head? with
          | some row => row.get "rol"
          | none => JVal.undefined
        if rol = JVal.str "admin" then
          match next c1 with
          | (c2, none) => (c2, none)
          | (c2, some _) => (c2.respond 500 (errorBody "Error interno"), none)
        else (c1.respond 403 (errorBody "Solo administradores"), none)

/-- Function `adminRequired(req, res, next)` of `authMiddleware.js`, lines 22-36. -/
def adminRequired (env : Env) (scope : ModuleScope) (authorization : Option String)
    (next : Next) (c : Ctx) : Ctx :=
  authRequired env authorization (adminCheck scope next) c

/-! ## A model of the `usuarios` table -/

/-- Element escaping of a text-array literal: a backslash before every
backslash and double quote. -/
def pgEscape (s : String) : String :=
  String.mk (s.data.flatMap fun c =>
    if c = Char.ofNat 92 ∨ c = Char.ofNat 34 then [Char.ofNat 92, c] else [c])

/-- The text a query parameter is sent as for a text column; `none` is SQL
`NULL` (parameters `null` and `undefined`). -/
def pgText : JVal → Option String
  | .undefined => none
  | .null => none
  | .bool b => some (if b then "true" else "false")
  | .num n => some (toString n)
  | .str s => some s
  | .arr xs =>
    let quote := String.singleton (Char.ofNat 34)
    some ("\x7b" ++ ",".intercalate (xs.map fun x => quote ++ pgEscape x ++ quote) ++ "\x7d")

/-- The natural number written by a non-empty list of decimal digits. -/
def parseDigits (cs : List Char) : Option Nat :=
  if cs = [] ∨ ¬ cs.all Char.isDigit then none
  else some (cs.foldl (fun acc c => 10 * acc + (c.toNat - 48)) 0)

/-- Integer input syntax: an optional sign followed by decimal digits. -/
def parseInteger : List Char → Option Int
  | '-' :: cs => (parseDigits cs).map fun n => -(n : Int)
  | '+' :: cs => (parseDigits cs).map fun n => (n : Int)
  | cs => (parseDigits cs).map fun n => (n : Int)

/-- The value a query parameter denotes for the integer column `id`: `NULL`,
an integer, or a rejection for text that is not an integer. -/
def pgInt : JVal → Except JsError (Option Int)
  | .undefined => .ok none
  | .null => .ok none
  | .num n => .ok (some n)
  | .str s =>
    match parseInteger s.data with
    | some n => .ok (some n)
    | none => .error { code := some "22P02", message := "invalid input syntax for type integer" }
  | _ => .error { code := some "22P02", message := "invalid input syntax for type integer" }

/-- A nullable text column as the driver returns it. -/
def colVal : Option String → JVal
  | some s => JVal.str s
  | none => JVal.null

/-- The row object of `RETURNING *` / `SELECT *` on `usuarios`. -/
def Usuario.row (u : Usuario) : JObj :=
  [("id", JVal.num u.id), ("nombre", colVal u.nombre), ("apellido", colVal u.apellido),
   ("email", colVal u.email), ("cedula", colVal u.cedula), ("password", colVal u.password),
   ("token", colVal u.token), ("rol", colVal u.rol)]

/-- The row object of `RETURNING id, nombre, apellido, email, cedula, rol`. -/
def Usuario.publicRow (u : Usuario) : JObj :=
  [("id", JVal.num u.id), ("nombre", colVal u.nombre), ("apellido", colVal u.apellido),
   ("email", colVal u.email), ("cedula", colVal u.cedula), ("rol", colVal u.rol)]

/-- SQL equality of a stored nullable text with a parameter: never true when
either side is `NULL`. -/
def sqlTextEq (stored param : Option String) : Bool :=
  match stored, param with
  | some a, some b => a == b
  | _, _ => false

/-- The rejection raised on a unique-constraint violation. -/
def uniqueViolation : JsError :=
  { code := some "23505", message := "duplicate key value violates unique constraint" }

/-- Insertion of a row into `usuarios` under the unique constraints on `email`
and `cedula`. -/
def insertUsuarioRow (db : Db) (u : Usuario) : Except JsError Usuario × Db :=
  if db.usuarios.any (fun r => sqlTextEq r.email u.email || sqlTextEq r.cedula u.cedula) then
    (.error uniqueViolation, db)
  else
    (.ok u, { usuarios := db.usuarios ++ [u], nextId := db.nextId + 1 })

/-- The columns an `UPDATE usuarios SET ...` of `PUT /api/usuarios/:id` assigns
to a row: the five profile columns always, the password when one is given. -/
def Usuario.assign (u : Usuario) (nombre apellido email cedula rol : JVal)
    (password : Option JVal) : Usuario :=
  { u with
    nombre := pgText nombre, apellido := pgText apellido, email := pgText email,
    cedula := pgText cedula, rol := pgText rol,
    password := match password with
      | some p => pgText p
      | none => u.password }

/-- An `UPDATE ... WHERE id = key RETURNING *` on `usuarios` under the unique
constraints on `email` and `cedula`: rejected when an updated row would share
its email or cedula with another row. -/
def updateUsuarioRows (db : Db) (key : Option Int) (f : Usuario → Usuario) :
    Except JsError QueryResult × Db :=
  let updated := db.usuarios.map fun r => if some r.id == key then f r else r
  if updated.any (fun a => some a.id == key && updated.any fun b =>
      b.id != a.id && (sqlTextEq b.email a.email || sqlTextEq b.cedula a.cedula)) then
    (.error uniqueViolation, db)
  else
    (.ok { rows := (updated.filter fun r => some r.id == key).map Usuario.row },
     { usuarios := updated, nextId := db.nextId })

/-- Modelled from the spec: the `usuarios` table of the relational store (its
schema is not part of the sources). Rows have a serial `id` and the nullable
text columns named by the handlers' statements; `email` and `cedula` are
unique; a statement touches the table in a single step. -/
def pgQuery : Pool := fun q db =>
  match q.text, q.values with
  | .selectRolById, [id] =>
    match pgInt id with
    | .error e => (.error e, db)
    | .ok key =>
      (.ok { rows := (db.usuarios.filter fun r => some r.id == key).map
                fun r => [("rol", colVal r.rol)] }, db)
  | .insertUsuarioToken, [nombre, apellido, email, cedula, password, token, rol] =>
    match insertUsuarioRow db
        { id := db.nextId, nombre := pgText nombre, apellido := pgText apellido,
          email := pgText email, cedula := pgText cedula, password := pgText password,
          token := pgText token, rol := pgText rol } with
    | (.error e, db1) => (.error e, db1)
    | (.ok u, db1) => (.ok { rows := [u.row] }, db1)
  | .insertUsuario, [nombre, apellido, email, cedula, password, rol] =>
    match insertUsuarioRow db
        { id := db.nextId, nombre := pgText nombre, apellido := pgText apellido,
          email := pgText email, cedula := pgText cedula, password := pgText password,
          token := none, rol := pgText rol } with
    | (.error e, db1) => (.error e, db1)
    | (.ok u, db1) => (.ok { rows := [u.publicRow] }, db1)
  | .selectUsuarioByEmail, [email] =>
    (.ok { rows := (db.usuarios.filter fun r => sqlTextEq r.email (pgText email)).map
              Usuario.row }, db)
  | .selectVerifyById, [id] =>
    match pgInt id with
    | .error e => (.error e, db)
    | .ok key =>
      (.ok { rows := (db.usuarios.filter fun r => some r.id == key).map
                fun r => [("id", JVal.num r.id), ("nombre", colVal r.nombre),
                          ("email", colVal r.email), ("rol", colVal r.rol)] }, db)
  | .selectProfileById, [id] =>
    match pgInt id with
    | .error e => (.error e, db)
    | .ok key =>
      (.ok { rows := (db.usuarios.filter fun r => some r.id == key).map
                fun r => [("nombre", colVal r.nombre), ("apellido", colVal r.apellido),
                          ("email", colVal r.email), ("rol", colVal r.rol)] }, db)
  | .deleteUsuarioById, [id] =>
    match pgInt id with
    | .error e => (.error e, db)
    | .ok key =>
      (.ok { rows := (db.usuarios.filter fun r => some r.id == key).map Usuario.row },
       { usuarios := db.usuarios.filter fun r => !(some r.id == key), nextId := db.nextId })
  | .updateUsuarioPassword, [nombre, apellido, email, cedula, rol, password, id] =>
    match pgInt id with
    | .error e => (.error e, db)
    | .ok key =>
      updateUsuarioRows db key fun r => r.assign nombre apellido email cedula rol (some password)
  | .updateUsuario, [nombre, apellido, email, cedula, rol, id] =>
    match pgInt id with
    | .error e => (.error e, db)
    | .ok key =>
      updateUsuarioRows db key fun r => r.assign nombre apellido email cedula rol none
  | .selectUsuarios, [] =>
    (.ok { rows := db.usuarios.map Usuario.row }, db)
  | _, _ =>
    (.error { code := some "08P01",
              message := "bind message supplies the wrong number of parameters" }, db)

/-- The number of `usuarios` rows whose email is the given text. -/
def emailCount (db : Db) (email : String) : Nat :=
  (db.usuarios.filter fun r => r.email == some email).length

/-! ## User endpoints of `primero.js` and `index.js` -/

/-- The library and store calls a handler makes, in order. -/
inductive Effect where
  | hash (data : JVal)
  | compare (data : JVal) (encrypted : JVal)
  | sign (payload : JObj) (expiresIn : String)
  | query (q : Query)
  deriving DecidableEq, Repr

/-- One run of a handler: the response it writes, the store it leaves and the
calls it made. -/
structure Run where
  response : Response
  db : Db
  effects : List Effect

/-- The exception of a property read on `undefined` (`result.rows[0]` of an
empty result). -/
def undefinedReadError : JsError :=
  { code := none, message := "Cannot read properties of undefined" }

/-- The `catch` block of `POST /register` (primero.js 246-252, index.js
227-234). -/
def registerCatch (err : JsError) : Response :=
  if err.code = some "23505" then
    { status := 400, body := errorBody "El correo ya está registrado" }
  else
    { status := 500, body := errorBody err.message }

/-- The body of the 201 response of `POST /register`. -/
def registerBody (token : String) (user : JObj) : Json :=
  Json.obj
    [("message", Json.val (JVal.str "Usuario registrado con éxito")),
     ("token", Json.val (JVal.str token)),
     ("usuario", jsonObj [("id", user.get "id"), ("nombre", user.get "nombre"),
                          ("email", user.get "email"), ("rol", user.get "rol")])]

/-- Handler `POST /register` (primero.js 217-253, index.js 191-235). -/
def register (env : Env) (pool : Pool) (body : JObj) (db : Db) : Run :=
  let nombre := body.get "nombre"
  let apellido := body.get "apellido"
  let email := body.get "email"
  let cedula := body.get "cedula"
  let password := body.get "password"
  let rol := body.get "rol"
  let userRole := if rol.truthy then rol else JVal.str "estudiante"
  if !nombre.truthy || !apellido.truthy || !email.truthy || !cedula.truthy
      || !password.truthy then
    { response := { status := 400, body := errorBody "Todos los campos son obligatorios" },
      db := db, effects := [] }
  else
    match bcryptHash env password with
    | .error e => { response := registerCatch e, db := db, effects := [.hash password] }
    | .ok hashedPassword =>
      match jwtSign env [("email", email)] "1h" with
      | .error e =>
        { response := registerCatch e, db := db,
          effects := [.hash password, .sign [("email", email)] "1h"] }
      | .ok token =>
        let q : Query :=
          { text := Sql.insertUsuarioToken,
            values := [nombre, apellido, email, cedula, JVal.str hashedPassword,
                       JVal.str token, userRole] }
        let effects := [Effect.hash password, .sign [("email", email)] "1h", .query q]
        match pool q db with
        | (.error e, db1) => { response := registerCatch e, db := db1, effects := effects }
        | (.ok result, db1) =>
          match result.rows.head? with
          | none =>
            { response := registerCatch undefinedReadError, db := db1, effects := effects }
          | some user =>
            { response := { status := 201, body := registerBody token user },
              db := db1, effects := effects }

/-- The `catch` block of `POST /api/crearusuarios` (primero.js 138-145,
index.js 100-107). -/
def crearusuariosCatch (err : JsError) : Response :=
  if err.code = some "23505" then
    { status := 409, body := errorBody "La cédula o el email ya existen" }
  else
    { status := 500, body := errorBody "Error al crear usuario" }

/-- Handler `POST /api/crearusuarios` (primero.js 123-146, index.js 85-108). -/
def crearusuarios (env : Env) (pool : Pool) (body : JObj) (db : Db) : Run :=
  let nombre := body.get "nombre"
  let apellido := body.get "apellido"
  let email := body.get "email"
  let cedula := body.get "cedula"
  let password := body.get "password"
  let rol := body.get "rol"
  match bcryptHash env password with
  | .error e => { response := crearusuariosCatch e, db := db, effects := [.hash password] }
  | .ok hashedPassword =>
    let q : Query :=
      { text := Sql.insertUsuario,
        values := [nombre, apellido, email, cedula, JVal.str hashedPassword, rol] }
    let effects := [Effect.hash password, .query q]
    match pool q db with
    | (.error e, db1) => { response := crearusuariosCatch e, db := db1, effects := effects }
    | (.ok result, db1) =>
      { response :=
          { status := 201,
            body := match result.rows.head? with
              | some row => jsonObj row
              | none => Json.val JVal.undefined },
        db := db1, effects := effects }

/-- The body of the 200 response of `POST /api/login`. -/
def loginBody (token : String) (user : JObj) : Json :=
  Json.obj
    [("message", Json.val (JVal.str "Login exitoso")),
     ("token", Json.val (JVal.str token)),
     ("usuario", jsonObj [("id", user.get "id"), ("nombre", user.get "nombre"),
                          ("email", user.get "email"), ("rol", user.get "rol")])]

/-- Handler `POST /api/login` (primero.js 256-293, index.js 240-283). -/
def login (env : Env) (pool : Pool) (body : JObj) (db : Db) : Run :=
  let email := body.get "email"
  let password := body.get "password"
  if !email.truthy || !password.truthy then
    { response := { status := 400, body := errorBody "Email y contraseña son obligatorios" },
      db := db, effects := [] }
  else
    let q : Query := { text := Sql.selectUsuarioByEmail, values := [email] }
    match pool q db with
    | (.error e, db1) =>
      { response := { status := 500, body := errorBody e.message }, db := db1,
        effects := [.query q] }
    | (.ok result, db1) =>
      match result.rows.head? with
      | none =>
        { response := { status := 401, body := errorBody "Correo no registrado" }, db := db1,
          effects := [.query q] }
      | some user =>
        let cmp := Effect.compare password (user.get "password")
        match bcryptCompare env password (user.get "password") with
        | .error e =>
          { response := { status := 500, body := errorBody e.message }, db := db1,
            effects := [.query q, cmp] }
        | .ok false =>
          { response := { status := 401, body := errorBody "Contraseña incorrecta" },
            db := db1, effects := [.query q, cmp] }
        | .ok true =>
          let payload : JObj := [("id", user.get "id"), ("email", user.get "email")]
          match jwtSign env payload "1h" with
          | .error e =>
            { response := { status := 500, body := errorBody e.message }, db := db1,
              effects := [.query q, cmp, .sign payload "1h"] }
          | .ok token =>
            { response := { status := 200, body := loginBody token user }, db := db1,
              effects := [.query q, cmp, .sign payload "1h"] }

/-! ## Sample values -/

/-- Claims of a token issued by `POST /api/login` to user 7. -/
def sampleJwt : Jwt :=
  { payload := [("id", JVal.num 7), ("email", JVal.str "ana@x.com")],
    iat := 1000, exp := some 4600, key := "k3y" }

/-- An environment whose codec knows the tokens `good` and `boss` (signed with
the process secret, unexpired, for users 7 and 8), `stale` (expired) and
`forged` (signed with another key). -/
def sampleEnv : Env :=
  { secret := "k3y"
    now := 2000
    encode := fun t => if t.payload.lookup "id" = none then "reg" else "good"
    decode := fun s =>
      if s = "good" then some sampleJwt
      else if s = "stale" then some { sampleJwt with exp := some 1500 }
      else if s = "forged" then some { sampleJwt with key := "other" }
      else if s = "boss" then
        some { sampleJwt with payload := [("id", JVal.num 8), ("email", JVal.str "luis@x.com")] }
      else none
    hash := fun s => "$2b$10$" ++ s
    compare := fun d h => h == "$2b$10$" ++ d }

/-- A store holding one student with id 7 and one administrator with id 8. -/
def sampleDb : Db :=
  { usuarios :=
      [{ id := 7, nombre := some "Ana", apellido := some "Ruiz", email := some "ana@x.com",
         cedula := some "123", password := some "$2b$10$secret1", token := none,
         rol := some "estudiante" },
       { id := 8, nombre := some "Luis", apellido := some "Mora", email := some "luis@x.com",
         cedula := some "456", password := some "$2b$10$", token := none,
         rol := some "admin" }]
    nextId := 9 }

/-- A fresh request context over the sample store. -/
def sampleCtx : Ctx :=
  { user := none, sent := [], db := sampleDb }

/-- A downstream handler that answers 200 and returns. -/
def okNext : Next := fun c => (c.respond 200 (Json.obj []), none)

/-- A downstream handler that throws synchronously. -/
def throwingNext : Next := fun c => (c, some { code := none, message := "boom" })

/-- A registration body with all five required fields. -/
def sampleBody : JObj :=
  [("nombre", JVal.str "Eva"), ("apellido", JVal.str "Paz"), ("email", JVal.str "eva@x.com"),
   ("cedula", JVal.str "789"), ("password", JVal.str "secret2")]

/-- The fields `POST /register` requires. -/
def requiredFields : List String :=
  ["nombre", "apellido", "email", "cedula", "password"]

/-- A field value that is absent (`undefined`), `null` or the empty string. -/
def JVal.absentOrEmpty (v : JVal) : Prop :=
  v = JVal.undefined ∨ v = JVal.null ∨ v = JVal.str ""

/-- The columns of the inserted row that `POST /register` and `POST /api/login`
echo back. -/
def publicColumns : List String :=
  ["id", "nombre", "email", "rol"]

/-- The role `POST /register` stores: `rol || "estudiante"`. -/
def registerRole (body : JObj) : JVal :=
  if (body.get "rol").truthy then body.get "rol" else JVal.str "estudiante"

/-- The token `POST /register` mints when signing succeeds. -/
def registerToken (env : Env) (body : JObj) : String :=
  env.encode (signedContent env [("email", body.get "email")] 3600)

/-- The INSERT `POST /register` issues for a body whose password is the
string `pw`. -/
def registerQuery (env : Env) (body : JObj) (pw : String) : Query :=
  { text := Sql.insertUsuarioToken,
    values := [body.get "nombre", body.get "apellido", body.get "email", body.get "cedula",
               JVal.str (env.hash pw), JVal.str (registerToken env body), registerRole body] }

/-- The calls `POST /register` has made once it has issued its INSERT. -/
def registerEffects (env : Env) (body : JObj) (pw : String) : List Effect :=
  [Effect.hash (body.get "password"), Effect.sign [("email", body.get "email")] "1h",
   Effect.query (registerQuery env body pw)]

/-- The row the model store inserts for `sampleBody` into `sampleDb`. -/
def sampleInserted : Usuario :=
  { id := 9, nombre := some "Eva", apellido := some "Paz", email := some "eva@x.com",
    cedula := some "789", password := some "$2b$10$secret2", token := some "reg",
    rol := some "estudiante" }

/-- The store after registering `sampleBody` in `sampleDb`. -/
def sampleDbAfter : Db :=
  { usuarios := sampleDb.usuarios ++ [sampleInserted], nextId := 10 }

/-- The row the model store builds for the INSERT of `POST /register`. -/
def registerRow (env : Env) (body : JObj) (pw : String) (id : Int) : Usuario :=
  { id := id, nombre := pgText (body.get "nombre"), apellido := pgText (body.get "apellido"),
    email := pgText (body.get "email"), cedula := pgText (body.get "cedula"),
    password := pgText (JVal.str (env.hash pw)),
    token := pgText (JVal.str (registerToken env body)), rol := pgText (registerRole body) }

/-- The INSERT `POST /api/crearusuarios` issues for a body whose password is
the string `pw`. -/
def crearusuariosQuery (env : Env) (body : JObj) (pw : String) : Query :=
  { text := Sql.insertUsuario,
    values := [body.get "nombre", body.get "apellido", body.get "email", body.get "cedula",
               JVal.str (env.hash pw), body.get "rol"] }

/-- A registration body whose cedula is already held by user 7 of the sample
store, under a new email. -/
def sampleCedulaClash : JObj :=
  [("nombre", JVal.str "Eva"), ("apellido", JVal.str "Paz"), ("email", JVal.str "eva@x.com"),
   ("cedula", JVal.str "123"), ("password", JVal.str "secret2")]

/-- User 7 of the sample store. -/
def sampleAna : Usuario :=
  { id := 7, nombre := some "Ana", apellido := some "Ruiz", email := some "ana@x.com",
    cedula := some "123", password := some "$2b$10$secret1", token := none,
    rol := some "estudiante" }

/-- The login body of user 7. -/
def sampleLogin : JObj :=
  [("email", JVal.str "ana@x.com"), ("password", JVal.str "secret1")]

/-! ## Identity endpoints and user deletion -/

/-- The body `{ message: msg }`. -/
def messageBody (msg : String) : Json :=
  Json.obj [("message", Json.val (JVal.str msg))]

/-- The expression `req.headers.authorization?.split(" ")[1]`. -/
def optionalBearer (authorization : Option String) : Option String :=
  match authorization with
  | none => none
  | some authHeader => bearerSegment authHeader

/-- Handler `GET /api/verify-token` (primero.js 75-109). -/
def verifyToken (env : Env) (pool : Pool) (authorization : Option String) (db : Db) : Run :=
  let invalid : Response := { status := 401, body := errorBody "Token inválido" }
  match optionalBearer authorization with
  | none =>
    { response := { status := 401, body := errorBody "Token no proporcionado" },
      db := db, effects := [] }
  | some token =>
    if token = "" then
      { response := { status := 401, body := errorBody "Token no proporcionado" },
        db := db, effects := [] }
    else
      match jwtVerify env token with
      | .error _ => { response := invalid, db := db, effects := [] }
      | .ok decoded =>
        let q : Query := { text := Sql.selectVerifyById, values := [decoded.get "id"] }
        match pool q db with
        | (.error _, db1) => { response := invalid, db := db1, effects := [.query q] }
        | (.ok result, db1) =>
          match result.rows.head? with
          | none =>
            { response := { status := 401, body := errorBody "Usuario no encontrado" },
              db := db1, effects := [.query q] }
          | some user =>
            { response :=
                { status := 200,
                  body := Json.obj
                    [("valid", Json.val (JVal.bool true)),
                     ("user", jsonObj [("id", user.get "id"), ("nombre", user.get "nombre"),
                                       ("email", user.get "email"), ("rol", user.get "rol")])] },
              db := db1, effects := [.query q] }

/-- Handler `GET /api/profile` (primero.js 374-395, index.js 373-394). -/
def profile (env : Env) (pool : Pool) (authorization : Option String) (db : Db) : Run :=
  let invalid : Response := { status := 400, body := messageBody "Token no válido." }
  match optionalBearer authorization with
  | none =>
    { response :=
        { status := 401, body := messageBody "Acceso denegado, token no proporcionado." },
      db := db, effects := [] }
  | some token =>
    if token = "" then
      { response :=
          { status := 401, body := messageBody "Acceso denegado, token no proporcionado." },
        db := db, effects := [] }
    else
      match jwtVerify env token with
      | .error _ => { response := invalid, db := db, effects := [] }
      | .ok decoded =>
        let q : Query := { text := Sql.selectProfileById, values := [decoded.get "id"] }
        match pool q db with
        | (.error _, db1) => { response := invalid, db := db1, effects := [.query q] }
        | (.ok result, db1) =>
          match result.rows.head? with
          | none =>
            { response := { status := 404, body := messageBody "Usuario no encontrado." },
              db := db1, effects := [.query q] }
          | some row =>
            { response := { status := 200, body := jsonObj row }, db := db1,
              effects := [.query q] }

/-- Handler `DELETE /api/usuarios/:id` (primero.js 190-202, index.js 152-164);
`id` is `req.params.id`. -/
def deleteUsuario (pool : Pool) (id : String) (db : Db) : Run :=
  let q : Query := { text := Sql.deleteUsuarioById, values := [JVal.str id] }
  match pool q db with
  | (.error _, db1) =>
    { response := { status := 500, body := errorBody "Error en el servidor" }, db := db1,
      effects := [.query q] }
  | (.ok result, db1) =>
    if result.rows.length = 0 then
      { response := { status := 404, body := errorBody "Usuario no encontrado" }, db := db1,
        effects := [.query q] }
    else
      { response :=
          { status := 200,
            body := Json.obj [("mensaje", Json.val (JVal.str "Usuario eliminado correctamente"))] },
        db := db1, effects := [.query q] }

/-- A login body whose password is a number. -/
def sampleNumericLogin : JObj :=
  [("email", JVal.str "ana@x.com"), ("password", JVal.num 123456)]

/-- The SELECT `POST /api/login` issues. -/
def loginQuery (body : JObj) : Query :=
  { text := Sql.selectUsuarioByEmail, values := [body.get "email"] }

/-- The sample environment with one more token, `ghost`: signed with the
process secret, unexpired, for an id that no row of the sample store has. -/
def ghostEnv : Env :=
  { sampleEnv with
    decode := fun s =>
      if s = "ghost" then
        some { sampleJwt with payload := [("id", JVal.num 99), ("email", JVal.str "gone@x.com")] }
      else sampleEnv.decode s }

/-- A login body for an email no row of the sample store has. -/
def sampleUnknownLogin : JObj :=
  [("email", JVal.str "nobody@x.com"), ("password", JVal.str "secret1")]

/-- A login body of user 7 with a wrong password. -/
def sampleWrongLogin : JObj :=
  [("email", JVal.str "ana@x.com"), ("password", JVal.str "wrong")]

/-! ## Resource endpoints: statements and results -/

/-- The resource tables other than `usuarios`. -/
inductive Tabla where
  | lugar
  | categoria
  | edificios
  | bloques
  | evaluaciones
  | wifi
  deriving DecidableEq, Repr

/-- The statements the resource endpoints send to the pool. -/
inductive CampusSql where
  /-- Text `INSERT INTO t (c1, ..., cn) VALUES ($1, ..., $n) RETURNING *` -/
  | insertInto (t : Tabla) (columns : List String)
  /-- Text `UPDATE t SET c1 = $1, ..., cn = $n WHERE id = $(n+1) RETURNING *` -/
  | updateById (t : Tabla) (columns : List String)
  /-- Text `DELETE FROM t WHERE id = $1`, followed by `RETURNING *` when
  `returning` is set -/
  | deleteById (t : Tabla) (returning : Bool)
  /-- Text `SELECT * FROM t WHERE id = $1` -/
  | selectById (t : Tabla)
  /-- Text `SELECT * FROM t` -/
  | selectAll (t : Tabla)
  /-- The four-way join of `GET /api/evaluaciones` (primero.js 867-888,
  index.js 873-894) -/
  | evaluacionesJoin
  deriving DecidableEq, Repr

/-- A call `pool.query(text, values)` of a resource endpoint. -/
structure CampusQuery where
  text : CampusSql
  values : List JVal
  deriving DecidableEq, Repr

/-- What a resolved query yields: the rows returned and the number of rows the
statement affected. -/
structure PgResult where
  rows : List JObj
  rowCount : Nat
  deriving DecidableEq, Repr

/-- A connection pool over a store whose state has type `σ`. -/
abbrev Store (σ : Type) := CampusQuery → σ → Except JsError PgResult × σ

/-- One run of a resource handler: the response it writes, the store it
leaves and the statements it issued, in order. -/
structure Out (σ : Type) where
  response : Response
  state : σ
  queries : List CampusQuery

/-- The response `res.status(500).json({ error: "Error en el servidor" })`. -/
def serverError : Response :=
  { status := 500, body := errorBody "Error en el servidor" }

/-- The body `{ mensaje: m }`. -/
def mensajeBody (m : String) : Json :=
  Json.obj [("mensaje", Json.val (JVal.str m))]

/-- The body `{ mensaje: m, key: row }`; the key is dropped by serialisation
when the row is `undefined`. -/
def wrapRow (m key : String) (row : Option JObj) : Json :=
  Json.obj (("mensaje", Json.val (JVal.str m)) ::
    match row with
    | some r => [(key, jsonObj r)]
    | none => [])

/-- The body `res.json(result.rows[0])`. -/
def bareRow (row : Option JObj) : Json :=
  match row with
  | some r => jsonObj r
  | none => Json.val JVal.undefined

/-! ## Resource endpoints: DELETE by id -/

/-- Handler `DELETE /api/wifi/:id` (primero.js 356-371, index.js 349-364). -/
def deleteWifi {σ : Type} (pool : Store σ) (id : String) (s : σ) : Out σ :=
  let q : CampusQuery := { text := .deleteById .wifi true, values := [JVal.str id] }
  match pool q s with
  | (.error _, s1) => { response := serverError, state := s1, queries := [q] }
  | (.ok result, s1) =>
    if result.rowCount = 0 then
      { response := { status := 404, body := errorBody "Registro WiFi no encontrado" },
        state := s1, queries := [q] }
    else
      { response := { status := 200, body := mensajeBody "Registro WiFi eliminado correctamente" },
        state := s1, queries := [q] }

/-- Handler `DELETE /api/lugar/:id` (primero.js 459-471, index.js 461-476). -/
def deleteLugar {σ : Type} (pool : Store σ) (id : String) (s : σ) : Out σ :=
  let q : CampusQuery := { text := .deleteById .lugar true, values := [JVal.str id] }
  match pool q s with
  | (.error _, s1) => { response := serverError, state := s1, queries := [q] }
  | (.ok result, s1) =>
    if result.rows.length = 0 then
      { response := { status := 404, body := errorBody "Lugar no encontrado" },
        state := s1, queries := [q] }
    else
      { response := { status := 200, body := wrapRow "Lugar eliminado" "lugar" result.rows.head? },
        state := s1, queries := [q] }

/-- Handler `DELETE /api/categorias/:id` (primero.js 552-571, index.js
563-584): a SELECT by id, then the DELETE when a row was found. -/
def deleteCategoria {σ : Type} (pool : Store σ) (id : String) (s : σ) : Out σ :=
  let check : CampusQuery := { text := .selectById .categoria, values := [JVal.str id] }
  match pool check s with
  | (.error _, s1) => { response := serverError, state := s1, queries := [check] }
  | (.ok checkResult, s1) =>
    if checkResult.rows.length = 0 then
      { response := { status := 404, body := errorBody "Categoría no encontrada" },
        state := s1, queries := [check] }
    else
      let del : CampusQuery := { text := .deleteById .categoria false, values := [JVal.str id] }
      match pool del s1 with
      | (.error _, s2) => { response := serverError, state := s2, queries := [check, del] }
      | (.ok _, s2) =>
        { response := { status := 200, body := mensajeBody "Categoría eliminada correctamente" },
          state := s2, queries := [check, del] }

/-- Handler `DELETE /api/edificios/:id` (primero.js 648-664, index.js
671-687). -/
def deleteEdificio {σ : Type} (pool : Store σ) (id : String) (s : σ) : Out σ :=
  let q : CampusQuery := { text := .deleteById .edificios true, values := [JVal.str id] }
  match pool q s with
  | (.error _, s1) => { response := serverError, state := s1, queries := [q] }
  | (.ok result, s1) =>
    if result.rows.length = 0 then
      { response := { status := 404, body := errorBody "Edificación no encontrada" },
        state := s1, queries := [q] }
    else
      { response := { status := 200, body := mensajeBody "Edificación eliminada correctamente" },
        state := s1, queries := [q] }

/-- Handler `DELETE /api/bloques/:id` (primero.js 841-860, index.js 847-866):
a SELECT by id, then the DELETE when a row was found. -/
def deleteBloque {σ : Type} (pool : Store σ) (id : String) (s : σ) : Out σ :=
  let check : CampusQuery := { text := .selectById .bloques, values := [JVal.str id] }
  match pool check s with
  | (.error _, s1) => { response := serverError, state := s1, queries := [check] }
  | (.ok checkResult, s1) =>
    if checkResult.rows.length = 0 then
      { response := { status := 404, body := errorBody "Bloque no encontrado" },
        state := s1, queries := [check] }
    else
      let del : CampusQuery := { text := .deleteById .bloques false, values := [JVal.str id] }
      match pool del s1 with
      | (.error _, s2) => { response := serverError, state := s2, queries := [check, del] }
      | (.ok _, s2) =>
        { response := { status := 200, body := mensajeBody "Bloque eliminado correctamente" },
          state := s2, queries := [check, del] }

/-- Handler `DELETE /api/evaluaciones/:id` (primero.js 945-960, index.js
996-1011). -/
def deleteEvaluacion {σ : Type} (pool : Store σ) (id : String) (s : σ) : Out σ :=
  let q : CampusQuery := { text := .deleteById .evaluaciones false, values := [JVal.str id] }
  match pool q s with
  | (.error _, s1) =>
    { response := { status := 500, body := errorBody "Error al eliminar evaluación" },
      state := s1, queries := [q] }
  | (.ok result, s1) =>
    if result.rowCount = 0 then
      { response := { status := 404, body := errorBody "Evaluación no encontrada" },
        state := s1, queries := [q] }
    else
      { response := { status := 200, body := messageBody "Evaluación eliminada correctamente" },
        state := s1, queries := [q] }

/-! ## Resource endpoints: PUT by id -/

/-- Handler `PUT /api/wifi/:id` (primero.js 331-353, index.js 324-346). -/
def putWifi {σ : Type} (pool : Store σ) (id : String) (body : JObj) (s : σ) : Out σ :=
  let nombre := body.get "nombre"
  let password := body.get "password"
  if !nombre.truthy || !password.truthy then
    { response := { status := 400, body := errorBody "Nombre y contraseña son obligatorios" },
      state := s, queries := [] }
  else
    let q : CampusQuery :=
      { text := .updateById .wifi ["nombre", "password"],
        values := [nombre, password, JVal.str id] }
    match pool q s with
    | (.error _, s1) => { response := serverError, state := s1, queries := [q] }
    | (.ok result, s1) =>
      if result.rowCount = 0 then
        { response := { status := 404, body := errorBody "Registro WiFi no encontrado" },
          state := s1, queries := [q] }
      else
        { response := { status := 200, body := bareRow result.rows.head? },
          state := s1, queries := [q] }

/-- Handler `PUT /api/lugar/:id` (primero.js 434-456, index.js 435-458). -/
def putLugar {σ : Type} (pool : Store σ) (id : String) (body : JObj) (s : σ) : Out σ :=
  let nombre := body.get "nombre"
  let fecha_creacion := body.get "fecha_creacion"
  if !nombre.truthy || !fecha_creacion.truthy then
    { response :=
        { status := 400, body := errorBody "Nombre y fecha de creación son obligatorios" },
      state := s, queries := [] }
  else
    let q : CampusQuery :=
      { text := .updateById .lugar ["nombre", "fecha_creacion"],
        values := [nombre, fecha_creacion, JVal.str id] }
    match pool q s with
    | (.error _, s1) => { response := serverError, state := s1, queries := [q] }
    | (.ok result, s1) =>
      if result.rows.length = 0 then
        { response := { status := 404, body := errorBody "Lugar no encontrado" },
          state := s1, queries := [q] }
      else
        { response :=
            { status := 200, body := wrapRow "Lugar actualizado" "lugar" result.rows.head? },
          state := s1, queries := [q] }

/-- Handler `PUT /api/categorias/:id` (primero.js 527-549, index.js 537-560). -/
def putCategoria {σ : Type} (pool : Store σ) (id : String) (body : JObj) (s : σ) : Out σ :=
  let nombre := body.get "nombre"
  if !nombre.truthy then
    { response := { status := 400, body := errorBody "El nombre es obligatorio" },
      state := s, queries := [] }
  else
    let q : CampusQuery :=
      { text := .updateById .categoria ["nombre"], values := [nombre, JVal.str id] }
    match pool q s with
    | (.error _, s1) => { response := serverError, state := s1, queries := [q] }
    | (.ok result, s1) =>
      if result.rows.length = 0 then
        { response := { status := 404, body := errorBody "Categoría no encontrada" },
          state := s1, queries := [q] }
      else
        { response :=
            { status := 200,
              body := wrapRow "Categoría modificada" "categoria" result.rows.head? },
          state := s1, queries := [q] }

/-- Handler `PUT /api/edificios/:id` (primero.js 627-645, index.js 648-668). -/
def putEdificio {σ : Type} (pool : Store σ) (id : String) (body : JObj) (s : σ) : Out σ :=
  let q : CampusQuery :=
    { text := .updateById .edificios ["nombre", "lugar_id", "categoria_id"],
      values := [body.get "nombre", body.get "lugar_id", body.get "categoria_id", JVal.str id] }
  match pool q s with
  | (.error _, s1) => { response := serverError, state := s1, queries := [q] }
  | (.ok result, s1) =>
    if result.rows.length = 0 then
      { response := { status := 404, body := errorBody "Edificación no encontrada" },
        state := s1, queries := [q] }
    else
      { response :=
          { status := 200,
            body := wrapRow "Edificación actualizada" "edificio" result.rows.head? },
        state := s1, queries := [q] }

/-- Handler `PUT /api/bloques/:id` (primero.js 816-838, index.js 822-844). -/
def putBloque {σ : Type} (pool : Store σ) (id : String) (body : JObj) (s : σ) : Out σ :=
  let q : CampusQuery :=
    { text := .updateById .bloques
        ["nombre", "descripcion", "latitud", "longitud", "edificios_id", "laboratorios"],
      values := [body.get "nombre", body.get "descripcion", body.get "latitud",
                 body.get "longitud", body.get "edificios_id", body.get "laboratorios",
                 JVal.str id] }
  match pool q s with
  | (.error _, s1) => { response := serverError, state := s1, queries := [q] }
  | (.ok result, s1) =>
    if result.rows.length = 0 then
      { response := { status := 404, body := errorBody "Bloque no encontrado" },
        state := s1, queries := [q] }
    else
      { response :=
          { status := 200, body := wrapRow "Bloque actualizado" "bloque" result.rows.head? },
        state := s1, queries := [q] }

/-- Handler `PUT /api/evaluaciones/:id` (primero.js 919-942, index.js
971-993). -/
def putEvaluacion {σ : Type} (pool : Store σ) (id : String) (body : JObj) (s : σ) : Out σ :=
  let q : CampusQuery :=
    { text := .updateById .evaluaciones
        ["nombre", "lugar_id", "categoria_id", "edificio_id", "bloque_id", "laboratorios",
         "fecha_inicio", "fecha_fin", "horarios"],
      values := [body.get "nombre", body.get "lugar_id", body.get "categoria_id",
                 body.get "edificio_id", body.get "bloque_id", body.get "laboratorios",
                 body.get "fecha_inicio", body.get "fecha_fin", body.get "horarios",
                 JVal.str id] }
  match pool q s with
  | (.error _, s1) =>
    { response := { status := 500, body := errorBody "Error al modificar evaluación" },
      state := s1, queries := [q] }
  | (.ok result, s1) =>
    if result.rowCount = 0 then
      { response := { status := 404, body := errorBody "Evaluación no encontrada" },
        state := s1, queries := [q] }
    else
      { response := { status := 200, body := bareRow result.rows.head? },
        state := s1, queries := [q] }

/-! ## Resource endpoints: POST -/

/-- Handler `POST /api/wifi` (primero.js 312-328, index.js 305-321). -/
def postWifi {σ : Type} (pool : Store σ) (body : JObj) (s : σ) : Out σ :=
  let nombre := body.get "nombre"
  let password := body.get "password"
  if !nombre.truthy || !password.truthy then
    { response := { status := 400, body := errorBody "Nombre y contraseña son obligatorios" },
      state := s, queries := [] }
  else
    let q : CampusQuery :=
      { text := .insertInto .wifi ["nombre", "password"], values := [nombre, password] }
    match pool q s with
    | (.error _, s1) => { response := serverError, state := s1, queries := [q] }
    | (.ok result, s1) =>
      { response := { status := 201, body := bareRow result.rows.head? },
        state := s1, queries := [q] }

/-- Handler `POST /api/lugar` (primero.js 415-431, index.js 414-432). -/
def postLugar {σ : Type} (pool : Store σ) (body : JObj) (s : σ) : Out σ :=
  let nombre := body.get "nombre"
  let fecha_creacion := body.get "fecha_creacion"
  if !nombre.truthy then
    { response := { status := 400, body := errorBody "El nombre es obligatorio" },
      state := s, queries := [] }
  else
    let q : CampusQuery :=
      { text := .insertInto .lugar ["nombre", "fecha_creacion"],
        values := [nombre, fecha_creacion] }
    match pool q s with
    | (.error _, s1) => { response := serverError, state := s1, queries := [q] }
    | (.ok result, s1) =>
      { response := { status := 201, body := wrapRow "Lugar agregado" "lugar" result.rows.head? },
        state := s1, queries := [q] }

/-- Handler `POST /api/categorias` (primero.js 508-524, index.js 516-534). -/
def postCategoria {σ : Type} (pool : Store σ) (body : JObj) (s : σ) : Out σ :=
  let nombre := body.get "nombre"
  if !nombre.truthy then
    { response := { status := 400, body := errorBody "El nombre es obligatorio" },
      state := s, queries := [] }
  else
    let q : CampusQuery := { text := .insertInto .categoria ["nombre"], values := [nombre] }
    match pool q s with
    | (.error _, s1) => { response := serverError, state := s1, queries := [q] }
    | (.ok result, s1) =>
      { response :=
          { status := 201,
            body := wrapRow "Categoría agregada" "categoria" result.rows.head? },
        state := s1, queries := [q] }

/-- Handler `POST /api/edificios` (primero.js 607-624, index.js 627-645). -/
def postEdificio {σ : Type} (pool : Store σ) (body : JObj) (s : σ) : Out σ :=
  let nombre := body.get "nombre"
  let lugar_id := body.get "lugar_id"
  let categoria_id := body.get "categoria_id"
  if !nombre.truthy || !lugar_id.truthy || !categoria_id.truthy then
    { response := { status := 400, body := errorBody "Todos los campos son obligatorios" },
      state := s, queries := [] }
  else
    let q : CampusQuery :=
      { text := .insertInto .edificios ["nombre", "lugar_id", "categoria_id"],
        values := [nombre, lugar_id, categoria_id] }
    match pool q s with
    | (.error _, s1) => { response := serverError, state := s1, queries := [q] }
    | (.ok result, s1) =>
      { response :=
          { status := 201,
            body := wrapRow "Edificación agregada" "edificio" result.rows.head? },
        state := s1, queries := [q] }

/-- The template literal that wraps `laboratorios.join(",")` in braces, with
`laboratorios` replaced by the empty array when it is not an array. -/
def laboratoriosLiteral (laboratorios : JVal) : String :=
  match laboratorios with
  | .arr xs => "\x7b" ++ ",".intercalate xs ++ "\x7d"
  | _ => "\x7b" ++ "\x7d"

/-- Handler `POST /api/bloques` (primero.js 789-813, index.js 794-818). -/
def postBloque {σ : Type} (pool : Store σ) (body : JObj) (s : σ) : Out σ :=
  let nombre := body.get "nombre"
  let edificios_id := body.get "edificios_id"
  if !nombre.truthy || !edificios_id.truthy then
    { response :=
        { status := 400, body := errorBody "El nombre y el edificio son obligatorios" },
      state := s, queries := [] }
  else
    let q : CampusQuery :=
      { text := .insertInto .bloques
          ["nombre", "descripcion", "latitud", "longitud", "edificios_id", "laboratorios"],
        values := [nombre, body.get "descripcion", body.get "latitud", body.get "longitud",
                   edificios_id, JVal.str (laboratoriosLiteral (body.get "laboratorios"))] }
    match pool q s with
    | (.error _, s1) => { response := serverError, state := s1, queries := [q] }
    | (.ok result, s1) =>
      { response :=
          { status := 201, body := wrapRow "Bloque agregado" "bloque" result.rows.head? },
        state := s1, queries := [q] }

/-- Handler `POST /api/evaluaciones` (primero.js 899-917, index.js 932-969). -/
def postEvaluacion {σ : Type} (pool : Store σ) (body : JObj) (s : σ) : Out σ :=
  let q : CampusQuery :=
    { text := .insertInto .evaluaciones
        ["nombre", "lugar_id", "categoria_id", "edificio_id", "bloque_id", "laboratorios",
         "fecha_inicio", "fecha_fin", "horarios"],
      values := [body.get "nombre", body.get "lugar_id", body.get "categoria_id",
                 body.get "edificio_id", body.get "bloque_id", body.get "laboratorios",
                 body.get "fecha_inicio", body.get "fecha_fin", body.get "horarios"] }
  match pool q s with
  | (.error _, s1) =>
    { response := { status := 500, body := errorBody "Error al crear evaluación" },
      state := s1, queries := [q] }
  | (.ok result, s1) =>
    { response := { status := 201, body := bareRow result.rows.head? },
      state := s1, queries := [q] }

/-! ## Resource endpoints: lists -/

/-- Handler `GET /api/lugar` (primero.js 401-412, index.js 399-410).
`connect` is the outcome of `await pool.connect()`, which sits before the
`try`: when it rejects, the handler ends with that rejection and writes no
response. -/
def getLugar {σ : Type} (connect : Except JsError Unit) (pool : Store σ) (s : σ) :
    Except JsError (Out σ) :=
  match connect with
  | .error e => .error e
  | .ok _ =>
    let q : CampusQuery := { text := .selectAll .lugar, values := [] }
    match pool q s with
    | (.error _, s1) =>
      .ok { response := { status := 500, body := errorBody "Error al cargar los lugares" },
            state := s1, queries := [q] }
    | (.ok result, s1) =>
      .ok { response := { status := 200, body := Json.list (result.rows.map jsonObj) },
            state := s1, queries := [q] }

/-- Handler `GET /api/evaluaciones` (primero.js 865-896, index.js 871-901). -/
def getEvaluaciones {σ : Type} (pool : Store σ) (s : σ) : Out σ :=
  let q : CampusQuery := { text := .evaluacionesJoin, values := [] }
  match pool q s with
  | (.error _, s1) => { response := serverError, state := s1, queries := [q] }
  | (.ok result, s1) =>
    { response := { status := 200, body := Json.list (result.rows.map jsonObj) },
      state := s1, queries := [q] }

/-! ## A model of the resource tables -/

/-- A row of a resource table: its serial `id` and its other columns, in
column order, as the driver returns them. -/
structure Fila where
  id : Int
  campos : JObj
  deriving DecidableEq, Repr

/-- The resource tables and the next value of each id sequence. -/
structure Campus where
  tabla : Tabla → List Fila
  serial : Tabla → Int

/-- The row object of `RETURNING *` / `SELECT *`. -/
def Fila.obj (r : Fila) : JObj :=
  ("id", JVal.num r.id) :: r.campos

/-- The value a column holds after a parameter is written to it: `undefined`
is sent as SQL `NULL`. -/
def pgStored : JVal → JVal
  | .undefined => JVal.null
  | v => v

/-- A column of a row; `NULL` when the row has no such column. -/
def Fila.col (r : Fila) (c : String) : JVal :=
  pgStored (r.campos.get c)

/-- The effect of `SET c1 = v1, ...` on a row: assigned columns take the new
value, the others keep theirs. -/
def Fila.assign (r : Fila) (assignments : JObj) : Fila :=
  { r with campos := r.campos.map fun kv => (kv.1, (assignments.lookup kv.1).getD kv.2) }

/-- Whether the row is the one a `WHERE id = $n` with the given key selects. -/
def Fila.hit (key : Option Int) (r : Fila) : Bool :=
  some r.id == key

/-- Whether a stored reference equals the id of a row (`ON e.x_id = r.id`). -/
def refiere (ref : JVal) (r : Fila) : Bool :=
  match pgInt ref with
  | .ok (some k) => r.id == k
  | _ => false

/-- The select list of `GET /api/evaluaciones` for an evaluation `e` joined
with a place `l`, a category `c`, a building `ed` and a block `b`. -/
def enriched (e l c ed b : Fila) : JObj :=
  [("id", JVal.num e.id), ("nombre", e.col "nombre"),
   ("lugar_id", e.col "lugar_id"), ("lugar_nombre", l.col "nombre"),
   ("categoria_id", e.col "categoria_id"), ("categoria_nombre", c.col "nombre"),
   ("edificio_id", e.col "edificio_id"), ("edificio_nombre", ed.col "nombre"),
   ("bloque_id", e.col "bloque_id"), ("bloque_nombre", b.col "nombre"),
   ("laboratorios", e.col "laboratorios"), ("fecha_inicio", e.col "fecha_inicio"),
   ("fecha_fin", e.col "fecha_fin"), ("horarios", e.col "horarios")]

/-- The rows the join of `GET /api/evaluaciones` produces for one evaluation:
one per combination of a place, a category, a building and a block that its
four references match. -/
def evaluacionRows (s : Campus) (e : Fila) : List JObj :=
  ((s.tabla .lugar).filter (refiere (e.col "lugar_id"))).flatMap fun l =>
  ((s.tabla .categoria).filter (refiere (e.col "categoria_id"))).flatMap fun c =>
  ((s.tabla .edificios).filter (refiere (e.col "edificio_id"))).flatMap fun ed =>
  ((s.tabla .bloques).filter (refiere (e.col "bloque_id"))).map fun b =>
    enriched e l c ed b

/-- The rows of `FROM evaluaciones e JOIN lugar l ON ... JOIN categoria c ON ...
JOIN edificios ed ON ... JOIN bloques b ON ...`, read as inner joins. -/
def evaluacionesJoinRows (s : Campus) : List JObj :=
  (s.tabla .evaluaciones).flatMap (evaluacionRows s)

/-- The rejection for a statement whose parameter count does not fit. -/
def bindError : JsError :=
  { code := some "08P01", message := "bind message supplies the wrong number of parameters" }

/-- Modelled from the spec: the resource tables of the relational store (the
schema is not part of the sources). Every table has a serial `id`; a column
keeps the parameter written to it; no constraint other than the id sequence
is modelled; a statement touches its table in a single step. -/
def campusQuery : Store Campus := fun q s =>
  match q.text with
  | .insertInto t columns =>
    if columns.length ≠ q.values.length then (.error bindError, s)
    else
      let row : Fila := { id := s.serial t, campos := columns.zip (q.values.map pgStored) }
      (.ok { rows := [row.obj], rowCount := 1 },
       { tabla := Function.update s.tabla t (s.tabla t ++ [row]),
         serial := Function.update s.serial t (s.serial t + 1) })
  | .updateById t columns =>
    if q.values.length ≠ columns.length + 1 then (.error bindError, s)
    else
      match pgInt ((q.values.drop columns.length).headD JVal.undefined) with
      | .error e => (.error e, s)
      | .ok key =>
        let assignments := columns.zip ((q.values.take columns.length).map pgStored)
        let updated := ((s.tabla t).filter (Fila.hit key)).map fun r => r.assign assignments
        (.ok { rows := updated.map Fila.obj, rowCount := updated.length },
         { s with
           tabla := Function.update s.tabla t
             ((s.tabla t).map fun r => if r.hit key then r.assign assignments else r) })
  | .deleteById t returning =>
    match q.values with
    | [id] =>
      match pgInt id with
      | .error e => (.error e, s)
      | .ok key =>
        let removed := (s.tabla t).filter (Fila.hit key)
        (.ok { rows := if returning then removed.map Fila.obj else [],
               rowCount := removed.length },
         { s with
           tabla := Function.update s.tabla t ((s.tabla t).filter fun r => !r.hit key) })
    | _ => (.error bindError, s)
  | .selectById t =>
    match q.values with
    | [id] =>
      match pgInt id with
      | .error e => (.error e, s)
      | .ok key =>
        let found := (s.tabla t).filter (Fila.hit key)
        (.ok { rows := found.map Fila.obj, rowCount := found.length }, s)
    | _ => (.error bindError, s)
  | .selectAll t =>
    match q.values with
    | [] => (.ok { rows := (s.tabla t).map Fila.obj, rowCount := (s.tabla t).length }, s)
    | _ => (.error bindError, s)
  | .evaluacionesJoin =>
    match q.values with
    | [] =>
      (.ok { rows := evaluacionesJoinRows s, rowCount := (evaluacionesJoinRows s).length }, s)
    | _ => (.error bindError, s)

/-! ## The resource endpoints by table -/

/-- The columns each resource's INSERT and UPDATE statements list: the
mutable columns of the table. -/
def columnas : Tabla → List String
  | .lugar => ["nombre", "fecha_creacion"]
  | .categoria => ["nombre"]
  | .edificios => ["nombre", "lugar_id", "categoria_id"]
  | .bloques => ["nombre", "descripcion", "latitud", "longitud", "edificios_id", "laboratorios"]
  | .evaluaciones =>
    ["nombre", "lugar_id", "categoria_id", "edificio_id", "bloque_id", "laboratorios",
     "fecha_inicio", "fecha_fin", "horarios"]
  | .wifi => ["nombre", "password"]

/-- The DELETE-by-id handler of each resource. -/
def deleteRecurso {σ : Type} : Tabla → Store σ → String → σ → Out σ
  | .lugar => deleteLugar
  | .categoria => deleteCategoria
  | .edificios => deleteEdificio
  | .bloques => deleteBloque
  | .evaluaciones => deleteEvaluacion
  | .wifi => deleteWifi

/-- The PUT-by-id handler of each resource. -/
def putRecurso {σ : Type} : Tabla → Store σ → String → JObj → σ → Out σ
  | .lugar => putLugar
  | .categoria => putCategoria
  | .edificios => putEdificio
  | .bloques => putBloque
  | .evaluaciones => putEvaluacion
  | .wifi => putWifi

/-- The POST handler of each resource. -/
def postRecurso {σ : Type} : Tabla → Store σ → JObj → σ → Out σ
  | .lugar => postLugar
  | .categoria => postCategoria
  | .edificios => postEdificio
  | .bloques => postBloque
  | .evaluaciones => postEvaluacion
  | .wifi => postWifi

/-- The body fields whose presence each PUT handler checks before it issues
its UPDATE. -/
def putRequired : Tabla → List String
  | .lugar => ["nombre", "fecha_creacion"]
  | .categoria => ["nombre"]
  | .wifi => ["nombre", "password"]
  | _ => []

/-- The body fields whose presence each POST handler checks before it issues
its INSERT. -/
def postRequired : Tabla → List String
  | .lugar => ["nombre"]
  | .categoria => ["nombre"]
  | .edificios => ["nombre", "lugar_id", "categoria_id"]
  | .bloques => ["nombre", "edificios_id"]
  | .wifi => ["nombre", "password"]
  | .evaluaciones => []

/-- Whether every listed field of the body is truthy. -/
def present (fields : List String) (body : JObj) : Bool :=
  fields.all fun k => (body.get k).truthy

/-- The parameters of each resource's INSERT, in column order. -/
def postValues (t : Tabla) (body : JObj) : List JVal :=
  match t with
  | .bloques =>
    [body.get "nombre", body.get "descripcion", body.get "latitud", body.get "longitud",
     body.get "edificios_id", JVal.str (laboratoriosLiteral (body.get "laboratorios"))]
  | t => (columnas t).map body.get

/-- The columns of a row written from a request body, omitted fields as
`NULL`. -/
def bodyCampos (t : Tabla) (body : JObj) : JObj :=
  (columnas t).map fun c => (c, pgStored (body.get c))

/-- A store with two places, one category, one building, one block, one
wifi record and two evaluations, the second of which refers to a block that
does not exist. -/
def sampleCampus : Campus :=
  { tabla := fun t =>
      match t with
      | .lugar =>
        [{ id := 1, campos := [("nombre", JVal.str "Campus Sur"),
                               ("fecha_creacion", JVal.str "2020-05-05")] },
         { id := 2, campos := [("nombre", JVal.str "Campus Centro"),
                               ("fecha_creacion", JVal.str "2021-06-06")] }]
      | .categoria => [{ id := 1, campos := [("nombre", JVal.str "Aulas")] }]
      | .edificios =>
        [{ id := 1, campos := [("nombre", JVal.str "Edificio A"), ("lugar_id", JVal.num 1),
                               ("categoria_id", JVal.num 1)] }]
      | .bloques =>
        [{ id := 1, campos := [("nombre", JVal.str "Bloque 1"), ("descripcion", JVal.null),
                               ("latitud", JVal.str "-2.14"), ("longitud", JVal.str "-79.96"),
                               ("edificios_id", JVal.num 1),
                               ("laboratorios", JVal.arr ["L1", "L2"])] }]
      | .evaluaciones =>
        [{ id := 1, campos := [("nombre", JVal.str "Parcial"), ("lugar_id", JVal.num 1),
                               ("categoria_id", JVal.num 1), ("edificio_id", JVal.num 1),
                               ("bloque_id", JVal.num 1), ("laboratorios", JVal.arr ["L1"]),
                               ("fecha_inicio", JVal.str "2024-01-10"),
                               ("fecha_fin", JVal.str "2024-01-11"),
                               ("horarios", JVal.str "08:00")] },
         { id := 2, campos := [("nombre", JVal.str "Final"), ("lugar_id", JVal.num 1),
                               ("categoria_id", JVal.num 1), ("edificio_id", JVal.num 1),
                               ("bloque_id", JVal.num 77), ("laboratorios", JVal.arr []),
                               ("fecha_inicio", JVal.str "2024-02-10"),
                               ("fecha_fin", JVal.str "2024-02-11"),
                               ("horarios", JVal.str "10:00")] }]
      | .wifi => [{ id := 1, campos := [("nombre", JVal.str "campus-wifi"),
                                        ("password", JVal.str "clave")] }]
    serial := fun t =>
      match t with
      | .lugar => 3
      | .evaluaciones => 3
      | _ => 2 }

/-- The body of the spec's read-back example for Place. -/
def sampleLugarBody : JObj :=
  [("nombre", JVal.str "Campus Norte"), ("fecha_creacion", JVal.str "2024-01-01")]

/-- The body of each resource's 201 response for a created row. -/
def postBody (t : Tabla) (row : JObj) : Json :=
  match t with
  | .lugar => wrapRow "Lugar agregado" "lugar" (some row)
  | .categoria => wrapRow "Categoría agregada" "categoria" (some row)
  | .edificios => wrapRow "Edificación agregada" "edificio" (some row)
  | .bloques => wrapRow "Bloque agregado" "bloque" (some row)
  | .evaluaciones => bareRow (some row)
  | .wifi => bareRow (some row)

/-- The row the model store creates for a POST body. -/
def postFila (t : Tabla) (body : JObj) (s : Campus) : Fila :=
  { id := s.serial t, campos := (columnas t).zip ((postValues t body).map pgStored) }

/-! ## List queries with optional filters -/

/-- The two statements `params.push(v)` and
`query += " AND col = $" + params.length` of the edificios list handler. -/
def pushAnd (q : String × List JVal) (col : String) (v : JVal) : String × List JVal :=
  let params := q.2 ++ [v]
  (q.1 ++ " AND " ++ col ++ " = $" ++ toString params.length, params)

/-- The query text and parameters `GET /api/edificios` builds in primero.js
(576-598) from `req.query`: filters `id`, `categoria_id`, `lugar_id`. -/
def edificiosListQuery (query : JObj) : String × List JVal :=
  let q0 : String × List JVal := ("SELECT * FROM edificios WHERE 1=1", [])
  let q1 := if (query.get "id").truthy then pushAnd q0 "id" (query.get "id") else q0
  let q2 :=
    if (query.get "categoria_id").truthy then pushAnd q1 "categoria_id" (query.get "categoria_id")
    else q1
  if (query.get "lugar_id").truthy then pushAnd q2 "lugar_id" (query.get "lugar_id") else q2

/-- The query text and parameters `GET /api/edificios` builds in index.js
(590-606): only `categoria_id` and `lugar_id` are read from `req.query`. -/
def edificiosListQueryIndex (query : JObj) : String × List JVal :=
  let q0 : String × List JVal := ("SELECT * FROM edificios WHERE 1=1", [])
  let q1 :=
    if (query.get "categoria_id").truthy then pushAnd q0 "categoria_id" (query.get "categoria_id")
    else q0
  if (query.get "lugar_id").truthy then pushAnd q1 "lugar_id" (query.get "lugar_id") else q1

/-- The two statements `values.push(v)` and
`conditions.push("col = $" + values.length)` of the bloques list handler. -/
def pushCondition (c : List String × List JVal) (col : String) (v : JVal) :
    List String × List JVal :=
  let values := c.2 ++ [v]
  (c.1 ++ [col ++ " = $" ++ toString values.length], values)

/-- The query text and parameters `GET /api/bloques` builds (primero.js
723-764, index.js 741-778) from `req.query`; `select` is the handler's
`SELECT ... FROM bloques JOIN edificios ...` text, which differs between the
two files. -/
def bloquesListQuery (select : String) (query : JObj) : String × List JVal :=
  let c0 : List String × List JVal := ([], [])
  let c1 :=
    if (query.get "edificio_id").truthy then
      pushCondition c0 "bloques.edificios_id" (query.get "edificio_id")
    else c0
  let c2 :=
    if (query.get "lugar_id").truthy then
      pushCondition c1 "edificios.lugar_id" (query.get "lugar_id")
    else c1
  let c3 :=
    if (query.get "categoria_id").truthy then
      pushCondition c2 "edificios.categoria_id" (query.get "categoria_id")
    else c2
  if c3.1.length > 0 then (select ++ " WHERE " ++ " AND ".intercalate c3.1, c3.2)
  else (select, c3.2)

/-- The filters of the edificios list in primero.js, in the order they are
tested: column and query parameter. -/
def edificiosFilters : List (String × String) :=
  [("id", "id"), ("categoria_id", "categoria_id"), ("lugar_id", "lugar_id")]

/-- The filters of the edificios list in index.js. -/
def edificiosFiltersIndex : List (String × String) :=
  [("categoria_id", "categoria_id"), ("lugar_id", "lugar_id")]

/-- The filters of the bloques list. -/
def bloquesFilters : List (String × String) :=
  [("bloques.edificios_id", "edificio_id"), ("edificios.lugar_id", "lugar_id"),
   ("edificios.categoria_id", "categoria_id")]

/-- The filters a request supplies: those whose parameter is truthy, in
order, each with its column and value. -/
def supplied (filters : List (String × String)) (query : JObj) : List (String × JVal) :=
  (filters.filter fun f => (query.get f.2).truthy).map fun f => (f.1, query.get f.2)

/-- One equality condition per supplied filter, the k-th one comparing its
column with placeholder number k. -/
def conditionsOf (sup : List (String × JVal)) : List String :=
  sup.enum.map fun p => p.2.1 ++ " = $" ++ toString (p.1 + 1)

/-- A query string that supplies `id` and `lugar_id`. -/
def sampleFilters : JObj :=
  [("id", JVal.str "5"), ("lugar_id", JVal.str "2")]

/-- The enriched view of one evaluation as the spec words it: the evaluation
with the names of the place, category, building and block it refers to, when
all four exist. -/
def enrich? (s : Campus) (e : Fila) : Option JObj :=
  match (s.tabla .lugar).find? (refiere (e.col "lugar_id")),
        (s.tabla .categoria).find? (refiere (e.col "categoria_id")),
        (s.tabla .edificios).find? (refiere (e.col "edificio_id")),
        (s.tabla .bloques).find? (refiere (e.col "bloque_id")) with
  | some l, some c, some ed, some b => some (enriched e l c ed b)
  | _, _, _, _ => none

/-- Whether the ids of a table are pairwise distinct. -/
def uniqueIds (rows : List Fila) : Prop :=
  (rows.map Fila.id).Nodup

/-! ## Logout and the index.js copies of the authentication handlers -/

/-- Handler `POST /api/logout` (primero.js 208-214, index.js 175-185). The
header is read only to write a log line; no call is made and the store is
not touched. -/
def logout (authorization : Option String) (db : Db) : Run :=
  let _token := authorization
  { response := { status := 200, body := messageBody "Sesión cerrada correctamente" },
    db := db, effects := [] }

/-- Handler `POST /register` as written in index.js 191-235. -/
def registerIndex (env : Env) (pool : Pool) (body : JObj) (db : Db) : Run :=
  let nombre := body.get "nombre"
  let apellido := body.get "apellido"
  let email := body.get "email"
  let cedula := body.get "cedula"
  let password := body.get "password"
  let rol := body.get "rol"
  let userRole := if rol.truthy then rol else JVal.str "estudiante"
  if !nombre.truthy || !apellido.truthy || !email.truthy || !cedula.truthy
      || !password.truthy then
    { response := { status := 400, body := errorBody "Todos los campos son obligatorios" },
      db := db, effects := [] }
  else
    match bcryptHash env password with
    | .error e =>
      { response :=
          if e.code = some "23505" then
            { status := 400, body := errorBody "El correo ya está registrado" }
          else { status := 500, body := errorBody e.message },
        db := db, effects := [.hash password] }
    | .ok hashedPassword =>
      match jwtSign env [("email", email)] "1h" with
      | .error e =>
        { response :=
            if e.code = some "23505" then
              { status := 400, body := errorBody "El correo ya está registrado" }
            else { status := 500, body := errorBody e.message },
          db := db, effects := [.hash password, .sign [("email", email)] "1h"] }
      | .ok token =>
        let q : Query :=
          { text := Sql.insertUsuarioToken,
            values := [nombre, apellido, email, cedula, JVal.str hashedPassword,
                       JVal.str token, userRole] }
        match pool q db with
        | (.error e, db1) =>
          { response :=
              if e.code = some "23505" then
                { status := 400, body := errorBody "El correo ya está registrado" }
              else { status := 500, body := errorBody e.message },
            db := db1,
            effects := [.hash password, .sign [("email", email)] "1h", .query q] }
        | (.ok result, db1) =>
          match result.rows.head? with
          | none =>
            { response := { status := 500, body := errorBody undefinedReadError.message },
              db := db1,
              effects := [.hash password, .sign [("email", email)] "1h", .query q] }
          | some user =>
            { response :=
                { status := 201,
                  body := Json.obj
                    [("message", Json.val (JVal.str "Usuario registrado con éxito")),
                     ("token", Json.val (JVal.str token)),
                     ("usuario", jsonObj [("id", user.get "id"), ("nombre", user.get "nombre"),
                                          ("email", user.get "email"),
                                          ("rol", user.get "rol")])] },
              db := db1,
              effects := [.hash password, .sign [("email", email)] "1h", .query q] }

/-- Handler `POST /api/login` as written in index.js 240-283. -/
def loginIndex (env : Env) (pool : Pool) (body : JObj) (db : Db) : Run :=
  let email := body.get "email"
  let password := body.get "password"
  if !email.truthy || !password.truthy then
    { response := { status := 400, body := errorBody "Email y contraseña son obligatorios" },
      db := db, effects := [] }
  else
    let q : Query := { text := Sql.selectUsuarioByEmail, values := [email] }
    match pool q db with
    | (.error err, db1) =>
      { response := { status := 500, body := errorBody err.message }, db := db1,
        effects := [.query q] }
    | (.ok result, db1) =>
      if result.rows.length = 0 then
        { response := { status := 401, body := errorBody "Correo no registrado" }, db := db1,
          effects := [.query q] }
      else
        match result.rows.head? with
        | none =>
          { response := { status := 500, body := errorBody undefinedReadError.message },
            db := db1, effects := [.query q] }
        | some user =>
          match bcryptCompare env password (user.get "password") with
          | .error err =>
            { response := { status := 500, body := errorBody err.message }, db := db1,
              effects := [.query q, .compare password (user.get "password")] }
          | .ok passwordMatch =>
            if !passwordMatch then
              { response := { status := 401, body := errorBody "Contraseña incorrecta" },
                db := db1, effects := [.query q, .compare password (user.get "password")] }
            else
              match jwtSign env [("id", user.get "id"), ("email", user.get "email")] "1h" with
              | .error err =>
                { response := { status := 500, body := errorBody err.message }, db := db1,
                  effects := [.query q, .compare password (user.get "password"),
                              .sign [("id", user.get "id"), ("email", user.get "email")] "1h"] }
              | .ok token =>
                { response :=
                    { status := 200,
                      body := Json.obj
                        [("message", Json.val (JVal.str "Login exitoso")),
                         ("token", Json.val (JVal.str token)),
                         ("usuario",
                          jsonObj [("id", user.get "id"), ("nombre", user.get "nombre"),
                                   ("email", user.get "email"), ("rol", user.get "rol")])] },
                  db := db1,
                  effects := [.query q, .compare password (user.get "password"),
                              .sign [("id", user.get "id"), ("email", user.get "email")] "1h"] }

/-- A registration body that asks for the role `admin`. -/
def sampleAdminBody : JObj :=
  [("nombre", JVal.str "Eva"), ("apellido", JVal.str "Paz"), ("email", JVal.str "eva@x.com"),
   ("cedula", JVal.str "789"), ("password", JVal.str "secret2"), ("rol", JVal.str "admin")]

/-- The `rol` the 201 response of `POST /register` echoes, if any. -/
def echoedRol (r : Run) : Option Json :=
  match r.response.body.field "usuario" with
  | some usuario => usuario.field "rol"
  | none => none

/-! ## Tokens of the two issuing endpoints, for the identity endpoints -/

/-- The token `POST /api/login` mints for the row with the given id and
email when signing succeeds. -/
def loginToken (env : Env) (id : Int) (email : String) : String :=
  env.encode (signedContent env [("id", JVal.num id), ("email", JVal.str email)] 3600)

/-- The sample environment with a codec that also decodes `reg`, the token
the sample registration mints. -/
def regEnv : Env :=
  { sampleEnv with
    decode := fun s =>
      if s = "reg" then some (signedContent sampleEnv [("email", JVal.str "eva@x.com")] 3600)
      else sampleEnv.decode s }

/-- The two lookups by id of the identity endpoints. -/
def identityLookups : List Sql :=
  [Sql.selectVerifyById, Sql.selectProfileById]

/-- The registration body of the worked example: no role. -/
def anaBody : JObj :=
  [("nombre", JVal.str "Ana"), ("apellido", JVal.str "Ruiz"), ("email", JVal.str "ana@x.com"),
   ("cedula", JVal.str "123"), ("password", JVal.str "secret1")]

/-- A store with no users whose id sequence stands at 7. -/
def emptyDb : Db :=
  { usuarios := [], nextId := 7 }

/-- The sample environment at the time the sample token was issued. -/
def anaEnv : Env :=
  { sampleEnv with now := 1000 }

/-- The body of the 200 response of `GET /api/profile` for a row. -/
def profileBody (u : Usuario) : Json :=
  Json.obj
    [("nombre", Json.val (colVal u.nombre)), ("apellido", Json.val (colVal u.apellido)),
     ("email", Json.val (colVal u.email)), ("rol", Json.val (colVal u.rol))]

/-! ## `PUT /api/usuarios/:id` and `GET /api/usuarios` -/

/-- The code points `String.prototype.trim` strips: the ECMAScript white space
and line terminator characters. -/
def jsWhiteSpace (c : Char) : Bool :=
  let n := c.toNat
  n == 9 || n == 10 || n == 11 || n == 12 || n == 13 || n == 32 || n == 160 || n == 5760
    || (8192 ≤ n && n ≤ 8202) || n == 8232 || n == 8233 || n == 8239 || n == 8287
    || n == 12288 || n == 65279

/-- The method `String.prototype.trim`. -/
def jsTrim (s : String) : String :=
  String.mk ((s.data.dropWhile jsWhiteSpace).reverse.dropWhile jsWhiteSpace).reverse

/-- The response of the `catch` block of `PUT /api/usuarios/:id`. -/
def putUsuarioFailed : Response :=
  { status := 500, body := errorBody "Error al actualizar usuario" }

/-- The tail of `PUT /api/usuarios/:id` once `query` and `values` are chosen
(primero.js 173-180): issue the statement, answer 404 when no row was touched
and the first returned row otherwise. For a statement with `RETURNING *` the
driver's `rowCount` is the number of rows returned. -/
def putUsuarioRun (pool : Pool) (before : List Effect) (q : Query) (db : Db) : Run :=
  match pool q db with
  | (.error _, db1) =>
    { response := putUsuarioFailed, db := db1, effects := before ++ [.query q] }
  | (.ok result, db1) =>
    if result.rows.length = 0 then
      { response := { status := 404, body := messageBody "Usuario no encontrado" }, db := db1,
        effects := before ++ [.query q] }
    else
      { response :=
          { status := 200,
            body := match result.rows.head? with
              | some row => jsonObj row
              | none => Json.val JVal.undefined },
        db := db1, effects := before ++ [.query q] }

/-- Handler `PUT /api/usuarios/:id` (primero.js 148-185, index.js 110-147);
`id` is `req.params.id`. A truthy password that is not a string has no `trim`
method, so the test throws inside the `try`. -/
def putUsuario (env : Env) (pool : Pool) (id : String) (body : JObj) (db : Db) : Run :=
  let nombre := body.get "nombre"
  let apellido := body.get "apellido"
  let email := body.get "email"
  let cedula := body.get "cedula"
  let rol := body.get "rol"
  let password := body.get "password"
  let unchanged : Query :=
    { text := Sql.updateUsuario, values := [nombre, apellido, email, cedula, rol, JVal.str id] }
  if password.truthy then
    match password with
    | .str pw =>
      if jsTrim pw ≠ "" then
        match bcryptHash env password with
        | .error _ => { response := putUsuarioFailed, db := db, effects := [.hash password] }
        | .ok hashedPassword =>
          putUsuarioRun pool [.hash password]
            { text := Sql.updateUsuarioPassword,
              values := [nombre, apellido, email, cedula, rol, JVal.str hashedPassword,
                         JVal.str id] } db
      else putUsuarioRun pool [] unchanged db
    | _ => { response := putUsuarioFailed, db := db, effects := [] }
  else putUsuarioRun pool [] unchanged db

/-- Handler `GET /api/usuarios` (primero.js 113-120, index.js 75-82). -/
def getUsuarios (pool : Pool) (db : Db) : Run :=
  let q : Query := { text := Sql.selectUsuarios, values := [] }
  match pool q db with
  | (.error err, db1) =>
    { response := { status := 500, body := errorBody err.message }, db := db1,
      effects := [.query q] }
  | (.ok result, db1) =>
    { response := { status := 200, body := Json.list (result.rows.map jsonObj) }, db := db1,
      effects := [.query q] }

/-- The password a body gives to `PUT /api/usuarios/:id`: a string that is
not empty after trimming, if the body has one. -/
def givenPassword (body : JObj) : Option String :=
  match body.get "password" with
  | .str pw => if jsTrim pw ≠ "" then some pw else none
  | _ => none

/-- A password field that is absent, empty or made of white space only. -/
def blankPassword (v : JVal) : Prop :=
  v = JVal.undefined ∨ v = JVal.null ∨ ∃ pw, v = JVal.str pw ∧ jsTrim pw = ""

/-- The statements among the calls of a run. -/
def Run.queries (r : Run) : List Query :=
  r.effects.filterMap fun e =>
    match e with
    | .query q => some q
    | _ => none

/-- The parameters of the five columns every `PUT /api/usuarios/:id` writes,
followed by the id. -/
def putUsuarioValues (id : String) (body : JObj) (password : List JVal) : List JVal :=
  [body.get "nombre", body.get "apellido", body.get "email", body.get "cedula",
   body.get "rol"] ++ password ++ [JVal.str id]

/-- A body for `PUT /api/usuarios/7` with a new password. -/
def samplePutPassword : JObj :=
  [("nombre", JVal.str "Ana"), ("apellido", JVal.str "Ruiz"), ("email", JVal.str "ana@y.com"),
   ("cedula", JVal.str "123"), ("rol", JVal.str "admin"), ("password", JVal.str "nueva")]

/-- A body for `PUT /api/usuarios/7` whose password is white space. -/
def samplePutBlank : JObj :=
  [("nombre", JVal.str "Ana"), ("apellido", JVal.str "Ruiz"), ("email", JVal.str "ana@y.com"),
   ("cedula", JVal.str "123"), ("rol", JVal.str "admin"), ("password", JVal.str "  ")]

/-! ## Reading a text-array literal -/

/-- The characters PostgreSQL's array input skips as white space. -/
def pgArraySpace (c : Char) : Bool :=
  c == ' ' || c == Char.ofNat 9 || c == Char.ofNat 10 || c == Char.ofNat 11
    || c == Char.ofNat 12 || c == Char.ofNat 13

/-- Where the reader of an array literal stands: before an element, inside an
unquoted or a quoted element (`esc` after a backslash), after a closing
quote, or after the closing brace. -/
inductive ArrayPos where
  | before
  | unquoted (esc : Bool)
  | quoted (esc : Bool)
  | afterQuote
  | closed
  deriving DecidableEq, Repr

/-- The value of an unquoted element: SQL `NULL` for the bare word `NULL` in
any letter case, the text otherwise. -/
def pgBareElement (text : List Char) (escaped : Bool) : Option String :=
  if !escaped && text.map Char.toUpper = ['N', 'U', 'L', 'L'] then none
  else some (String.mk text)

/-- The reader of the elements of a one-dimensional text-array literal, after
its opening brace. `cur` is the text of the current element so far, `pending`
the white space read after it that counts only if more text follows (both
newest first), `escaped` whether the element used a backslash, and `out` the
elements read so far, newest first. The result is `none` for a literal
PostgreSQL rejects as malformed or reads as having more than one dimension. -/
def pgArrayElements :
    List Char → ArrayPos → List Char → List Char → Bool → List (Option String) →
      Option (List (Option String))
  | [], .closed, _, _, _, out => some out.reverse
  | [], _, _, _, _, _ => none
  | c :: rest, .closed, cur, pending, escaped, out =>
    if pgArraySpace c then pgArrayElements rest .closed cur pending escaped out else none
  | c :: rest, .before, _, _, _, out =>
    if pgArraySpace c then pgArrayElements rest .before [] [] false out
    else if c = Char.ofNat 125 then
      (if out = [] then pgArrayElements rest .closed [] [] false out else none)
    else if c = ',' ∨ c = Char.ofNat 123 then none
    else if c = Char.ofNat 34 then pgArrayElements rest (.quoted false) [] [] true out
    else if c = Char.ofNat 92 then pgArrayElements rest (.unquoted true) [] [] true out
    else pgArrayElements rest (.unquoted false) [c] [] false out
  | c :: rest, .unquoted true, cur, pending, escaped, out =>
    pgArrayElements rest (.unquoted false) (c :: (pending ++ cur)) [] escaped out
  | c :: rest, .unquoted false, cur, pending, escaped, out =>
    if c = ',' then
      pgArrayElements rest .before [] [] false (pgBareElement cur.reverse escaped :: out)
    else if c = Char.ofNat 125 then
      pgArrayElements rest .closed [] [] false (pgBareElement cur.reverse escaped :: out)
    else if c = Char.ofNat 123 ∨ c = Char.ofNat 34 then none
    else if c = Char.ofNat 92 then pgArrayElements rest (.unquoted true) cur pending true out
    else if pgArraySpace c then
      pgArrayElements rest (.unquoted false) cur (c :: pending) escaped out
    else pgArrayElements rest (.unquoted false) (c :: (pending ++ cur)) [] escaped out
  | c :: rest, .quoted true, cur, pending, escaped, out =>
    pgArrayElements rest (.quoted false) (c :: cur) pending escaped out
  | c :: rest, .quoted false, cur, pending, escaped, out =>
    if c = Char.ofNat 34 then pgArrayElements rest .afterQuote cur pending escaped out
    else if c = Char.ofNat 92 then pgArrayElements rest (.quoted true) cur pending escaped out
    else pgArrayElements rest (.quoted false) (c :: cur) pending escaped out
  | c :: rest, .afterQuote, cur, pending, escaped, out =>
    if pgArraySpace c then pgArrayElements rest .afterQuote cur pending escaped out
    else if c = ',' then
      pgArrayElements rest .before [] [] false (some (String.mk cur.reverse) :: out)
    else if c = Char.ofNat 125 then
      pgArrayElements rest .closed [] [] false (some (String.mk cur.reverse) :: out)
    else none

/-- The sequence a string denotes when PostgreSQL reads it as a literal of
type `text[]` (its documented array input syntax, one dimension): elements
separated by commas between braces, white space around an element skipped,
double quotes and backslashes quoting, an unquoted `NULL` a null element. -/
def pgReadTextArray (literal : String) : Option (List (Option String)) :=
  match literal.data.dropWhile pgArraySpace with
  | c :: rest =>
    if c = Char.ofNat 123 then pgArrayElements rest .before [] [] false [] else none
  | [] => none

/-- What a parameter for a `text[]` column denotes: an array goes through the
driver's own array encoding, a string is read as an array literal. -/
def pgTextArrayParam (v : JVal) : Option (List (Option String)) :=
  match v with
  | .str s => pgReadTextArray s
  | .arr xs => (pgText (.arr xs)).bind pgReadTextArray
  | _ => none

/-- The last parameter of the statements of a run of a resource handler. -/
def ultimoParametro {σ : Type} (o : Out σ) : Option JVal :=
  match o.queries.getLast? with
  | some q => q.values.getLast?
  | none => none

/-- A body for `POST /api/bloques` with one laboratory whose name has a
comma, and `PUT /api/bloques/:id` likewise. -/
def sampleBloqueBody : JObj :=
  [("nombre", JVal.str "Bloque A"), ("edificios_id", JVal.num 1),
   ("laboratorios", JVal.arr ["Lab 1,piso 2"])]

/-! ## Read endpoints that send their statement as text -/

/-- A call `pool.query(text, values)` whose statement is given by its text. -/
structure TextQuery where
  text : String
  values : List JVal
  deriving DecidableEq, Repr

/-- A connection pool that is sent statements as text. -/
abbrev TextStore (σ : Type) := TextQuery → σ → Except JsError PgResult × σ

/-- One run of a read endpoint: the response, the store it leaves and the
statements it issued. -/
structure TextOut (σ : Type) where
  response : Response
  state : σ
  queries : List TextQuery

/-- The common shape `const result = await pool.query(text, values);
res.json(result.rows)` inside a `try` whose `catch` answers 500
`Error en el servidor`. -/
def listRows {σ : Type} (pool : TextStore σ) (q : TextQuery) (s : σ) : TextOut σ :=
  match pool q s with
  | (.error _, s1) => { response := serverError, state := s1, queries := [q] }
  | (.ok result, s1) =>
    { response := { status := 200, body := Json.list (result.rows.map jsonObj) },
      state := s1, queries := [q] }

/-- Handler `GET /api/wifi` (primero.js 298-309, index.js 291-302). -/
def getWifi {σ : Type} (pool : TextStore σ) (s : σ) : TextOut σ :=
  let q : TextQuery := { text := "SELECT * FROM wifi LIMIT 1", values := [] }
  match pool q s with
  | (.error _, s1) => { response := serverError, state := s1, queries := [q] }
  | (.ok result, s1) =>
    if result.rows.length = 0 then
      { response := { status := 404, body := errorBody "No hay credenciales guardadas" },
        state := s1, queries := [q] }
    else
      { response := { status := 200, body := bareRow result.rows.head? }, state := s1,
        queries := [q] }

/-- Handler `GET /api/categorias` (primero.js 476-484, index.js 484-492). -/
def getCategorias {σ : Type} (pool : TextStore σ) (s : σ) : TextOut σ :=
  listRows pool { text := "SELECT * FROM categoria", values := [] } s

/-- Handler `GET /api/categorias/lugar` (primero.js 487-505, index.js
495-513); `query` is `req.query`. -/
def getCategoriasLugar {σ : Type} (pool : TextStore σ) (query : JObj) (s : σ) : TextOut σ :=
  let lugar_id := query.get "lugar_id"
  let base := "SELECT DISTINCT c.* FROM categoria c JOIN edificios e ON c.id = e.categoria_id"
  if lugar_id.truthy then
    listRows pool { text := base ++ " WHERE e.lugar_id = $1", values := [lugar_id] } s
  else listRows pool { text := base, values := [] } s

/-- Handler `GET /api/edificios` of primero.js (576-604). -/
def getEdificios {σ : Type} (pool : TextStore σ) (query : JObj) (s : σ) : TextOut σ :=
  listRows pool
    { text := (edificiosListQuery query).1, values := (edificiosListQuery query).2 } s

/-- Handler `GET /api/edificios` of index.js (590-612), the first of the two
registered for that path. -/
def getEdificiosIndex {σ : Type} (pool : TextStore σ) (query : JObj) (s : σ) : TextOut σ :=
  listRows pool
    { text := (edificiosListQueryIndex query).1, values := (edificiosListQueryIndex query).2 } s

/-- Handler `GET /api/laboratorios` (primero.js 669-685, index.js 693-707). -/
def getLaboratorios {σ : Type} (pool : TextStore σ) (query : JObj) (s : σ) : TextOut σ :=
  let q : TextQuery :=
    { text := "SELECT laboratorios FROM bloques WHERE id = $1",
      values := [query.get "bloque_id"] }
  match pool q s with
  | (.error _, s1) => { response := serverError, state := s1, queries := [q] }
  | (.ok result, s1) =>
    { response :=
        { status := 200,
          body := match result.rows.head? with
            | some row =>
              if (row.get "laboratorios").truthy then Json.val (row.get "laboratorios")
              else Json.list []
            | none => Json.list [] },
      state := s1, queries := [q] }

/-- Handler `GET /api/bloques/:id` (primero.js 688-720, index.js 710-737);
`select` is the handler's `SELECT ... WHERE b.id = $1` text, which differs
between the two files, and `id` is `req.params.id`. -/
def getBloque {σ : Type} (pool : TextStore σ) (select : String) (id : String) (s : σ) :
    TextOut σ :=
  let q : TextQuery := { text := select, values := [JVal.str id] }
  match pool q s with
  | (.error _, s1) => { response := serverError, state := s1, queries := [q] }
  | (.ok result, s1) =>
    if result.rows.length = 0 then
      { response := { status := 404, body := errorBody "Bloque no encontrado" },
        state := s1, queries := [q] }
    else
      { response := { status := 200, body := bareRow result.rows.head? }, state := s1,
        queries := [q] }

/-- Handler `GET /api/bloques` (primero.js 723-786, index.js 741-791);
`select` is the handler's `SELECT ... FROM bloques JOIN edificios ...` text. -/
def getBloques {σ : Type} (pool : TextStore σ) (select : String) (query : JObj) (s : σ) :
    TextOut σ :=
  listRows pool
    { text := (bloquesListQuery select query).1, values := (bloquesListQuery select query).2 } s

/-! ## Store failures -/

/-- A pool that keeps, next to the state of the store, the statements it was
sent and whether each one resolved. -/
def logged {σ : Type} (pool : Store σ) : Store (σ × List (CampusQuery × Bool)) := fun q sl =>
  match pool q sl.1 with
  | (.error e, s1) => (.error e, (s1, sl.2 ++ [(q, false)]))
  | (.ok result, s1) => (.ok result, (s1, sl.2 ++ [(q, true)]))

/-- A run over a logging pool issued the statements of the log, and if one of
them was rejected it was the last one sent and the answer is a 500. -/
def failsLast {σ : Type} (o : Out (σ × List (CampusQuery × Bool))) : Prop :=
  o.state.2.map Prod.fst = o.queries ∧
  ∀ entry ∈ o.state.2, entry.2 = false →
    o.response.status = 500 ∧ o.state.2.getLast? = some entry

/-- A run that issued one statement at the given store answers `r e` when
that statement was rejected with `e`, having issued nothing else. -/
def failsWith (pool : Pool) (db : Db) (run : Run) (r : JsError → Response) : Prop :=
  ∀ q e db1, q ∈ run.queries → pool q db = (.error e, db1) →
    run.response = r e ∧ run.queries = [q] ∧ run.db = db1

/-- A read run answers 500 `Error en el servidor` when its statement was
rejected, having issued nothing else. -/
def readFails {σ : Type} (pool : TextStore σ) (s : σ) (o : TextOut σ) : Prop :=
  ∀ q e s1, q ∈ o.queries → pool q s = (.error e, s1) →
    o.response = serverError ∧ o.queries = [q] ∧ o.state = s1

/-- A pool none of whose statements resolves: the store is unreachable. -/
def downPool : Pool := fun _ db =>
  (.error { code := some "ECONNREFUSED", message := "connect ECONNREFUSED" }, db)

/-- A resource pool none of whose statements resolves. -/
def downStore : Store Campus := fun _ s =>
  (.error { code := some "ECONNREFUSED", message := "connect ECONNREFUSED" }, s)

/-! ## Requests and routes -/

/-- The parts of an incoming request a handler can read: the Authorization
header, `req.user`, `req.params.id`, `req.query` and `req.body`. -/
structure Request where
  authorization : Option String
  user : Option JObj
  id : String
  query : JObj
  body : JObj

/-- The routes on `usuarios`: list, create, update by id, delete by id. -/
inductive UsuariosRoute where
  | list
  | create
  | update
  | delete
  deriving DecidableEq, Repr

/-- The handler each route on `usuarios` registers, applied to what it reads
of the request. -/
def usuariosRoute (env : Env) (pool : Pool) : UsuariosRoute → Request → Db → Run
  | .list, _ => getUsuarios pool
  | .create, req => crearusuarios env pool req.body
  | .update, req => putUsuario env pool req.id req.body
  | .delete, req => deleteUsuario pool req.id

/-- The writing routes on the resource tables and the evaluations list. -/
inductive RecursoRoute where
  | create (t : Tabla)
  | update (t : Tabla)
  | delete (t : Tabla)
  | evaluaciones
  deriving DecidableEq, Repr

/-- The handler each resource route registers, applied to what it reads of
the request. -/
def recursoRoute {σ : Type} (pool : Store σ) : RecursoRoute → Request → σ → Out σ
  | .create t, req => postRecurso t pool req.body
  | .update t, req => putRecurso t pool req.id req.body
  | .delete t, req => deleteRecurso t pool req.id
  | .evaluaciones, _ => getEvaluaciones pool

/-- The reading routes that send their statement as text. -/
inductive ConsultaRoute where
  | wifi
  | categorias
  | categoriasLugar
  | edificios
  | edificiosIndex
  | laboratorios
  | bloque (select : String)
  | bloques (select : String)
  deriving DecidableEq, Repr

/-- The handler each reading route registers, applied to what it reads of the
request. -/
def consultaRoute {σ : Type} (pool : TextStore σ) : ConsultaRoute → Request → σ → TextOut σ
  | .wifi, _ => getWifi pool
  | .categorias, _ => getCategorias pool
  | .categoriasLugar, req => getCategoriasLugar pool req.query
  | .edificios, req => getEdificios pool req.query
  | .edificiosIndex, req => getEdificiosIndex pool req.query
  | .laboratorios, req => getLaboratorios pool req.query
  | .bloque select, req => getBloque pool select req.id
  | .bloques select, req => getBloques pool select req.query

/-- Handler `GET /api/lugar` as a route: it reads nothing of the request. -/
def lugarRoute {σ : Type} (connect : Except JsError Unit) (pool : Store σ) (_req : Request)
    (s : σ) : Except JsError (Out σ) :=
  getLugar connect pool s

/-- Two requests that differ at most in their Authorization header and in
`req.user`. -/
def sameButAuth (r1 r2 : Request) : Prop :=
  r1.id = r2.id ∧ r1.query = r2.query ∧ r1.body = r2.body

/-- A request to update user 7 without an Authorization header. -/
def sampleAnonymous : Request :=
  { authorization := none, user := none, id := "7", query := [], body := samplePutPassword }

/-- The same request with the administrator token and `req.user` set. -/
def sampleAsBoss : Request :=
  { authorization := some "Bearer boss",
    user := some [("id", JVal.num 8), ("email", JVal.str "luis@x.com")],
    id := "7", query := [], body := samplePutPassword }

end Tesis

/-! ## Theorems -/

namespace Tesis

/-! ### Library facts -/

theorem respond_user (c : Ctx) (status : Nat) (body : Json) :
    (c.respond status body).user = c.user := rfl

theorem respond_db (c : Ctx) (status : Nat) (body : Json) :
    (c.respond status body).db = c.db := rfl

/-- Verification fails exactly when the token is malformed, the secret is
unset, the signature was made with another key, or the expiry has been
reached. -/
theorem jwtVerify_error_iff (env : Env) (token : String) :
    (∃ e, jwtVerify env token = .error e) ↔
      (env.decode token = none ∨
        ∃ t, env.decode token = some t ∧
          (env.secret = "" ∨ t.key ≠ env.secret ∨ ∃ x, t.exp = some x ∧ x ≤ env.now)) := by
  unfold jwtVerify
  cases hd : env.decode token with
  | none => simp
  | some t =>
    by_cases hs : env.secret = ""
    · simp [hs]
    · by_cases hk : t.key = env.secret
      · cases hx : t.exp with
        | none => simp [hs, hk, hx]
        | some x =>
          by_cases hle : x ≤ env.now
          · simp [hs, hk, hx, hle]
          · simp [hs, hk, hx, hle]
      · simp [hs, hk]

/-- With a verifying token, `authRequired` attaches the claims and hands
control to `next`; it writes a response of its own only if `next` throws. -/
theorem authRequired_verified (env : Env) (h tok : String) (decoded : JObj) (next : Next)
    (c : Ctx) (hseg : bearerSegment h = some tok) (htok : tok ≠ "")
    (hver : jwtVerify env tok = .ok decoded) :
    authRequired env (some h) next c =
      match next { c with user := some decoded } with
      | (c1, none) => c1
      | (c1, some _) => c1.respond 401 (errorBody "Token inválido o expirado") := by
  have hne : h ≠ "" := by
    intro h0
    subst h0
    simp [bearerSegment, splitSpace] at hseg
  simp [authRequired, hne, hseg, htok, hver]

/-- When `next` returns normally, `authRequired` with a verifying token ends
in exactly the state `next` produced from the context with `req.user` set. -/
theorem authRequired_passes (env : Env) (h tok : String) (decoded : JObj) (next : Next)
    (c c1 : Ctx) (hseg : bearerSegment h = some tok) (htok : tok ≠ "")
    (hver : jwtVerify env tok = .ok decoded)
    (hnext : next { c with user := some decoded } = (c1, none)) :
    authRequired env (some h) next c = c1 := by
  rw [authRequired_verified env h tok decoded next c hseg htok hver, hnext]

/-- With no binding for `pool` in scope, every request with a verifying token
is answered 401 by `adminRequired`, whatever the gated handler and the store
are: the `ReferenceError` is caught by the `catch` of `authRequired`. -/
theorem adminRequired_unbound_pool (env : Env) (h tok : String) (decoded : JObj)
    (next : Next) (c : Ctx) (hseg : bearerSegment h = some tok) (htok : tok ≠ "")
    (hver : jwtVerify env tok = .ok decoded) :
    adminRequired env authMiddlewareScope (some h) next c =
      ({ c with user := some decoded } : Ctx).respond 401
        (errorBody "Token inválido o expirado") := by
  unfold adminRequired
  rw [authRequired_verified env h tok decoded _ c hseg htok hver]
  simp [adminCheck, authMiddlewareScope]

/-- Were a pool in scope, a subject whose stored role is not `'admin'` (or
who has no row) would be answered 403 without reaching the gated handler. -/
theorem adminRequired_bound_forbidden (env : Env) (pool : Pool) (h tok : String)
    (decoded : JObj) (next : Next) (c : Ctx) (result : QueryResult) (db1 : Db)
    (hseg : bearerSegment h = some tok) (htok : tok ≠ "")
    (hver : jwtVerify env tok = .ok decoded)
    (hq : pool { text := Sql.selectRolById, values := [decoded.get "id"] } c.db
            = (.ok result, db1))
    (hrol : ∀ row, result.rows.head? = some row → row.get "rol" ≠ JVal.str "admin") :
    adminRequired env { pool := some pool } (some h) next c =
      ({ user := some decoded, sent := c.sent, db := db1 } : Ctx).respond 403
        (errorBody "Solo administradores") := by
  unfold adminRequired
  rw [authRequired_verified env h tok decoded _ c hseg htok hver]
  cases hhead : result.rows.head? with
  | none => simp [adminCheck, hq, hhead]
  | some row =>
    have := hrol row hhead
    simp [adminCheck, hq, hhead, this]

/-- Were a pool in scope, a subject whose stored role is `'admin'` would
reach the gated handler, run on the context with `req.user` set. -/
theorem adminRequired_bound_admin (env : Env) (pool : Pool) (h tok : String)
    (decoded : JObj) (next : Next) (c c2 : Ctx) (result : QueryResult) (db1 : Db) (row : JObj)
    (hseg : bearerSegment h = some tok) (htok : tok ≠ "")
    (hver : jwtVerify env tok = .ok decoded)
    (hq : pool { text := Sql.selectRolById, values := [decoded.get "id"] } c.db
            = (.ok result, db1))
    (hhead : result.rows.head? = some row) (hrol : row.get "rol" = JVal.str "admin")
    (hnext : next { user := some decoded, sent := c.sent, db := db1 } = (c2, none)) :
    adminRequired env { pool := some pool } (some h) next c = c2 := by
  unfold adminRequired
  rw [authRequired_verified env h tok decoded _ c hseg htok hver]
  simp [adminCheck, hq, hhead, hrol, hnext]

/-! ### C1: the unauthenticated states of `authRequired` -/

/-- C1 as stated fails for a header that is present but empty: it has no
second space-separated segment, yet the answer is `Token requerido`, not
`Token no proporcionado`. -/
theorem authRequired_empty_header_counterexample :
    bearerSegment "" = none ∧
    (authRequired sampleEnv (some "") okNext sampleCtx).sent
      = [{ status := 401, body := errorBody "Token requerido" }] ∧
    authRequired sampleEnv (some "") okNext sampleCtx
      ≠ sampleCtx.respond 401 (errorBody "Token no proporcionado") := by
  refine ⟨by decide, rfl, ?_⟩
  intro h
  have hs := congrArg Ctx.sent h
  simp [authRequired, Ctx.respond, sampleCtx, errorBody] at hs

/-- C1 (amended): `authRequired` answers 401 and leaves `req.user` and the
rest of the context untouched, whatever `next` is (so `next` is not run), in
each unauthenticated state: `Token requerido` when the Authorization header is
missing or empty; `Token no proporcionado` when a non-empty header has no
non-empty second space-separated segment; `Token inválido o expirado` when
the second segment fails verification. -/
theorem authRequired_rejects (env : Env) (next : Next) (c : Ctx) :
    authRequired env none next c = c.respond 401 (errorBody "Token requerido") ∧
    authRequired env (some "") next c = c.respond 401 (errorBody "Token requerido") ∧
    (∀ h : String, h ≠ "" → (bearerSegment h = none ∨ bearerSegment h = some "") →
      authRequired env (some h) next c
        = c.respond 401 (errorBody "Token no proporcionado")) ∧
    (∀ (h tok : String) (e : JsError), bearerSegment h = some tok → tok ≠ "" →
      jwtVerify env tok = .error e →
      authRequired env (some h) next c
        = c.respond 401 (errorBody "Token inválido o expirado")) := by
  refine ⟨rfl, rfl, ?_, ?_⟩
  · intro h hne hseg
    rcases hseg with hseg | hseg <;> simp [authRequired, hne, hseg]
  · intro h tok e hseg htok hver
    have hne : h ≠ "" := by
      intro h0
      subst h0
      simp [bearerSegment, splitSpace] at hseg
    simp [authRequired, hne, hseg, htok, hver]

/-- Witness for C1: a header without a token, a header with an empty token,
and headers whose token is malformed, forged or expired. -/
theorem authRequired_rejects_witness :
    authRequired sampleEnv (some "Bearer") okNext sampleCtx
      = sampleCtx.respond 401 (errorBody "Token no proporcionado") ∧
    authRequired sampleEnv (some "Bearer ") okNext sampleCtx
      = sampleCtx.respond 401 (errorBody "Token no proporcionado") ∧
    authRequired sampleEnv (some "Bearer junk") okNext sampleCtx
      = sampleCtx.respond 401 (errorBody "Token inválido o expirado") ∧
    authRequired sampleEnv (some "Bearer forged") okNext sampleCtx
      = sampleCtx.respond 401 (errorBody "Token inválido o expirado") ∧
    authRequired sampleEnv (some "Bearer stale") okNext sampleCtx
      = sampleCtx.respond 401 (errorBody "Token inválido o expirado") :=
  ⟨(authRequired_rejects sampleEnv okNext sampleCtx).2.2.1 "Bearer" (by decide)
      (Or.inl (by decide)),
   (authRequired_rejects sampleEnv okNext sampleCtx).2.2.1 "Bearer " (by decide)
      (Or.inr (by decide)),
   (authRequired_rejects sampleEnv okNext sampleCtx).2.2.2 "Bearer junk" "junk"
      { code := none, message := "jwt malformed" } (by decide) (by decide) rfl,
   (authRequired_rejects sampleEnv okNext sampleCtx).2.2.2 "Bearer forged" "forged"
      { code := none, message := "invalid signature" } (by decide) (by decide) rfl,
   (authRequired_rejects sampleEnv okNext sampleCtx).2.2.2 "Bearer stale" "stale"
      { code := none, message := "jwt expired" } (by decide) (by decide) rfl⟩

/-! ### C2: a verifying token -/

/-- C2 fails on the code: with a verifying token and a `next` that throws
synchronously, `authRequired` sets `req.user`, runs `next` and then itself
writes 401 `Token inválido o expirado`. The function `adminRequired` passes
such a `next` (its reference to the unbound `pool` throws). -/
theorem authRequired_answers_after_next_throws :
    jwtVerify sampleEnv "good" = .ok sampleJwt.claims ∧
    (authRequired sampleEnv (some "Bearer good") throwingNext sampleCtx).user
      = some sampleJwt.claims ∧
    (authRequired sampleEnv (some "Bearer good") throwingNext sampleCtx).sent
      = [{ status := 401, body := errorBody "Token inválido o expirado" }] ∧
    (authRequired sampleEnv (some "Bearer good")
        (adminCheck authMiddlewareScope okNext) sampleCtx).sent
      = [{ status := 401, body := errorBody "Token inválido o expirado" }] := by
  have hver : jwtVerify sampleEnv "good" = .ok sampleJwt.claims := rfl
  have hseg : bearerSegment "Bearer good" = some "good" := by decide
  refine ⟨hver, ?_, ?_, ?_⟩
  · rw [authRequired_verified sampleEnv "Bearer good" "good" _ _ _ hseg (by decide) hver]
    rfl
  · rw [authRequired_verified sampleEnv "Bearer good" "good" _ _ _ hseg (by decide) hver]
    rfl
  · rw [authRequired_verified sampleEnv "Bearer good" "good" _ _ _ hseg (by decide) hver]
    rfl

/-! ### C3, C4: `adminRequired` -/

/-- C3 fails on the code: the token `good` verifies and its subject, user 7,
has the stored role `estudiante`, yet `adminRequired` answers 401
`Token inválido o expirado` instead of 403 `Solo administradores`. The gated
handler is not reached and the store is unchanged. -/
theorem adminRequired_student_gets_401 :
    jwtVerify sampleEnv "good" = .ok sampleJwt.claims ∧
    sampleJwt.claims.get "id" = JVal.num 7 ∧
    (pgQuery { text := Sql.selectRolById, values := [JVal.num 7] } sampleDb).1
      = .ok { rows := [[("rol", JVal.str "estudiante")]] } ∧
    (∀ next : Next,
      (adminRequired sampleEnv authMiddlewareScope (some "Bearer good") next sampleCtx).sent
        = [{ status := 401, body := errorBody "Token inválido o expirado" }] ∧
      (adminRequired sampleEnv authMiddlewareScope (some "Bearer good") next sampleCtx).db
        = sampleDb) := by
  have hver : jwtVerify sampleEnv "good" = .ok sampleJwt.claims := rfl
  refine ⟨hver, by decide, rfl, ?_⟩
  intro next
  rw [adminRequired_unbound_pool sampleEnv "Bearer good" "good" _ next _ (by decide)
    (by decide) hver]
  exact ⟨rfl, rfl⟩

/-- C4 fails on the code: the token `boss` verifies and its subject, user 8,
has the stored role `admin`, yet `adminRequired` answers 401
`Token inválido o expirado` and the gated handler is never run (the outcome is
the same for every `next`). -/
theorem adminRequired_admin_gets_401 :
    (∃ decoded, jwtVerify sampleEnv "boss" = .ok decoded ∧ decoded.get "id" = JVal.num 8) ∧
    (pgQuery { text := Sql.selectRolById, values := [JVal.num 8] } sampleDb).1
      = .ok { rows := [[("rol", JVal.str "admin")]] } ∧
    (∀ next : Next,
      (adminRequired sampleEnv authMiddlewareScope (some "Bearer boss") next sampleCtx).sent
        = [{ status := 401, body := errorBody "Token inválido o expirado" }]) := by
  have hver : jwtVerify sampleEnv "boss"
      = .ok ({ sampleJwt with
                payload := [("id", JVal.num 8), ("email", JVal.str "luis@x.com")] } : Jwt).claims :=
    rfl
  refine ⟨⟨_, hver, by decide⟩, rfl, ?_⟩
  intro next
  rw [adminRequired_unbound_pool sampleEnv "Bearer boss" "boss" _ next _ (by decide)
    (by decide) hver]
  rfl

/-! ### The `/register` handler, step by step -/

theorem truthy_of_not_validation_fail {a b c d e : JVal}
    (h : ¬ ((!a.truthy || !b.truthy || !c.truthy || !d.truthy || !e.truthy) = true)) :
    a.truthy = true ∧ b.truthy = true ∧ c.truthy = true ∧ d.truthy = true ∧ e.truthy = true := by
  cases ha : a.truthy <;> cases hb : b.truthy <;> cases hc : c.truthy <;>
    cases hd : d.truthy <;> cases he : e.truthy <;> simp_all

theorem timespan_one_hour : timespan "1h" = some 3600 := by decide

theorem jwtSign_one_hour (env : Env) (payload : JObj) (hs : env.secret ≠ "") :
    jwtSign env payload "1h" = .ok (env.encode (signedContent env payload 3600)) := by
  simp [jwtSign, hs, timespan_one_hour]

theorem jwtSign_ok_secret (env : Env) (payload : JObj) (span token : String)
    (h : jwtSign env payload span = .ok token) : env.secret ≠ "" := by
  intro hs
  simp [jwtSign, hs] at h

theorem bcryptHash_ok (env : Env) (v : JVal) (hashed : String)
    (h : bcryptHash env v = .ok hashed) : ∃ pw, v = JVal.str pw ∧ hashed = env.hash pw := by
  cases v <;> simp [bcryptHash] at h
  exact ⟨_, rfl, h.symm⟩

/-- A run of `/register` that issued a statement passed validation, hashed a
string password, signed with a set secret, and issued exactly the INSERT with
the seven parameters of the source. -/
theorem register_query (env : Env) (pool : Pool) (body : JObj) (db : Db) (q : Query)
    (hq : Effect.query q ∈ (register env pool body db).effects) :
    (∀ k ∈ requiredFields, (body.get k).truthy = true) ∧
    env.secret ≠ "" ∧
    ∃ pw, body.get "password" = JVal.str pw ∧ q = registerQuery env body pw := by
  unfold register at hq
  simp only at hq
  split at hq
  · simp at hq
  · rename_i hv
    obtain ⟨h1, h2, h3, h4, h5⟩ := truthy_of_not_validation_fail hv
    split at hq
    · simp at hq
    · rename_i hashed hh
      obtain ⟨pw, hpw, hhash⟩ := bcryptHash_ok env _ _ hh
      split at hq
      · simp at hq
      · rename_i token hs
        have hsec := jwtSign_ok_secret env _ _ _ hs
        rw [jwtSign_one_hour env _ hsec] at hs
        have htok : token = registerToken env body := by
          simp only [Except.ok.injEq] at hs
          exact hs.symm
        refine ⟨?_, hsec, pw, hpw, ?_⟩
        · intro k hk
          simp [requiredFields] at hk
          rcases hk with rfl | rfl | rfl | rfl | rfl <;> assumption
        · have : q = { text := Sql.insertUsuarioToken,
                       values := [body.get "nombre", body.get "apellido", body.get "email",
                                  body.get "cedula", JVal.str hashed, JVal.str token,
                                  if (body.get "rol").truthy then body.get "rol"
                                  else JVal.str "estudiante"] } := by
            generalize (if (body.get "rol").truthy then body.get "rol"
              else JVal.str "estudiante") = role at hq ⊢
            split at hq <;> (try split at hq) <;> simpa using hq
          rw [this, hhash, htok]
          rfl

/-- A request that passes validation with a string password, under a set
secret, reaches the INSERT; what follows depends on the store's answer only. -/
theorem register_reached (env : Env) (pool : Pool) (body : JObj) (db : Db) (pw : String)
    (hv : ∀ k ∈ requiredFields, (body.get k).truthy = true)
    (hpw : body.get "password" = JVal.str pw) (hsec : env.secret ≠ "") :
    register env pool body db =
      match pool (registerQuery env body pw) db with
      | (.error e, db1) =>
        { response := registerCatch e, db := db1, effects := registerEffects env body pw }
      | (.ok result, db1) =>
        match result.rows.head? with
        | none =>
          { response := registerCatch undefinedReadError, db := db1,
            effects := registerEffects env body pw }
        | some user =>
          { response := { status := 201, body := registerBody (registerToken env body) user },
            db := db1, effects := registerEffects env body pw } := by
  have h1 := hv "nombre" (by simp [requiredFields])
  have h2 := hv "apellido" (by simp [requiredFields])
  have h3 := hv "email" (by simp [requiredFields])
  have h4 := hv "cedula" (by simp [requiredFields])
  have h5 := hv "password" (by simp [requiredFields])
  unfold register
  simp only [h1, h2, h3, h4, h5, Bool.not_true, Bool.or_self, Bool.false_eq_true, ↓reduceIte]
  simp only [hpw, bcryptHash, jwtSign_one_hour env _ hsec, registerEffects, registerQuery,
    registerToken, registerRole]

/-- A run of `/register` whose INSERT the store resolved with a row. -/
theorem register_created (env : Env) (pool : Pool) (body : JObj) (db db1 : Db) (q : Query)
    (user : JObj) (rest : List JObj)
    (hq : Effect.query q ∈ (register env pool body db).effects)
    (hins : pool q db = (.ok { rows := user :: rest }, db1)) :
    ∃ pw, body.get "password" = JVal.str pw ∧ q = registerQuery env body pw ∧
      register env pool body db =
        { response := { status := 201, body := registerBody (registerToken env body) user },
          db := db1, effects := registerEffects env body pw } := by
  obtain ⟨hv, hsec, pw, hpw, hqe⟩ := register_query env pool body db q hq
  refine ⟨pw, hpw, hqe, ?_⟩
  rw [register_reached env pool body db pw hv hpw hsec, ← hqe, hins]
  rfl

theorem registerCatch_status (e : JsError) :
    (registerCatch e).status = 400 ∨ (registerCatch e).status = 500 := by
  unfold registerCatch
  split <;> simp

theorem registerCatch_status_ne_created (e : JsError) : (registerCatch e).status ≠ 201 := by
  rcases registerCatch_status e with h | h <;> rw [h] <;> decide

/-- A 201 from `/register` means the INSERT was issued and the store resolved
it with at least one row. -/
theorem register_status_created (env : Env) (pool : Pool) (body : JObj) (db : Db)
    (h : (register env pool body db).response.status = 201) :
    ∃ q user rest db1, Effect.query q ∈ (register env pool body db).effects ∧
      pool q db = (.ok { rows := user :: rest }, db1) := by
  by_cases hv : ∀ k ∈ requiredFields, (body.get k).truthy = true
  · by_cases hsec : env.secret = ""
    · exfalso
      have h1 := hv "nombre" (by simp [requiredFields])
      have h2 := hv "apellido" (by simp [requiredFields])
      have h3 := hv "email" (by simp [requiredFields])
      have h4 := hv "cedula" (by simp [requiredFields])
      have h5 := hv "password" (by simp [requiredFields])
      unfold register at h
      simp only [h1, h2, h3, h4, h5, Bool.not_true, Bool.or_self, Bool.false_eq_true,
        ↓reduceIte, jwtSign, hsec] at h
      split at h
      · exact registerCatch_status_ne_created _ h
      · exact registerCatch_status_ne_created _ h
    · cases hp : body.get "password" with
      | str pw =>
        rw [register_reached env pool body db pw hv hp hsec] at h ⊢
        rcases hres : pool (registerQuery env body pw) db with ⟨res, db1⟩
        rw [hres] at h
        cases res with
        | error e => exact absurd h (registerCatch_status_ne_created _)
        | ok result =>
          obtain ⟨rows⟩ := result
          cases rows with
          | nil => exact absurd h (registerCatch_status_ne_created _)
          | cons user rest =>
            exact ⟨registerQuery env body pw, user, rest, db1, by simp [registerEffects], hres⟩
      | _ =>
        exfalso
        have h1 := hv "nombre" (by simp [requiredFields])
        have h2 := hv "apellido" (by simp [requiredFields])
        have h3 := hv "email" (by simp [requiredFields])
        have h4 := hv "cedula" (by simp [requiredFields])
        have h5 := hv "password" (by simp [requiredFields])
        rw [hp] at h5
        unfold register at h
        simp only [h1, h2, h3, h4, hp, h5, Bool.not_true, Bool.or_self, Bool.false_eq_true,
          ↓reduceIte, bcryptHash] at h
        exact registerCatch_status_ne_created _ h
  · exfalso
    have hf : (!(body.get "nombre").truthy || !(body.get "apellido").truthy
        || !(body.get "email").truthy || !(body.get "cedula").truthy
        || !(body.get "password").truthy) = true := by
      by_contra hc
      obtain ⟨h1, h2, h3, h4, h5⟩ := truthy_of_not_validation_fail hc
      apply hv
      intro k hk
      simp [requiredFields] at hk
      rcases hk with rfl | rfl | rfl | rfl | rfl <;> assumption
    unfold register at h
    simp only [hf, ↓reduceIte] at h
    exact absurd h (by decide)

/-! ### C5: registration with a missing field -/

/-- C5: when one of nombre, apellido, email, cedula, password is absent, null
or empty, `POST /register` answers 400 `Todos los campos son obligatorios`,
leaves the store as it was and makes no call at all: no statement, no hash, no
token. -/
theorem register_missing_field (env : Env) (pool : Pool) (body : JObj) (db : Db) (k : String)
    (hk : k ∈ requiredFields) (habs : (body.get k).absentOrEmpty) :
    (register env pool body db).response
      = { status := 400, body := errorBody "Todos los campos son obligatorios" } ∧
    (register env pool body db).db = db ∧
    (register env pool body db).effects = [] := by
  have ht : (body.get k).truthy = false := by
    rcases habs with h | h | h <;> rw [h] <;> rfl
  have hf : (!(body.get "nombre").truthy || !(body.get "apellido").truthy
      || !(body.get "email").truthy || !(body.get "cedula").truthy
      || !(body.get "password").truthy) = true := by
    simp [requiredFields] at hk
    rcases hk with rfl | rfl | rfl | rfl | rfl <;> simp [ht]
  unfold register
  simp only [hf, ↓reduceIte, and_self]

/-- Witness for C5: the sample body with its password emptied. -/
theorem register_missing_field_witness :
    (register sampleEnv pgQuery (("password", JVal.str "") :: sampleBody) sampleDb).response
      = { status := 400, body := errorBody "Todos los campos son obligatorios" } ∧
    (register sampleEnv pgQuery (("password", JVal.str "") :: sampleBody) sampleDb).db
      = sampleDb ∧
    (register sampleEnv pgQuery (("password", JVal.str "") :: sampleBody) sampleDb).effects
      = [] :=
  register_missing_field sampleEnv pgQuery (("password", JVal.str "") :: sampleBody) sampleDb
    "password" (by decide) (Or.inr (Or.inr (by decide)))

/-! ### C6: the 201 response of registration -/

/-- C6: when `POST /register` has issued its INSERT and the store resolved it
with the inserted row (which carries the columns id, nombre, email, rol), the
response is 201; its body has exactly the keys message, token, usuario;
usuario has exactly the keys id, nombre, email, rol with the values of the
row; and the response is the same for any other request and row that agree on
the email and on those four columns, so neither the password, its hash nor
the cedula reaches it. -/
theorem register_created_response (env : Env) (pool : Pool) (body : JObj) (db db1 : Db)
    (q : Query) (user : JObj) (rest : List JObj)
    (hq : Effect.query q ∈ (register env pool body db).effects)
    (hins : pool q db = (.ok { rows := user :: rest }, db1))
    (hcols : ∀ k ∈ publicColumns, user.get k ≠ JVal.undefined) :
    (register env pool body db).response.status = 201 ∧
    (register env pool body db).response.body.keys = ["message", "token", "usuario"] ∧
    (register env pool body db).response.body.field "message"
      = some (Json.val (JVal.str "Usuario registrado con éxito")) ∧
    (register env pool body db).response.body.field "token"
      = some (Json.val (JVal.str (registerToken env body))) ∧
    (∃ usuario, (register env pool body db).response.body.field "usuario" = some usuario ∧
      usuario.keys = publicColumns ∧
      ∀ k ∈ publicColumns, usuario.field k = some (Json.val (user.get k))) ∧
    (∀ (pool2 : Pool) (body2 : JObj) (db2 db3 : Db) (q2 : Query) (user2 : JObj)
        (rest2 : List JObj),
      Effect.query q2 ∈ (register env pool2 body2 db2).effects →
      pool2 q2 db2 = (.ok { rows := user2 :: rest2 }, db3) →
      body2.get "email" = body.get "email" →
      (∀ k ∈ publicColumns, user2.get k = user.get k) →
      (register env pool2 body2 db2).response = (register env pool body db).response) := by
  obtain ⟨pw, _, _, hrun⟩ := register_created env pool body db db1 q user rest hq hins
  have hid := hcols "id" (by simp [publicColumns])
  have hnombre := hcols "nombre" (by simp [publicColumns])
  have hemail := hcols "email" (by simp [publicColumns])
  have hrol := hcols "rol" (by simp [publicColumns])
  rw [hrun]
  refine ⟨rfl, rfl, rfl, rfl, ?_, ?_⟩
  · refine ⟨jsonObj [("id", user.get "id"), ("nombre", user.get "nombre"),
      ("email", user.get "email"), ("rol", user.get "rol")], rfl, ?_, ?_⟩
    · simp [jsonObj, definedFields, Json.keys, publicColumns, hid, hnombre, hemail, hrol]
    · intro k hk
      simp [publicColumns] at hk
      rcases hk with rfl | rfl | rfl | rfl <;>
        simp [jsonObj, definedFields, Json.field, List.lookup, hid, hnombre, hemail, hrol]
  · intro pool2 body2 db2 db3 q2 user2 rest2 hq2 hins2 hmail hsame
    obtain ⟨pw2, _, _, hrun2⟩ := register_created env pool2 body2 db2 db3 q2 user2 rest2 hq2 hins2
    rw [hrun2]
    have e1 := hsame "id" (by simp [publicColumns])
    have e2 := hsame "nombre" (by simp [publicColumns])
    have e3 := hsame "email" (by simp [publicColumns])
    have e4 := hsame "rol" (by simp [publicColumns])
    simp only [registerBody, registerToken, hmail, e1, e2, e3, e4]

/-- Witness for C6: registering the sample body in the sample store. -/
theorem register_created_response_witness :
    (register sampleEnv pgQuery sampleBody sampleDb).response.status = 201 ∧
    (register sampleEnv pgQuery sampleBody sampleDb).response.body.keys
      = ["message", "token", "usuario"] :=
  ⟨(register_created_response sampleEnv pgQuery sampleBody sampleDb sampleDbAfter
      (registerQuery sampleEnv sampleBody "secret2") sampleInserted.row []
      (by decide) rfl (by decide)).1,
   (register_created_response sampleEnv pgQuery sampleBody sampleDb sampleDbAfter
      (registerQuery sampleEnv sampleBody "secret2") sampleInserted.row []
      (by decide) rfl (by decide)).2.1⟩

/-! ### The model store -/

theorem pgText_of_truthy (v : JVal) (h : v.truthy = true) : ∃ s, pgText v = some s := by
  cases v <;> simp [JVal.truthy, pgText] at *

theorem sqlTextEq_some (a : Option String) (e : String) :
    sqlTextEq a (some e) = (a == some e) := by
  cases a <;> simp [sqlTextEq]

theorem insertUsuarioRow_ok (db db1 : Db) (u v : Usuario)
    (h : insertUsuarioRow db u = (.ok v, db1)) :
    v = u ∧ db1 = { usuarios := db.usuarios ++ [u], nextId := db.nextId + 1 } ∧
      ∀ r ∈ db.usuarios, sqlTextEq r.email u.email = false ∧
        sqlTextEq r.cedula u.cedula = false := by
  unfold insertUsuarioRow at h
  split at h
  · simp at h
  · rename_i hany
    simp only [Prod.mk.injEq, Except.ok.injEq] at h
    refine ⟨h.1.symm, h.2.symm, ?_⟩
    intro r hr
    simp only [List.any_eq_true, not_exists, not_and, Bool.or_eq_true, not_or,
      Bool.not_eq_true] at hany
    exact hany r hr

theorem insertUsuarioRow_dup (db : Db) (u r : Usuario) (hr : r ∈ db.usuarios)
    (hdup : sqlTextEq r.email u.email = true ∨ sqlTextEq r.cedula u.cedula = true) :
    insertUsuarioRow db u = (.error uniqueViolation, db) := by
  unfold insertUsuarioRow
  have : db.usuarios.any (fun r => sqlTextEq r.email u.email || sqlTextEq r.cedula u.cedula)
      = true := by
    simp only [List.any_eq_true, Bool.or_eq_true]
    exact ⟨r, hr, hdup⟩
  simp [this]

theorem pgQuery_registerQuery (env : Env) (body : JObj) (pw : String) (db : Db) :
    pgQuery (registerQuery env body pw) db =
      match insertUsuarioRow db (registerRow env body pw db.nextId) with
      | (.error e, db1) => (.error e, db1)
      | (.ok u, db1) => (.ok { rows := [u.row] }, db1) := rfl

theorem emailCount_append (l : List Usuario) (u : Usuario) (n m : Int) (e : String) :
    emailCount { usuarios := l ++ [u], nextId := n } e
      = emailCount { usuarios := l, nextId := m } e + (if u.email = some e then 1 else 0) := by
  unfold emailCount
  by_cases h : u.email = some e <;> simp [List.filter_append, List.filter_cons, h]

theorem emailCount_zero (db : Db) (e : String)
    (h : ∀ r ∈ db.usuarios, sqlTextEq r.email (some e) = false) : emailCount db e = 0 := by
  unfold emailCount
  simp only [List.length_eq_zero, List.filter_eq_nil_iff]
  intro r hr
  have := h r hr
  rw [sqlTextEq_some] at this
  simp [this]

/-- A successful insert through `/register` into the model store appends
exactly the row built from the request. -/
theorem pgQuery_register_ok (env : Env) (body : JObj) (pw : String) (db db1 : Db)
    (user : JObj) (rest : List JObj)
    (h : pgQuery (registerQuery env body pw) db = (.ok { rows := user :: rest }, db1)) :
    user = (registerRow env body pw db.nextId).row ∧ rest = [] ∧
      db1 = { usuarios := db.usuarios ++ [registerRow env body pw db.nextId],
              nextId := db.nextId + 1 } ∧
      ∀ r ∈ db.usuarios,
        sqlTextEq r.email (pgText (body.get "email")) = false ∧
        sqlTextEq r.cedula (pgText (body.get "cedula")) = false := by
  rw [pgQuery_registerQuery] at h
  rcases hi : insertUsuarioRow db (registerRow env body pw db.nextId) with ⟨res, db2⟩
  rw [hi] at h
  cases res with
  | error e => simp at h
  | ok v =>
    obtain ⟨hv, hdb, hno⟩ := insertUsuarioRow_ok db db2 _ v hi
    simp only [Prod.mk.injEq, Except.ok.injEq, QueryResult.mk.injEq, List.cons.injEq] at h
    obtain ⟨⟨hu, hrest⟩, hdb1⟩ := h
    refine ⟨?_, hrest.symm, ?_, hno⟩
    · rw [← hu, hv]
    · rw [← hdb1, hdb]

/-! ### C7: a second registration with the same email -/

/-- C7: over the model store, which raises 23505 on a repeated email, if a
registration succeeds (201) then every later valid registration with the same
email is answered 400 `El correo ya está registrado`, leaves the store as it
was, and the number of rows with that email is 1 before and after it. -/
theorem register_same_email_conflict (env1 env2 : Env) (db : Db) (b1 b2 : JObj) (pw2 : String)
    (hfirst : (register env1 pgQuery b1 db).response.status = 201)
    (hv2 : ∀ k ∈ requiredFields, (b2.get k).truthy = true)
    (hpw2 : b2.get "password" = JVal.str pw2) (hsec2 : env2.secret ≠ "")
    (hemail : b2.get "email" = b1.get "email") :
    ∃ e, pgText (b1.get "email") = some e ∧
      emailCount (register env1 pgQuery b1 db).db e = 1 ∧
      (register env2 pgQuery b2 (register env1 pgQuery b1 db).db).response
        = { status := 400, body := errorBody "El correo ya está registrado" } ∧
      (register env2 pgQuery b2 (register env1 pgQuery b1 db).db).db
        = (register env1 pgQuery b1 db).db ∧
      emailCount (register env2 pgQuery b2 (register env1 pgQuery b1 db).db).db e = 1 := by
  obtain ⟨q, user, rest, db1, hq, hins⟩ := register_status_created env1 pgQuery b1 db hfirst
  obtain ⟨hv1, _, _, _, _⟩ := register_query env1 pgQuery b1 db q hq
  obtain ⟨pw, _, hqe, hrun⟩ := register_created env1 pgQuery b1 db db1 q user rest hq hins
  subst hqe
  obtain ⟨_, _, hdb1, hno⟩ := pgQuery_register_ok env1 b1 pw db db1 user rest hins
  obtain ⟨e, he⟩ := pgText_of_truthy _ (hv1 "email" (by simp [requiredFields]))
  have hdbrun : (register env1 pgQuery b1 db).db = db1 := by rw [hrun]
  have hcount : emailCount db1 e = 1 := by
    rw [hdb1, emailCount_append db.usuarios _ (db.nextId + 1) db.nextId e]
    rw [emailCount_zero db e (fun r hr => by rw [← he]; exact (hno r hr).1)]
    simp [registerRow, he]
  have hmem : registerRow env1 b1 pw db.nextId ∈ db1.usuarios := by
    rw [hdb1]
    simp
  have hdup : pgQuery (registerQuery env2 b2 pw2) db1 = (.error uniqueViolation, db1) := by
    rw [pgQuery_registerQuery,
      insertUsuarioRow_dup db1 _ (registerRow env1 b1 pw db.nextId) hmem
        (Or.inl (by simp [registerRow, hemail, he, sqlTextEq]))]
  have hrun2 : register env2 pgQuery b2 db1 =
      { response := registerCatch uniqueViolation, db := db1,
        effects := registerEffects env2 b2 pw2 } := by
    rw [register_reached env2 pgQuery b2 db1 pw2 hv2 hpw2 hsec2, hdup]
  refine ⟨e, he, ?_, ?_, ?_, ?_⟩
  · rw [hdbrun]
    exact hcount
  · rw [hdbrun, hrun2]
    simp [registerCatch, uniqueViolation]
  · rw [hdbrun, hrun2]
  · rw [hdbrun, hrun2]
    exact hcount

/-- Witness for C7: the sample body registered twice in the sample store. -/
theorem register_same_email_conflict_witness :
    ∃ e, pgText (sampleBody.get "email") = some e ∧
      emailCount (register sampleEnv pgQuery sampleBody sampleDb).db e = 1 ∧
      (register sampleEnv pgQuery sampleBody
          (register sampleEnv pgQuery sampleBody sampleDb).db).response
        = { status := 400, body := errorBody "El correo ya está registrado" } ∧
      (register sampleEnv pgQuery sampleBody
          (register sampleEnv pgQuery sampleBody sampleDb).db).db
        = (register sampleEnv pgQuery sampleBody sampleDb).db ∧
      emailCount (register sampleEnv pgQuery sampleBody
          (register sampleEnv pgQuery sampleBody sampleDb).db).db e = 1 :=
  register_same_email_conflict sampleEnv sampleEnv sampleDb sampleBody sampleBody "secret2"
    (by decide) (by decide) (by decide) (by decide) rfl

/-! ### C8: the two user-creation call sites on a store error -/

/-- A run of `/api/crearusuarios` that issued a statement hashed a string
password and issued exactly the INSERT with the six parameters of the source;
its outcome then depends on the store's answer only. -/
theorem crearusuarios_query (env : Env) (pool : Pool) (body : JObj) (db : Db) (q : Query)
    (hq : Effect.query q ∈ (crearusuarios env pool body db).effects) :
    ∃ pw, body.get "password" = JVal.str pw ∧ q = crearusuariosQuery env body pw ∧
      crearusuarios env pool body db =
        match pool q db with
        | (.error e, db1) =>
          { response := crearusuariosCatch e, db := db1,
            effects := [Effect.hash (body.get "password"), Effect.query q] }
        | (.ok result, db1) =>
          { response :=
              { status := 201,
                body := match result.rows.head? with
                  | some row => jsonObj row
                  | none => Json.val JVal.undefined },
            db := db1, effects := [Effect.hash (body.get "password"), Effect.query q] } := by
  cases hp : body.get "password" with
  | str pw =>
    have hrun : crearusuarios env pool body db =
        match pool (crearusuariosQuery env body pw) db with
        | (.error e, db1) =>
          { response := crearusuariosCatch e, db := db1,
            effects := [Effect.hash (JVal.str pw),
                        Effect.query (crearusuariosQuery env body pw)] }
        | (.ok result, db1) =>
          { response :=
              { status := 201,
                body := match result.rows.head? with
                  | some row => jsonObj row
                  | none => Json.val JVal.undefined },
            db := db1,
            effects := [Effect.hash (JVal.str pw),
                        Effect.query (crearusuariosQuery env body pw)] } := by
      unfold crearusuarios
      simp only [hp, bcryptHash, crearusuariosQuery]
    have hqe : q = crearusuariosQuery env body pw := by
      rw [hrun] at hq
      rcases hres : pool (crearusuariosQuery env body pw) db with ⟨res, db1⟩
      rw [hres] at hq
      cases res <;> simpa using hq
    refine ⟨pw, rfl, hqe, ?_⟩
    rw [hrun, hqe]
  | _ =>
    exfalso
    unfold crearusuarios at hq
    simp [hp, bcryptHash] at hq

/-- C8: when the store rejects the INSERT, `POST /register` answers 400
`El correo ya está registrado` and `POST /api/crearusuarios` answers 409
`La cédula o el email ya existen` if the error code is 23505, whatever column
caused it; on any other store error both answer 500. -/
theorem user_creation_store_error (env : Env) (pool : Pool) (body : JObj) (db db1 : Db)
    (q : Query) (e : JsError) (hrej : pool q db = (.error e, db1)) :
    (Effect.query q ∈ (register env pool body db).effects →
      (register env pool body db).response =
        if e.code = some "23505" then
          { status := 400, body := errorBody "El correo ya está registrado" }
        else { status := 500, body := errorBody e.message }) ∧
    (Effect.query q ∈ (crearusuarios env pool body db).effects →
      (crearusuarios env pool body db).response =
        if e.code = some "23505" then
          { status := 409, body := errorBody "La cédula o el email ya existen" }
        else { status := 500, body := errorBody "Error al crear usuario" }) := by
  constructor
  · intro hq
    obtain ⟨hv, hsec, pw, hpw, hqe⟩ := register_query env pool body db q hq
    rw [register_reached env pool body db pw hv hpw hsec, ← hqe, hrej]
    rfl
  · intro hq
    obtain ⟨pw, _, _, hrun⟩ := crearusuarios_query env pool body db q hq
    rw [hrun, hrej]
    rfl

/-- Witness for C8: a body whose cedula, not its email, collides with a stored
row is answered 400 with the email message by `/register` and 409 by
`/api/crearusuarios`. -/
theorem user_creation_store_error_witness :
    (register sampleEnv pgQuery sampleCedulaClash sampleDb).response
      = { status := 400, body := errorBody "El correo ya está registrado" } ∧
    (crearusuarios sampleEnv pgQuery sampleCedulaClash sampleDb).response
      = { status := 409, body := errorBody "La cédula o el email ya existen" } :=
  ⟨(user_creation_store_error sampleEnv pgQuery sampleCedulaClash sampleDb sampleDb
      (registerQuery sampleEnv sampleCedulaClash "secret2") uniqueViolation rfl).1
      (by decide),
   (user_creation_store_error sampleEnv pgQuery sampleCedulaClash sampleDb sampleDb
      (crearusuariosQuery sampleEnv sampleCedulaClash "secret2") uniqueViolation rfl).2
      (by decide)⟩

/-! ### C9: the token minted by registration -/

/-- C9: when `POST /register` has issued its INSERT and the store resolved it
with a row, the token in the response is the serialisation of a signed
content whose custom claims are exactly `email` with the request's email (no
`id`), issued at the clock and expiring exactly 3600 seconds later; the same
string is the sixth parameter of the INSERT, the `token` column, and over the
model store it is the `token` of the one row appended. -/
theorem register_token (env : Env) (pool : Pool) (body : JObj) (db db1 : Db) (q : Query)
    (user : JObj) (rest : List JObj)
    (hq : Effect.query q ∈ (register env pool body db).effects)
    (hins : pool q db = (.ok { rows := user :: rest }, db1)) :
    ∃ t : Jwt,
      t.payload = [("email", body.get "email")] ∧ t.payload.lookup "id" = none ∧
      t.iat = env.now ∧ t.exp = some (t.iat + 3600) ∧ t.key = env.secret ∧
      (register env pool body db).response.body.field "token"
        = some (Json.val (JVal.str (env.encode t))) ∧
      q.text = Sql.insertUsuarioToken ∧
      q.values[5]? = some (JVal.str (env.encode t)) ∧
      (pool = pgQuery → ∃ u : Usuario,
        (register env pool body db).db.usuarios = db.usuarios ++ [u] ∧
        u.token = some (env.encode t)) := by
  obtain ⟨hv, _, _, _, _⟩ := register_query env pool body db q hq
  obtain ⟨pw, _, hqe, hrun⟩ := register_created env pool body db db1 q user rest hq hins
  have hmail : body.get "email" ≠ JVal.undefined := by
    intro h0
    have := hv "email" (by simp [requiredFields])
    rw [h0] at this
    exact absurd this (by decide)
  refine ⟨signedContent env [("email", body.get "email")] 3600, ?_, ?_, rfl, rfl, rfl, ?_, ?_,
    ?_, ?_⟩
  · simp [signedContent, definedFields, hmail]
  · simp [signedContent, definedFields, hmail, List.lookup]
  · rw [hrun]
    rfl
  · rw [hqe]
    rfl
  · rw [hqe]
    rfl
  · intro hpool
    subst hpool
    subst hqe
    obtain ⟨_, _, hdb1, _⟩ := pgQuery_register_ok env body pw db db1 user rest hins
    refine ⟨registerRow env body pw db.nextId, ?_, rfl⟩
    rw [hrun, hdb1]

/-- Witness for C9: registering the sample body in the sample store. -/
theorem register_token_witness :
    ∃ t : Jwt,
      t.payload = [("email", sampleBody.get "email")] ∧ t.payload.lookup "id" = none ∧
      t.iat = sampleEnv.now ∧ t.exp = some (t.iat + 3600) ∧ t.key = sampleEnv.secret ∧
      (register sampleEnv pgQuery sampleBody sampleDb).response.body.field "token"
        = some (Json.val (JVal.str (sampleEnv.encode t))) ∧
      (registerQuery sampleEnv sampleBody "secret2").text = Sql.insertUsuarioToken ∧
      (registerQuery sampleEnv sampleBody "secret2").values[5]?
        = some (JVal.str (sampleEnv.encode t)) ∧
      (pgQuery = pgQuery → ∃ u : Usuario,
        (register sampleEnv pgQuery sampleBody sampleDb).db.usuarios
          = sampleDb.usuarios ++ [u] ∧
        u.token = some (sampleEnv.encode t)) :=
  register_token sampleEnv pgQuery sampleBody sampleDb sampleDbAfter
    (registerQuery sampleEnv sampleBody "secret2") sampleInserted.row [] (by decide) rfl

/-! ### C10: a successful login -/

theorem filter_head_unique {α : Type} (p : α → Bool) (l : List α) (u : α) (hmem : u ∈ l)
    (hp : p u = true) (huniq : ∀ v ∈ l, p v = true → v = u) :
    (l.filter p).head? = some u := by
  induction l with
  | nil => simp at hmem
  | cons a rest ih =>
    by_cases ha : p a = true
    · have := huniq a (by simp) ha
      simp [List.filter_cons, ha, ← this]
    · have hne : u ≠ a := by
        intro h0
        rw [h0] at hp
        exact ha hp
      have hmem2 : u ∈ rest := by
        rcases List.mem_cons.mp hmem with h | h
        · exact absurd h hne
        · exact h
      simp only [List.filter_cons, ha, Bool.false_eq_true, ↓reduceIte]
      exact ih hmem2 (fun v hv hpv => huniq v (List.mem_cons_of_mem _ hv) hpv)

/-- C10 as stated fails for an empty password: user 8 of the sample store has
the hash of the empty string, which verifies against the empty password, yet
`POST /api/login` answers 400 without querying the store. -/
theorem login_empty_password_counterexample :
    (∃ u ∈ sampleDb.usuarios, u.email = some "luis@x.com" ∧
      ∃ h, u.password = some h ∧ sampleEnv.compare "" h = true) ∧
    (login sampleEnv pgQuery
        [("email", JVal.str "luis@x.com"), ("password", JVal.str "")] sampleDb).response.status
      = 400 ∧
    (login sampleEnv pgQuery
        [("email", JVal.str "luis@x.com"), ("password", JVal.str "")] sampleDb).effects = [] := by
  refine ⟨?_, rfl, rfl⟩
  refine ⟨_, List.mem_cons_of_mem _ (List.mem_cons_self _ _), rfl, "$2b$10$", rfl, ?_⟩
  decide

/-- C10 (amended): over the model store with a set secret, for every
non-empty email and non-empty password such that the one row with that email
holds a hash the password verifies against, `POST /api/login` answers 200,
leaves the store as it was, and its body carries a token whose custom claims
are exactly `id` and `email` of that row, issued at the clock and expiring
exactly 3600 seconds later, together with usuario = id, nombre, email, rol of
that row. -/
theorem login_success (env : Env) (db : Db) (body : JObj) (u : Usuario)
    (email password hash : String)
    (hsec : env.secret ≠ "") (hemail : email ≠ "") (hpassword : password ≠ "")
    (hbe : body.get "email" = JVal.str email) (hbp : body.get "password" = JVal.str password)
    (hmem : u ∈ db.usuarios) (hu : u.email = some email)
    (huniq : ∀ v ∈ db.usuarios, v.email = some email → v = u)
    (hhash : u.password = some hash) (hcmp : env.compare password hash = true) :
    ∃ t : Jwt,
      t.payload = [("id", JVal.num u.id), ("email", JVal.str email)] ∧
      t.iat = env.now ∧ t.exp = some (t.iat + 3600) ∧ t.key = env.secret ∧
      (login env pgQuery body db).response.status = 200 ∧
      (login env pgQuery body db).response.body =
        Json.obj
          [("message", Json.val (JVal.str "Login exitoso")),
           ("token", Json.val (JVal.str (env.encode t))),
           ("usuario", Json.obj
              [("id", Json.val (JVal.num u.id)), ("nombre", Json.val (colVal u.nombre)),
               ("email", Json.val (JVal.str email)), ("rol", Json.val (colVal u.rol))])] ∧
      (login env pgQuery body db).db = db := by
  have hhead : ((db.usuarios.filter fun r => sqlTextEq r.email (pgText (JVal.str email))).map
      Usuario.row).head? = some u.row := by
    rw [List.head?_map,
      filter_head_unique (fun r => sqlTextEq r.email (pgText (JVal.str email))) db.usuarios u
        hmem (by simp [pgText, sqlTextEq, hu])
        (fun v hv hpv => huniq v hv (by
          simp only [pgText, sqlTextEq_some, beq_iff_eq] at hpv
          exact hpv))]
    rfl
  have hpwcol : u.row.get "password" = JVal.str hash := by
    simp [Usuario.row, JObj.get, List.lookup, hhash, colVal]
  have hidcol : u.row.get "id" = JVal.num u.id := by
    simp [Usuario.row, JObj.get, List.lookup]
  have hmailcol : u.row.get "email" = JVal.str email := by
    simp [Usuario.row, JObj.get, List.lookup, hu, colVal]
  have hnomcol : u.row.get "nombre" = colVal u.nombre := by
    simp [Usuario.row, JObj.get, List.lookup]
  have hrolcol : u.row.get "rol" = colVal u.rol := by
    simp [Usuario.row, JObj.get, List.lookup]
  have hcolne : ∀ o : Option String, colVal o ≠ JVal.undefined := by
    intro o
    cases o <;> simp [colVal]
  have hrun : login env pgQuery body db =
      { response :=
          { status := 200,
            body := loginBody
              (env.encode (signedContent env
                [("id", JVal.num u.id), ("email", JVal.str email)] 3600)) u.row },
        db := db,
        effects :=
          [Effect.query { text := Sql.selectUsuarioByEmail, values := [JVal.str email] },
           Effect.compare (JVal.str password) (JVal.str hash),
           Effect.sign [("id", JVal.num u.id), ("email", JVal.str email)] "1h"] } := by
    have hte : (JVal.str email).truthy = true := by simp [JVal.truthy, hemail]
    have htp : (JVal.str password).truthy = true := by simp [JVal.truthy, hpassword]
    unfold login
    simp only [hbe, hbp, hte, htp, Bool.not_true, Bool.or_self, Bool.false_eq_true, ↓reduceIte,
      pgQuery, hhead, hpwcol, hidcol, hmailcol, bcryptCompare, hcmp,
      jwtSign_one_hour env _ hsec]
  refine ⟨signedContent env [("id", JVal.num u.id), ("email", JVal.str email)] 3600, ?_, rfl,
    rfl, rfl, ?_, ?_, ?_⟩
  · simp [signedContent, definedFields]
  · rw [hrun]
  · rw [hrun]
    simp [loginBody, jsonObj, definedFields, hidcol, hmailcol, hnomcol, hrolcol, hcolne]
  · rw [hrun]

/-- Witness for C10: user 7 of the sample store logs in. -/
theorem login_success_witness :
    ∃ t : Jwt,
      t.payload = [("id", JVal.num sampleAna.id), ("email", JVal.str "ana@x.com")] ∧
      t.iat = sampleEnv.now ∧ t.exp = some (t.iat + 3600) ∧ t.key = sampleEnv.secret ∧
      (login sampleEnv pgQuery sampleLogin sampleDb).response.status = 200 ∧
      (login sampleEnv pgQuery sampleLogin sampleDb).response.body =
        Json.obj
          [("message", Json.val (JVal.str "Login exitoso")),
           ("token", Json.val (JVal.str (sampleEnv.encode t))),
           ("usuario", Json.obj
              [("id", Json.val (JVal.num sampleAna.id)),
               ("nombre", Json.val (colVal sampleAna.nombre)),
               ("email", Json.val (JVal.str "ana@x.com")),
               ("rol", Json.val (colVal sampleAna.rol))])] ∧
      (login sampleEnv pgQuery sampleLogin sampleDb).db = sampleDb :=
  login_success sampleEnv sampleDb sampleLogin sampleAna "ana@x.com" "secret1"
    "$2b$10$secret1" (by decide) (by decide) (by decide) rfl rfl (by decide) rfl (by decide)
    rfl (by decide)

/-! ### C11: the failure paths of login -/

/-- A login body with a falsy email or password is answered 400 before any
call is made. -/
theorem login_falsy (env : Env) (pool : Pool) (body : JObj) (db : Db)
    (h : (body.get "email").truthy = false ∨ (body.get "password").truthy = false) :
    login env pool body db =
      { response := { status := 400, body := errorBody "Email y contraseña son obligatorios" },
        db := db, effects := [] } := by
  unfold login
  rcases h with h | h <;> simp [h]

/-- A login body with truthy email and password reaches the SELECT; what
follows depends on the store's answer, the comparison and the signing. -/
theorem login_truthy (env : Env) (pool : Pool) (body : JObj) (db : Db)
    (he : (body.get "email").truthy = true) (hp : (body.get "password").truthy = true) :
    login env pool body db =
      match pool (loginQuery body) db with
      | (.error e, db1) =>
        { response := { status := 500, body := errorBody e.message }, db := db1,
          effects := [.query (loginQuery body)] }
      | (.ok result, db1) =>
        match result.rows.head? with
        | none =>
          { response := { status := 401, body := errorBody "Correo no registrado" }, db := db1,
            effects := [.query (loginQuery body)] }
        | some user =>
          match bcryptCompare env (body.get "password") (user.get "password") with
          | .error e =>
            { response := { status := 500, body := errorBody e.message }, db := db1,
              effects := [.query (loginQuery body),
                          .compare (body.get "password") (user.get "password")] }
          | .ok false =>
            { response := { status := 401, body := errorBody "Contraseña incorrecta" },
              db := db1,
              effects := [.query (loginQuery body),
                          .compare (body.get "password") (user.get "password")] }
          | .ok true =>
            match jwtSign env [("id", user.get "id"), ("email", user.get "email")] "1h" with
            | .error e =>
              { response := { status := 500, body := errorBody e.message }, db := db1,
                effects := [.query (loginQuery body),
                            .compare (body.get "password") (user.get "password"),
                            .sign [("id", user.get "id"), ("email", user.get "email")] "1h"] }
            | .ok token =>
              { response := { status := 200, body := loginBody token user }, db := db1,
                effects := [.query (loginQuery body),
                            .compare (body.get "password") (user.get "password"),
                            .sign [("id", user.get "id"), ("email", user.get "email")] "1h"] } := by
  unfold login
  simp only [he, hp, Bool.not_true, Bool.or_self, Bool.false_eq_true, ↓reduceIte, loginQuery]

/-- C11 as stated fails for a password that is not a string: the body passes
the presence check, user 7 has that email, the number does not verify against
the stored hash, yet the answer is 500, not 401 `Contraseña incorrecta`. -/
theorem login_numeric_password_counterexample :
    ¬ (sampleNumericLogin.get "password").absentOrEmpty ∧
    (∃ u ∈ sampleDb.usuarios, u.email = some "ana@x.com") ∧
    (∀ u ∈ sampleDb.usuarios,
      bcryptCompare sampleEnv (sampleNumericLogin.get "password") (u.row.get "password")
        ≠ .ok true) ∧
    (login sampleEnv pgQuery sampleNumericLogin sampleDb).response.status = 500 ∧
    (login sampleEnv pgQuery sampleNumericLogin sampleDb).response
      ≠ { status := 401, body := errorBody "Contraseña incorrecta" } := by
  refine ⟨?_, ⟨sampleAna, by decide, rfl⟩, ?_, rfl, ?_⟩
  · intro h
    rcases h with h | h | h <;> exact absurd h (by decide)
  · intro u _ h
    simp [bcryptCompare, sampleNumericLogin, JObj.get, List.lookup] at h
  · intro h
    have hs := congrArg Response.status h
    exact absurd hs (by decide)

/-- C11 (amended): with a set secret, `POST /api/login` decides in this
order. A falsy email or password (absent, null, empty, 0, false): 400 and no
call at all. Otherwise the SELECT rejects: 500. Otherwise it resolves with no
row: 401 `Correo no registrado`. Otherwise the comparison rejects (password
not a string, or no stored hash): 500. Otherwise it resolves false: 401
`Contraseña incorrecta`. A token is signed, and the body carries a token,
exactly when the presence check passed, the store returned a row and the
comparison resolved true. -/
theorem login_failure_order (env : Env) (pool : Pool) (body : JObj) (db : Db)
    (hsec : env.secret ≠ "") :
    (((body.get "email").truthy = false ∨ (body.get "password").truthy = false) →
      (login env pool body db).response
        = { status := 400, body := errorBody "Email y contraseña son obligatorios" } ∧
      (login env pool body db).effects = [] ∧ (login env pool body db).db = db) ∧
    ((body.get "email").truthy = true → (body.get "password").truthy = true →
      (∀ e db1, pool (loginQuery body) db = (.error e, db1) →
        (login env pool body db).response = { status := 500, body := errorBody e.message }) ∧
      (∀ db1, pool (loginQuery body) db = (.ok { rows := [] }, db1) →
        (login env pool body db).response
          = { status := 401, body := errorBody "Correo no registrado" }) ∧
      (∀ user rest db1 e, pool (loginQuery body) db = (.ok { rows := user :: rest }, db1) →
        bcryptCompare env (body.get "password") (user.get "password") = .error e →
        (login env pool body db).response = { status := 500, body := errorBody e.message }) ∧
      (∀ user rest db1, pool (loginQuery body) db = (.ok { rows := user :: rest }, db1) →
        bcryptCompare env (body.get "password") (user.get "password") = .ok false →
        (login env pool body db).response
          = { status := 401, body := errorBody "Contraseña incorrecta" })) ∧
    (((login env pool body db).response.body.field "token").isSome = true ↔
      ((body.get "email").truthy = true ∧ (body.get "password").truthy = true ∧
        ∃ user rest db1, pool (loginQuery body) db = (.ok { rows := user :: rest }, db1) ∧
          bcryptCompare env (body.get "password") (user.get "password") = .ok true)) ∧
    ((∃ payload span, Effect.sign payload span ∈ (login env pool body db).effects) ↔
      ((body.get "email").truthy = true ∧ (body.get "password").truthy = true ∧
        ∃ user rest db1, pool (loginQuery body) db = (.ok { rows := user :: rest }, db1) ∧
          bcryptCompare env (body.get "password") (user.get "password") = .ok true)) := by
  refine ⟨?_, ?_, ?_⟩
  · intro h
    rw [login_falsy env pool body db h]
    exact ⟨rfl, rfl, rfl⟩
  · intro he hp
    refine ⟨?_, ?_, ?_, ?_⟩
    · intro e db1 hq
      rw [login_truthy env pool body db he hp, hq]
    · intro db1 hq
      rw [login_truthy env pool body db he hp, hq]
      rfl
    · intro user rest db1 e hq hc
      rw [login_truthy env pool body db he hp, hq]
      simp only [List.head?_cons, hc]
    · intro user rest db1 hq hc
      rw [login_truthy env pool body db he hp, hq]
      simp only [List.head?_cons, hc]
  · by_cases he : (body.get "email").truthy = true
    · by_cases hp : (body.get "password").truthy = true
      · rw [login_truthy env pool body db he hp]
        rcases hq : pool (loginQuery body) db with ⟨res, db1⟩
        cases res with
        | error e =>
          simp [Json.field, errorBody, List.lookup]
        | ok result =>
          obtain ⟨rows⟩ := result
          cases rows with
          | nil => simp [Json.field, errorBody, List.lookup, he, hp]
          | cons user rest =>
            cases hc : bcryptCompare env (body.get "password") (user.get "password") with
            | error e => simp [Json.field, errorBody, List.lookup, he, hp, hc]
            | ok b =>
              cases b with
              | false => simp [Json.field, errorBody, List.lookup, he, hp, hc]
              | true =>
                simp [Json.field, loginBody, List.lookup, he, hp, hc,
                  jwtSign_one_hour env _ hsec]
      · have hp2 : (body.get "password").truthy = false := by simpa using hp
        rw [login_falsy env pool body db (Or.inr hp2)]
        simp [Json.field, errorBody, List.lookup, hp2]
    · have he2 : (body.get "email").truthy = false := by simpa using he
      rw [login_falsy env pool body db (Or.inl he2)]
      simp [Json.field, errorBody, List.lookup, he2]

/-- Witness for C11: an unknown email and a wrong password in the sample
store. -/
theorem login_failure_order_witness :
    (login sampleEnv pgQuery sampleUnknownLogin sampleDb).response
      = { status := 401, body := errorBody "Correo no registrado" } ∧
    (login sampleEnv pgQuery sampleWrongLogin sampleDb).response
      = { status := 401, body := errorBody "Contraseña incorrecta" } :=
  ⟨((login_failure_order sampleEnv pgQuery sampleUnknownLogin sampleDb (by decide)).2.1
      rfl rfl).2.1 sampleDb rfl,
   ((login_failure_order sampleEnv pgQuery sampleWrongLogin sampleDb (by decide)).2.1
      rfl rfl).2.2.2 sampleAna.row [] sampleDb rfl rfl⟩

/-! ### C12, C13: the identity endpoints -/

/-- A token whose expiry has been reached fails verification, whatever key
signed it. -/
theorem jwtVerify_expired (env : Env) (tok : String) (t : Jwt) (x : Nat)
    (hd : env.decode tok = some t) (hx : t.exp = some x) (hle : x ≤ env.now) :
    ∃ e, jwtVerify env tok = .error e := by
  rw [jwtVerify_error_iff]
  exact Or.inr ⟨t, hd, Or.inr (Or.inr ⟨x, hx, hle⟩)⟩

/-- With a verifying token both identity endpoints reach their SELECT by the
claimed id. -/
theorem identity_verified (env : Env) (pool : Pool) (h tok : String) (decoded : JObj) (db : Db)
    (hseg : bearerSegment h = some tok) (htok : tok ≠ "")
    (hver : jwtVerify env tok = .ok decoded) :
    verifyToken env pool (some h) db =
      (match pool { text := Sql.selectVerifyById, values := [decoded.get "id"] } db with
       | (.error _, db1) =>
         { response := { status := 401, body := errorBody "Token inválido" }, db := db1,
           effects := [.query { text := Sql.selectVerifyById, values := [decoded.get "id"] }] }
       | (.ok result, db1) =>
         match result.rows.head? with
         | none =>
           { response := { status := 401, body := errorBody "Usuario no encontrado" },
             db := db1,
             effects := [.query { text := Sql.selectVerifyById,
                                  values := [decoded.get "id"] }] }
         | some user =>
           { response :=
               { status := 200,
                 body := Json.obj
                   [("valid", Json.val (JVal.bool true)),
                    ("user", jsonObj [("id", user.get "id"), ("nombre", user.get "nombre"),
                                      ("email", user.get "email"), ("rol", user.get "rol")])] },
             db := db1,
             effects := [.query { text := Sql.selectVerifyById,
                                  values := [decoded.get "id"] }] }) ∧
    profile env pool (some h) db =
      (match pool { text := Sql.selectProfileById, values := [decoded.get "id"] } db with
       | (.error _, db1) =>
         { response := { status := 400, body := messageBody "Token no válido." }, db := db1,
           effects := [.query { text := Sql.selectProfileById, values := [decoded.get "id"] }] }
       | (.ok result, db1) =>
         match result.rows.head? with
         | none =>
           { response := { status := 404, body := messageBody "Usuario no encontrado." },
             db := db1,
             effects := [.query { text := Sql.selectProfileById,
                                  values := [decoded.get "id"] }] }
         | some row =>
           { response := { status := 200, body := jsonObj row }, db := db1,
             effects := [.query { text := Sql.selectProfileById,
                                  values := [decoded.get "id"] }] }) := by
  constructor
  · simp only [verifyToken, optionalBearer, hseg, htok, ↓reduceIte, hver]
  · simp only [profile, optionalBearer, hseg, htok, ↓reduceIte, hver]

/-- A lookup by a claimed id that no row has resolves with no rows and leaves
the model store as it was. -/
theorem pgQuery_select_missing (db : Db) (id : JVal) (key : Option Int)
    (hkey : pgInt id = .ok key) (hno : ∀ r ∈ db.usuarios, some r.id ≠ key) :
    pgQuery { text := Sql.selectVerifyById, values := [id] } db = (.ok { rows := [] }, db) ∧
    pgQuery { text := Sql.selectProfileById, values := [id] } db = (.ok { rows := [] }, db) := by
  have hf : (db.usuarios.filter fun r => some r.id == key) = [] := by
    rw [List.filter_eq_nil_iff]
    intro r hr
    simpa using hno r hr
  constructor <;> simp [pgQuery, hkey, hf]

/-- C12 as stated fails for `GET /api/verify-token`: the token `ghost`
verifies and claims id 99, which no row has, yet the answer is 401, not 404. -/
theorem verifyToken_missing_user_counterexample :
    (∃ decoded, jwtVerify ghostEnv "ghost" = .ok decoded ∧ decoded.get "id" = JVal.num 99) ∧
    (∀ u ∈ sampleDb.usuarios, u.id ≠ 99) ∧
    (verifyToken ghostEnv pgQuery (some "Bearer ghost") sampleDb).response.status = 401 ∧
    (verifyToken ghostEnv pgQuery (some "Bearer ghost") sampleDb).response.status ≠ 404 := by
  refine ⟨⟨_, rfl, by decide⟩, by decide, rfl, ?_⟩
  have h : (verifyToken ghostEnv pgQuery (some "Bearer ghost") sampleDb).response.status = 401 :=
    rfl
  rw [h]
  decide

/-- C12 (amended): over the model store, for every token that verifies but
whose claimed id matches no row of usuarios, `GET /api/verify-token` answers
401 `Usuario no encontrado` and `GET /api/profile` answers 404
`Usuario no encontrado.`; neither body carries user data and the store is
left as it was. -/
theorem identity_missing_user (env : Env) (h tok : String) (decoded : JObj) (db : Db)
    (key : Option Int)
    (hseg : bearerSegment h = some tok) (htok : tok ≠ "")
    (hver : jwtVerify env tok = .ok decoded)
    (hkey : pgInt (decoded.get "id") = .ok key)
    (hno : ∀ r ∈ db.usuarios, some r.id ≠ key) :
    (verifyToken env pgQuery (some h) db).response
      = { status := 401, body := errorBody "Usuario no encontrado" } ∧
    (verifyToken env pgQuery (some h) db).db = db ∧
    (profile env pgQuery (some h) db).response
      = { status := 404, body := messageBody "Usuario no encontrado." } ∧
    (profile env pgQuery (some h) db).db = db := by
  obtain ⟨hv, hp⟩ := identity_verified env pgQuery h tok decoded db hseg htok hver
  obtain ⟨hq1, hq2⟩ := pgQuery_select_missing db (decoded.get "id") key hkey hno
  rw [hv, hp, hq1, hq2]
  exact ⟨rfl, rfl, rfl, rfl⟩

/-- Witness for C12: the token `ghost` against the sample store. -/
theorem identity_missing_user_witness :
    (verifyToken ghostEnv pgQuery (some "Bearer ghost") sampleDb).response
      = { status := 401, body := errorBody "Usuario no encontrado" } ∧
    (verifyToken ghostEnv pgQuery (some "Bearer ghost") sampleDb).db = sampleDb ∧
    (profile ghostEnv pgQuery (some "Bearer ghost") sampleDb).response
      = { status := 404, body := messageBody "Usuario no encontrado." } ∧
    (profile ghostEnv pgQuery (some "Bearer ghost") sampleDb).db = sampleDb :=
  identity_missing_user ghostEnv "Bearer ghost" "ghost"
    ({ sampleJwt with
        payload := [("id", JVal.num 99), ("email", JVal.str "gone@x.com")] } : Jwt).claims
    sampleDb (some 99) (by decide) (by decide) rfl rfl (by decide)

/-- C13 as stated fails for `GET /api/profile`: the token `stale` has expired,
and the answer is 400, not 401. -/
theorem profile_expired_counterexample :
    (∃ t x, sampleEnv.decode "stale" = some t ∧ t.exp = some x ∧ x ≤ sampleEnv.now) ∧
    (profile sampleEnv pgQuery (some "Bearer stale") sampleDb).response.status = 400 ∧
    (profile sampleEnv pgQuery (some "Bearer stale") sampleDb).response.status ≠ 401 := by
  refine ⟨⟨{ sampleJwt with exp := some 1500 }, 1500, rfl, rfl, by decide⟩, rfl, ?_⟩
  have h : (profile sampleEnv pgQuery (some "Bearer stale") sampleDb).response.status = 400 :=
    rfl
  rw [h]
  decide

/-- C13 (amended): for every token whose expiry has been reached, whatever key
signed it and whatever the store is, `GET /api/verify-token` answers 401
`Token inválido` and `GET /api/profile` answers 400 `Token no válido.`; neither
issues a statement and the store is left as it was. -/
theorem identity_expired (env : Env) (pool : Pool) (h tok : String) (t : Jwt) (x : Nat)
    (db : Db)
    (hseg : bearerSegment h = some tok) (htok : tok ≠ "")
    (hd : env.decode tok = some t) (hx : t.exp = some x) (hle : x ≤ env.now) :
    verifyToken env pool (some h) db =
      { response := { status := 401, body := errorBody "Token inválido" }, db := db,
        effects := [] } ∧
    profile env pool (some h) db =
      { response := { status := 400, body := messageBody "Token no válido." }, db := db,
        effects := [] } := by
  obtain ⟨e, he⟩ := jwtVerify_expired env tok t x hd hx hle
  constructor
  · simp only [verifyToken, optionalBearer, hseg, htok, ↓reduceIte, he]
  · simp only [profile, optionalBearer, hseg, htok, ↓reduceIte, he]

/-- Witness for C13: the token `stale` in the sample environment. -/
theorem identity_expired_witness :
    verifyToken sampleEnv pgQuery (some "Bearer stale") sampleDb =
      { response := { status := 401, body := errorBody "Token inválido" }, db := sampleDb,
        effects := [] } ∧
    profile sampleEnv pgQuery (some "Bearer stale") sampleDb =
      { response := { status := 400, body := messageBody "Token no válido." }, db := sampleDb,
        effects := [] } :=
  identity_expired sampleEnv pgQuery "Bearer stale" "stale" { sampleJwt with exp := some 1500 }
    1500 sampleDb (by decide) (by decide) rfl rfl (by decide)

/-! ### The model of the resource tables -/

theorem campus_eta (s : Campus) : ({ s with tabla := s.tabla } : Campus) = s := by
  cases s
  rfl

theorem filter_hit_nil (rows : List Fila) (key : Option Int)
    (hno : ∀ r ∈ rows, some r.id ≠ key) : rows.filter (Fila.hit key) = [] := by
  rw [List.filter_eq_nil_iff]
  intro r hr
  simpa [Fila.hit] using hno r hr

theorem filter_not_hit_self (rows : List Fila) (key : Option Int)
    (hno : ∀ r ∈ rows, some r.id ≠ key) : (rows.filter fun r => !r.hit key) = rows := by
  rw [List.filter_eq_self]
  intro r hr
  simpa [Fila.hit] using hno r hr

theorem map_assign_self (rows : List Fila) (key : Option Int) (assignments : JObj)
    (hno : ∀ r ∈ rows, some r.id ≠ key) :
    (rows.map fun r => if r.hit key then r.assign assignments else r) = rows := by
  conv_rhs => rw [← List.map_id rows]
  apply List.map_congr_left
  intro r hr
  have : r.hit key = false := by simpa [Fila.hit] using hno r hr
  simp [this]

/-- A DELETE by an id that no row has removes nothing and returns nothing. -/
theorem campus_delete_missing (t : Tabla) (returning : Bool) (id : JVal) (key : Option Int)
    (s : Campus) (hkey : pgInt id = .ok key) (hno : ∀ r ∈ s.tabla t, some r.id ≠ key) :
    campusQuery { text := .deleteById t returning, values := [id] } s
      = (.ok { rows := [], rowCount := 0 }, s) := by
  simp only [campusQuery, hkey, filter_hit_nil _ key hno, filter_not_hit_self _ key hno,
    Function.update_eq_self, campus_eta, List.map_nil, ite_self, List.length_nil]

/-- A SELECT by an id that no row has returns nothing. -/
theorem campus_select_missing (t : Tabla) (id : JVal) (key : Option Int) (s : Campus)
    (hkey : pgInt id = .ok key) (hno : ∀ r ∈ s.tabla t, some r.id ≠ key) :
    campusQuery { text := .selectById t, values := [id] } s
      = (.ok { rows := [], rowCount := 0 }, s) := by
  simp only [campusQuery, hkey, filter_hit_nil _ key hno, List.map_nil, List.length_nil]

/-- An UPDATE by id, with as many values as columns, rewrites the rows with
that id and returns them. -/
theorem campus_update (t : Tabla) (columns : List String) (vals : List JVal) (id : JVal)
    (key : Option Int) (s : Campus) (hlen : vals.length = columns.length)
    (hkey : pgInt id = .ok key) :
    campusQuery { text := .updateById t columns, values := vals ++ [id] } s
      = (.ok { rows := (((s.tabla t).filter (Fila.hit key)).map fun r =>
                  r.assign (columns.zip (vals.map pgStored))).map Fila.obj,
               rowCount := (((s.tabla t).filter (Fila.hit key)).map fun r =>
                  r.assign (columns.zip (vals.map pgStored))).length },
         { s with
           tabla := Function.update s.tabla t
             ((s.tabla t).map fun r =>
                if r.hit key then r.assign (columns.zip (vals.map pgStored)) else r) }) := by
  have h1 : (vals ++ [id]).length = columns.length + 1 := by simp [hlen]
  have h2 : (vals ++ [id]).drop columns.length = [id] := by
    rw [← hlen]
    simp
  have h3 : (vals ++ [id]).take columns.length = vals := by
    rw [← hlen]
    simp
  simp only [campusQuery, h1, ne_eq, not_true_eq_false, ↓reduceIte, h2, List.headD_cons, hkey,
    h3]

/-- An UPDATE by an id that no row has changes nothing and returns nothing. -/
theorem campus_update_missing (t : Tabla) (columns : List String) (vals : List JVal) (id : JVal)
    (key : Option Int) (s : Campus) (hlen : vals.length = columns.length)
    (hkey : pgInt id = .ok key) (hno : ∀ r ∈ s.tabla t, some r.id ≠ key) :
    campusQuery { text := .updateById t columns, values := vals ++ [id] } s
      = (.ok { rows := [], rowCount := 0 }, s) := by
  rw [campus_update t columns vals id key s hlen hkey]
  simp only [filter_hit_nil _ key hno, map_assign_self _ key _ hno, Function.update_eq_self,
    campus_eta, List.map_nil, List.length_nil]

/-- A DELETE of a user by an id that no row has removes nothing and returns
nothing. -/
theorem pgQuery_delete_missing (db : Db) (id : JVal) (key : Option Int)
    (hkey : pgInt id = .ok key) (hno : ∀ r ∈ db.usuarios, some r.id ≠ key) :
    pgQuery { text := Sql.deleteUsuarioById, values := [id] } db = (.ok { rows := [] }, db) := by
  have hf : (db.usuarios.filter fun r => some r.id == key) = [] := by
    rw [List.filter_eq_nil_iff]
    intro r hr
    simpa using hno r hr
  have hg : (db.usuarios.filter fun r => !(some r.id == key)) = db.usuarios := by
    rw [List.filter_eq_self]
    intro r hr
    simpa using hno r hr
  simp [pgQuery, hkey, hf, hg]

/-- A path id is either read by the store as an integer or rejected. -/
theorem pgInt_str_cases (id : String) :
    (∃ k : Int, pgInt (JVal.str id) = .ok (some k)) ∨ (∃ e, pgInt (JVal.str id) = .error e) := by
  cases h : parseInteger id.data with
  | none =>
    exact Or.inr ⟨{ code := some "22P02", message := "invalid input syntax for type integer" },
      by simp only [pgInt, h]⟩
  | some k => exact Or.inl ⟨k, by simp only [pgInt, h]⟩

/-- A DELETE by an id the store rejects changes nothing. -/
theorem campus_delete_rejected (t : Tabla) (returning : Bool) (id : JVal) (e : JsError)
    (s : Campus) (herr : pgInt id = .error e) :
    campusQuery { text := .deleteById t returning, values := [id] } s = (.error e, s) := by
  simp only [campusQuery, herr]

/-- A SELECT by an id the store rejects. -/
theorem campus_select_rejected (t : Tabla) (id : JVal) (e : JsError) (s : Campus)
    (herr : pgInt id = .error e) :
    campusQuery { text := .selectById t, values := [id] } s = (.error e, s) := by
  simp only [campusQuery, herr]

/-- An UPDATE by an id the store rejects changes nothing. -/
theorem campus_update_rejected (t : Tabla) (columns : List String) (vals : List JVal) (id : JVal)
    (e : JsError) (s : Campus) (hlen : vals.length = columns.length)
    (herr : pgInt id = .error e) :
    campusQuery { text := .updateById t columns, values := vals ++ [id] } s = (.error e, s) := by
  have h1 : (vals ++ [id]).length = columns.length + 1 := by simp [hlen]
  have h2 : (vals ++ [id]).drop columns.length = [id] := by
    rw [← hlen]
    simp
  simp only [campusQuery, h1, ne_eq, not_true_eq_false, ↓reduceIte, h2, List.headD_cons, herr]

/-- A DELETE of a user by an id the store rejects changes nothing. -/
theorem pgQuery_delete_rejected (db : Db) (id : JVal) (e : JsError)
    (herr : pgInt id = .error e) :
    pgQuery { text := Sql.deleteUsuarioById, values := [id] } db = (.error e, db) := by
  simp [pgQuery, herr]

/-! ### C14: DELETE by an id that matches no row -/

/-- C14 as stated fails for an id that is not an integer: `abc` is the id of
no row, yet the store rejects the statement and the DELETE handlers of lugar
and of usuarios answer 500, not 404. -/
theorem delete_missing_id_counterexample :
    parseInteger "abc".data = none ∧
    (deleteRecurso .lugar campusQuery "abc" sampleCampus).response.status = 500 ∧
    (deleteRecurso .lugar campusQuery "abc" sampleCampus).response.status ≠ 404 ∧
    (deleteUsuario pgQuery "abc" sampleDb).response.status = 500 ∧
    (deleteUsuario pgQuery "abc" sampleDb).response.status ≠ 404 := by
  have h1 : (deleteRecurso .lugar campusQuery "abc" sampleCampus).response.status = 500 := rfl
  have h2 : (deleteUsuario pgQuery "abc" sampleDb).response.status = 500 := rfl
  refine ⟨by decide, h1, ?_, h2, ?_⟩
  · rw [h1]
    decide
  · rw [h2]
    decide

/-- C14 (amended): over the model store, for every resource table and for
usuarios and every path id: when the store reads the id as an integer that no
row of the table has, the DELETE is answered 404; when the store rejects the
id as not an integer, the DELETE is answered 500; in both cases the store,
hence the table, is left exactly as it was. Every id is of one of the two
kinds. -/
theorem delete_missing_id (t : Tabla) (id : String) (s : Campus) (db : Db) :
    (∀ key, pgInt (JVal.str id) = .ok key →
      ((∀ r ∈ s.tabla t, some r.id ≠ key) →
        (deleteRecurso t campusQuery id s).response.status = 404 ∧
        (deleteRecurso t campusQuery id s).state = s) ∧
      ((∀ u ∈ db.usuarios, some u.id ≠ key) →
        (deleteUsuario pgQuery id db).response.status = 404 ∧
        (deleteUsuario pgQuery id db).db = db)) ∧
    (∀ e, pgInt (JVal.str id) = .error e →
      (deleteRecurso t campusQuery id s).response.status = 500 ∧
      (deleteRecurso t campusQuery id s).state = s ∧
      (deleteUsuario pgQuery id db).response.status = 500 ∧
      (deleteUsuario pgQuery id db).db = db) ∧
    ((∃ k : Int, pgInt (JVal.str id) = .ok (some k)) ∨
      (∃ e, pgInt (JVal.str id) = .error e)) := by
  refine ⟨?_, ?_, pgInt_str_cases id⟩
  · intro key hkey
    constructor
    · intro hno
      constructor <;> cases t <;>
        simp [deleteRecurso, deleteLugar, deleteCategoria, deleteEdificio, deleteBloque,
          deleteEvaluacion, deleteWifi, campus_delete_missing _ _ _ key s hkey hno,
          campus_select_missing _ _ key s hkey hno]
    · intro hnou
      have hu := pgQuery_delete_missing db (JVal.str id) key hkey hnou
      constructor <;> simp [deleteUsuario, hu]
  · intro e herr
    have hu := pgQuery_delete_rejected db (JVal.str id) e herr
    refine ⟨?_, ?_, ?_, ?_⟩
    · cases t <;>
        simp [deleteRecurso, deleteLugar, deleteCategoria, deleteEdificio, deleteBloque,
          deleteEvaluacion, deleteWifi, campus_delete_rejected _ _ _ e s herr,
          campus_select_rejected _ _ e s herr, serverError]
    · cases t <;>
        simp [deleteRecurso, deleteLugar, deleteCategoria, deleteEdificio, deleteBloque,
          deleteEvaluacion, deleteWifi, campus_delete_rejected _ _ _ e s herr,
          campus_select_rejected _ _ e s herr]
    · simp [deleteUsuario, hu]
    · simp [deleteUsuario, hu]

/-- Witness for C14: id 99 and id `abc` against the sample stores, for the
evaluations table. -/
theorem delete_missing_id_witness :
    ((deleteRecurso .evaluaciones campusQuery "99" sampleCampus).response.status = 404 ∧
     (deleteRecurso .evaluaciones campusQuery "99" sampleCampus).state = sampleCampus) ∧
    ((deleteUsuario pgQuery "99" sampleDb).response.status = 404 ∧
     (deleteUsuario pgQuery "99" sampleDb).db = sampleDb) ∧
    ((deleteRecurso .evaluaciones campusQuery "abc" sampleCampus).response.status = 500 ∧
     (deleteRecurso .evaluaciones campusQuery "abc" sampleCampus).state = sampleCampus ∧
     (deleteUsuario pgQuery "abc" sampleDb).response.status = 500 ∧
     (deleteUsuario pgQuery "abc" sampleDb).db = sampleDb) :=
  ⟨((delete_missing_id .evaluaciones "99" sampleCampus sampleDb).1 (some 99) rfl).1
      (by decide),
   ((delete_missing_id .evaluaciones "99" sampleCampus sampleDb).1 (some 99) rfl).2
      (by decide),
   (delete_missing_id .evaluaciones "abc" sampleCampus sampleDb).2.1
      { code := some "22P02", message := "invalid input syntax for type integer" } rfl⟩

/-! ### C15: PUT by an id that matches no row -/

/-- C15 as stated fails for Place (and likewise Category and WifiCredential):
id 99 matches no row of lugar, yet a PUT with an empty body is answered 400,
not 404; and it fails for an id that is not an integer: a PUT of a building by
`abc` is answered 500. -/
theorem put_missing_id_counterexample :
    (∀ r ∈ sampleCampus.tabla .lugar, r.id ≠ 99) ∧
    (putRecurso .lugar campusQuery "99" [] sampleCampus).response.status = 400 ∧
    (putRecurso .lugar campusQuery "99" [] sampleCampus).response.status ≠ 404 ∧
    parseInteger "abc".data = none ∧
    (putRecurso .edificios campusQuery "abc" [] sampleCampus).response.status = 500 ∧
    (putRecurso .edificios campusQuery "abc" [] sampleCampus).response.status ≠ 404 := by
  have h : (putRecurso .lugar campusQuery "99" [] sampleCampus).response.status = 400 := rfl
  have h2 : (putRecurso .edificios campusQuery "abc" [] sampleCampus).response.status = 500 :=
    rfl
  refine ⟨by decide, h, ?_, by decide, h2, ?_⟩
  · rw [h]
    decide
  · rw [h2]
    decide

/-- C15 (amended): over the model store, for every resource, every path id
and every body, a PUT by an id that is the id of no row leaves the store as
it was. When the body does not pass the presence check of the resource
(nombre and fecha_creacion for Place, nombre for Category, nombre and
password for WifiCredential, nothing for Building, Block and Evaluation) the
answer is 400 and no statement is issued; when it passes, the answer is 404
if the store reads the id as an integer that no row of the table has and 500
if the store rejects the id as not an integer. Every id is of one of the two
kinds. -/
theorem put_missing_id (t : Tabla) (id : String) (body : JObj) (s : Campus) :
    (present (putRequired t) body = false →
      (putRecurso t campusQuery id body s).response.status = 400 ∧
      (putRecurso t campusQuery id body s).state = s ∧
      (putRecurso t campusQuery id body s).queries = []) ∧
    (∀ key, pgInt (JVal.str id) = .ok key → (∀ r ∈ s.tabla t, some r.id ≠ key) →
      present (putRequired t) body = true →
      (putRecurso t campusQuery id body s).response.status = 404 ∧
      (putRecurso t campusQuery id body s).state = s) ∧
    (∀ e, pgInt (JVal.str id) = .error e → present (putRequired t) body = true →
      (putRecurso t campusQuery id body s).response.status = 500 ∧
      (putRecurso t campusQuery id body s).state = s) ∧
    ((∃ k : Int, pgInt (JVal.str id) = .ok (some k)) ∨
      (∃ e, pgInt (JVal.str id) = .error e)) := by
  refine ⟨?_, ?_, ?_, pgInt_str_cases id⟩
  · intro hp
    cases t <;> simp [present, putRequired] at hp <;>
      first
      | (simp [putRecurso, putLugar, putCategoria, putWifi, hp]; done)
      | (cases h1 : (body.get "nombre").truthy <;>
          simp_all [putRecurso, putLugar, putCategoria, putWifi])
  · intro key hkey hno hp
    have hq := campus_update_missing t (columnas t) ((columnas t).map body.get) (JVal.str id)
      key s (by simp) hkey hno
    cases t <;> simp only [columnas, List.map, List.cons_append, List.nil_append] at hq <;>
      simp [present, putRequired] at hp <;>
      simp [putRecurso, putLugar, putCategoria, putEdificio, putBloque, putEvaluacion, putWifi,
        hp, hq]
  · intro e herr hp
    have hq := campus_update_rejected t (columnas t) ((columnas t).map body.get) (JVal.str id)
      e s (by simp) herr
    cases t <;> simp only [columnas, List.map, List.cons_append, List.nil_append] at hq <;>
      simp [present, putRequired] at hp <;>
      simp [putRecurso, putLugar, putCategoria, putEdificio, putBloque, putEvaluacion, putWifi,
        hp, hq, serverError]

/-- Witness for C15: id 99 with a complete body for Place and with any body
for Building, and id `abc` for Building. -/
theorem put_missing_id_witness :
    ((putRecurso .lugar campusQuery "99"
        [("nombre", JVal.str "Campus Norte"), ("fecha_creacion", JVal.str "2024-01-01")]
        sampleCampus).response.status = 404 ∧
     (putRecurso .lugar campusQuery "99"
        [("nombre", JVal.str "Campus Norte"), ("fecha_creacion", JVal.str "2024-01-01")]
        sampleCampus).state = sampleCampus) ∧
    ((putRecurso .edificios campusQuery "99" [] sampleCampus).response.status = 404 ∧
     (putRecurso .edificios campusQuery "99" [] sampleCampus).state = sampleCampus) ∧
    ((putRecurso .edificios campusQuery "abc" [] sampleCampus).response.status = 500 ∧
     (putRecurso .edificios campusQuery "abc" [] sampleCampus).state = sampleCampus) ∧
    ((putRecurso .lugar campusQuery "abc" [] sampleCampus).response.status = 400 ∧
     (putRecurso .lugar campusQuery "abc" [] sampleCampus).state = sampleCampus ∧
     (putRecurso .lugar campusQuery "abc" [] sampleCampus).queries = []) :=
  ⟨(put_missing_id .lugar "99"
      [("nombre", JVal.str "Campus Norte"), ("fecha_creacion", JVal.str "2024-01-01")]
      sampleCampus).2.1 (some 99) rfl (by decide) (by decide),
   (put_missing_id .edificios "99" [] sampleCampus).2.1 (some 99) rfl (by decide) (by decide),
   (put_missing_id .edificios "abc" [] sampleCampus).2.2.1
      { code := some "22P02", message := "invalid input syntax for type integer" } rfl
      (by decide),
   (put_missing_id .lugar "abc" [] sampleCampus).1 (by decide)⟩

/-! ### C16: PUT by an existing id -/

theorem lookup_map_pair (f : String → JVal) (cols : List String) (c : String) (hc : c ∈ cols) :
    (cols.map fun x => (x, f x)).lookup c = some (f c) := by
  induction cols with
  | nil => simp at hc
  | cons a rest ih =>
    by_cases hca : c = a
    · subst hca
      simp [List.lookup]
    · have hmem : c ∈ rest := by
        rcases List.mem_cons.mp hc with h | h
        · exact absurd h hca
        · exact h
      have hne : (c == a) = false := by simpa using hca
      simp only [List.map_cons, List.lookup, hne]
      exact ih hmem

/-- Writing every column of a row from a body leaves no column with its
previous value. -/
theorem assign_bodyCampos (t : Tabla) (body : JObj) (r : Fila)
    (hwf : r.campos.map Prod.fst = columnas t) :
    r.assign (bodyCampos t body) = { r with campos := bodyCampos t body } := by
  have hmap : (r.campos.map fun kv => (kv.1, ((bodyCampos t body).lookup kv.1).getD kv.2))
      = r.campos.map fun kv => (kv.1, pgStored (body.get kv.1)) := by
    apply List.map_congr_left
    intro kv hkv
    have hc : kv.1 ∈ columnas t := by
      rw [← hwf]
      exact List.mem_map_of_mem Prod.fst hkv
    have := lookup_map_pair (fun c => pgStored (body.get c)) (columnas t) kv.1 hc
    simp only [bodyCampos, this, Option.getD_some]
  have hcols : (r.campos.map fun kv => (kv.1, pgStored (body.get kv.1)))
      = bodyCampos t body := by
    have : (r.campos.map fun kv => (kv.1, pgStored (body.get kv.1)))
        = (r.campos.map Prod.fst).map fun c => (c, pgStored (body.get c)) := by
      rw [List.map_map]
      rfl
    rw [this, hwf]
    rfl
  simp only [Fila.assign, hmap, hcols]

theorem zip_bodyCampos (t : Tabla) (body : JObj) :
    (columnas t).zip (((columnas t).map body.get).map pgStored) = bodyCampos t body := by
  cases t <;> rfl

/-- Over the model store, the UPDATE a PUT handler issues for a body writes
every column of the rows with that id from the body. -/
theorem campus_put_query (t : Tabla) (id : String) (key : Option Int) (body : JObj) (s : Campus)
    (hkey : pgInt (JVal.str id) = .ok key)
    (hwf : ∀ r ∈ s.tabla t, r.campos.map Prod.fst = columnas t) :
    campusQuery { text := .updateById t (columnas t),
                  values := (columnas t).map body.get ++ [JVal.str id] } s
      = (.ok { rows := (((s.tabla t).filter (Fila.hit key)).map fun r =>
                  ({ r with campos := bodyCampos t body } : Fila)).map Fila.obj,
               rowCount := ((s.tabla t).filter (Fila.hit key)).length },
         { s with
           tabla := Function.update s.tabla t
             ((s.tabla t).map fun r =>
                if r.hit key then { r with campos := bodyCampos t body } else r) }) := by
  rw [campus_update t (columnas t) ((columnas t).map body.get) (JVal.str id) key s (by simp)
    hkey, zip_bodyCampos]
  have h1 : ((s.tabla t).filter (Fila.hit key)).map (fun r => r.assign (bodyCampos t body))
      = ((s.tabla t).filter (Fila.hit key)).map fun r =>
          ({ r with campos := bodyCampos t body } : Fila) := by
    apply List.map_congr_left
    intro r hr
    exact assign_bodyCampos t body r (hwf r (List.mem_of_mem_filter hr))
  have h2 : ((s.tabla t).map fun r => if r.hit key then r.assign (bodyCampos t body) else r)
      = (s.tabla t).map fun r =>
          if r.hit key then ({ r with campos := bodyCampos t body } : Fila) else r := by
    apply List.map_congr_left
    intro r hr
    rw [assign_bodyCampos t body r (hwf r hr)]
  rw [h1, h2]
  simp

/-- C16 as stated fails for Place (and likewise Category and WifiCredential):
place 1 exists, yet a PUT whose body omits fecha_creacion is rejected with
400 and the row keeps both of its previous values. -/
theorem put_existing_id_counterexample :
    (∃ r ∈ sampleCampus.tabla .lugar, r.id = 1) ∧
    (putRecurso .lugar campusQuery "1" [("nombre", JVal.str "Campus Norte")]
        sampleCampus).response.status = 400 ∧
    (putRecurso .lugar campusQuery "1" [("nombre", JVal.str "Campus Norte")]
        sampleCampus).state.tabla .lugar = sampleCampus.tabla .lugar := by
  refine ⟨⟨_, List.mem_cons_self _ _, rfl⟩, rfl, rfl⟩

/-- C16 (amended): over the model store, for every resource, every integer id
that some row of its table has and every body that passes the presence check
of the resource (nothing is checked for Building, Block and Evaluation), a
PUT by that id is answered 200, issues one UPDATE that sets every mutable
column to the body field of the same name, and leaves every row with that id
holding exactly the body's values, `NULL` for each field the body omits;
other rows and tables are untouched. A body that fails the presence check of
Place, Category or WifiCredential is answered 400 and nothing is written. -/
theorem put_existing_id (t : Tabla) (id : String) (k : Int) (body : JObj) (s : Campus)
    (hkey : pgInt (JVal.str id) = .ok (some k))
    (hex : ∃ r ∈ s.tabla t, r.id = k)
    (hwf : ∀ r ∈ s.tabla t, r.campos.map Prod.fst = columnas t) :
    (present (putRequired t) body = true →
      (putRecurso t campusQuery id body s).response.status = 200 ∧
      (putRecurso t campusQuery id body s).queries
        = [{ text := .updateById t (columnas t),
             values := (columnas t).map body.get ++ [JVal.str id] }] ∧
      (putRecurso t campusQuery id body s).state.tabla t
        = (s.tabla t).map (fun r =>
            if r.id = k then ({ r with campos := bodyCampos t body } : Fila) else r) ∧
      (∀ u, u ≠ t → (putRecurso t campusQuery id body s).state.tabla u = s.tabla u)) ∧
    (present (putRequired t) body = false →
      (putRecurso t campusQuery id body s).response.status = 400 ∧
      (putRecurso t campusQuery id body s).state = s ∧
      (putRecurso t campusQuery id body s).queries = []) := by
  have hq := campus_put_query t id (some k) body s hkey hwf
  have hne : (s.tabla t).filter (Fila.hit (some k)) ≠ [] := by
    obtain ⟨r, hr, hrk⟩ := hex
    intro h0
    have : r ∈ (s.tabla t).filter (Fila.hit (some k)) := by
      rw [List.mem_filter]
      exact ⟨hr, by simp [Fila.hit, hrk]⟩
    rw [h0] at this
    simp at this
  have htab : ((s.tabla t).map fun r =>
        if r.hit (some k) then ({ r with campos := bodyCampos t body } : Fila) else r)
      = (s.tabla t).map (fun r =>
          if r.id = k then ({ r with campos := bodyCampos t body } : Fila) else r) := by
    apply List.map_congr_left
    intro r _
    simp [Fila.hit]
  rw [htab] at hq
  have hother : ∀ u, u ≠ t → ∀ rows : List Fila, Function.update s.tabla t rows u = s.tabla u :=
    fun u hu rows => Function.update_noteq hu rows s.tabla
  cases t <;> simp only [columnas, List.map, List.cons_append, List.nil_append] at hq <;>
    constructor <;> intro hp <;> simp [present, putRequired] at hp <;>
    first
    | (simp [putRecurso, putLugar, putCategoria, putEdificio, putBloque, putEvaluacion, putWifi,
        hp, hq, hne, columnas]; done)
    | (simp [putRecurso, putLugar, putCategoria, putEdificio, putBloque, putEvaluacion, putWifi,
        hp, hq, hne, columnas]; exact fun u hu => hother u hu _)
    | (cases h1 : (body.get "nombre").truthy <;>
        simp_all [putRecurso, putLugar, putCategoria, putEdificio, putBloque, putEvaluacion,
          putWifi])

/-- Witness for C16: an empty body sent to building 1 of the sample store
is accepted and writes `NULL` to its three columns. -/
theorem put_existing_id_witness :
    (putRecurso .edificios campusQuery "1" [] sampleCampus).response.status = 200 ∧
    (putRecurso .edificios campusQuery "1" [] sampleCampus).state.tabla .edificios
      = [{ id := 1, campos := [("nombre", JVal.null), ("lugar_id", JVal.null),
                               ("categoria_id", JVal.null)] }] :=
  ⟨((put_existing_id .edificios "1" 1 [] sampleCampus rfl (by decide) (by decide)).1
      (by decide)).1,
   ((put_existing_id .edificios "1" 1 [] sampleCampus rfl (by decide) (by decide)).1
      (by decide)).2.2.1⟩

/-! ### C17: a Place read back after an update -/

theorem head_of_all_eq {α : Type} (l : List α) (x : α) (hne : l ≠ [])
    (hall : ∀ y ∈ l, y = x) : l.head? = some x := by
  cases l with
  | nil => exact absurd rfl hne
  | cons a rest => simp [hall a (List.mem_cons_self _ _)]

/-- C17: over the model store, for every integer id that a row of lugar has
and every non-empty nombre and fecha_creacion, `PUT /api/lugar/:id` answers
200 with the updated row, and a `GET /api/lugar` issued next returns the
table in which every row with that id holds exactly the submitted nombre and
fecha_creacion under its original id, all other rows being as before. -/
theorem put_lugar_read_back (id : String) (k : Int) (nombre fecha : String) (body : JObj)
    (s : Campus)
    (hkey : pgInt (JVal.str id) = .ok (some k))
    (hex : ∃ r ∈ s.tabla .lugar, r.id = k)
    (hwf : ∀ r ∈ s.tabla .lugar, r.campos.map Prod.fst = columnas .lugar)
    (hn : nombre ≠ "") (hf : fecha ≠ "")
    (hbn : body.get "nombre" = JVal.str nombre)
    (hbf : body.get "fecha_creacion" = JVal.str fecha) :
    (putLugar campusQuery id body s).response
      = { status := 200,
          body := wrapRow "Lugar actualizado" "lugar"
            (some [("id", JVal.num k), ("nombre", JVal.str nombre),
                   ("fecha_creacion", JVal.str fecha)]) } ∧
    getLugar (.ok ()) campusQuery (putLugar campusQuery id body s).state
      = .ok { response :=
                { status := 200,
                  body := Json.list (((s.tabla .lugar).map fun r =>
                    if r.id = k then
                      ({ id := k, campos := [("nombre", JVal.str nombre),
                                             ("fecha_creacion", JVal.str fecha)] } : Fila)
                    else r).map fun r => jsonObj r.obj) },
              state := (putLugar campusQuery id body s).state,
              queries := [{ text := .selectAll .lugar, values := [] }] } := by
  have hq := campus_put_query .lugar id (some k) body s hkey hwf
  simp only [columnas, List.map, List.cons_append, List.nil_append] at hq
  have hcampos : bodyCampos .lugar body
      = [("nombre", JVal.str nombre), ("fecha_creacion", JVal.str fecha)] := by
    simp [bodyCampos, columnas, hbn, hbf, pgStored]
  rw [hcampos] at hq
  have hne : (s.tabla .lugar).filter (Fila.hit (some k)) ≠ [] := by
    obtain ⟨r, hr, hrk⟩ := hex
    intro h0
    have : r ∈ (s.tabla .lugar).filter (Fila.hit (some k)) := by
      rw [List.mem_filter]
      exact ⟨hr, by simp [Fila.hit, hrk]⟩
    rw [h0] at this
    simp at this
  have hhead : ((((s.tabla .lugar).filter (Fila.hit (some k))).map fun r =>
        ({ r with campos := [("nombre", JVal.str nombre),
                             ("fecha_creacion", JVal.str fecha)] } : Fila)).map Fila.obj).head?
      = some [("id", JVal.num k), ("nombre", JVal.str nombre),
              ("fecha_creacion", JVal.str fecha)] := by
    apply head_of_all_eq
    · simpa using hne
    · intro y hy
      simp only [List.map_map, List.mem_map, List.mem_filter, Function.comp] at hy
      obtain ⟨r, ⟨_, hr⟩, rfl⟩ := hy
      have : r.id = k := by simpa [Fila.hit] using hr
      simp [Fila.obj, this]
  have htab : ((s.tabla .lugar).map fun r =>
        if r.hit (some k) then
          ({ r with campos := [("nombre", JVal.str nombre),
                               ("fecha_creacion", JVal.str fecha)] } : Fila)
        else r)
      = (s.tabla .lugar).map fun r =>
          if r.id = k then
            ({ id := k, campos := [("nombre", JVal.str nombre),
                                   ("fecha_creacion", JVal.str fecha)] } : Fila)
          else r := by
    apply List.map_congr_left
    intro r _
    by_cases h : r.id = k
    · simp [Fila.hit, h]
    · simp [Fila.hit, h]
  have htn : (JVal.str nombre).truthy = true := by simp [JVal.truthy, hn]
  have htf : (JVal.str fecha).truthy = true := by simp [JVal.truthy, hf]
  have hput : putLugar campusQuery id body s =
      { response :=
          { status := 200,
            body := wrapRow "Lugar actualizado" "lugar"
              (some [("id", JVal.num k), ("nombre", JVal.str nombre),
                     ("fecha_creacion", JVal.str fecha)]) },
        state :=
          { s with
            tabla := Function.update s.tabla .lugar
              ((s.tabla .lugar).map fun r =>
                if r.id = k then
                  ({ id := k, campos := [("nombre", JVal.str nombre),
                                         ("fecha_creacion", JVal.str fecha)] } : Fila)
                else r) },
        queries := [{ text := .updateById .lugar ["nombre", "fecha_creacion"],
                      values := [JVal.str nombre, JVal.str fecha, JVal.str id] }] } := by
    rw [hbn, hbf, htab] at hq
    unfold putLugar
    simp only [hbn, hbf, htn, htf, Bool.not_true, Bool.or_self, Bool.false_eq_true, ↓reduceIte,
      hq, hhead]
    simp [hne]
  rw [hput]
  refine ⟨rfl, ?_⟩
  simp [getLugar, campusQuery, Function.update_same]

/-- Witness for C17: place 1 of the sample store renamed `Campus Norte`. -/
theorem put_lugar_read_back_witness :
    (putLugar campusQuery "1" sampleLugarBody sampleCampus).response
      = { status := 200,
          body := wrapRow "Lugar actualizado" "lugar"
            (some [("id", JVal.num 1), ("nombre", JVal.str "Campus Norte"),
                   ("fecha_creacion", JVal.str "2024-01-01")]) } ∧
    getLugar (.ok ()) campusQuery (putLugar campusQuery "1" sampleLugarBody sampleCampus).state
      = .ok { response :=
                { status := 200,
                  body := Json.list (((sampleCampus.tabla .lugar).map fun r =>
                    if r.id = 1 then
                      ({ id := 1, campos := [("nombre", JVal.str "Campus Norte"),
                                             ("fecha_creacion", JVal.str "2024-01-01")] } : Fila)
                    else r).map fun r => jsonObj r.obj) },
              state := (putLugar campusQuery "1" sampleLugarBody sampleCampus).state,
              queries := [{ text := .selectAll .lugar, values := [] }] } :=
  put_lugar_read_back "1" 1 "Campus Norte" "2024-01-01" sampleLugarBody sampleCampus rfl
    (by decide) (by decide) (by decide) (by decide) rfl rfl

/-! ### C18: Create -/

/-- C18 as stated fails for Evaluation: with an empty body, in which nombre
and the four references are absent, the handler still issues its INSERT and
the model store answers 201. -/
theorem post_evaluacion_counterexample :
    (JObj.get [] "nombre").absentOrEmpty ∧
    (postRecurso .evaluaciones campusQuery [] sampleCampus).response.status = 201 ∧
    (postRecurso .evaluaciones campusQuery [] sampleCampus).queries.length = 1 ∧
    ((postRecurso .evaluaciones campusQuery [] sampleCampus).state.tabla .evaluaciones).length
      = (sampleCampus.tabla .evaluaciones).length + 1 := by
  refine ⟨Or.inl rfl, rfl, rfl, rfl⟩

/-- C18 (amended): a Create request whose body fails the presence check of
its resource (Place: nombre; Category: nombre; Building: nombre, lugar_id,
categoria_id; Block: nombre, edificios_id; WifiCredential: nombre, password;
Evaluation: nothing is checked) is answered 400 without any statement,
whatever the store. Otherwise the handler issues exactly one INSERT with the
body's fields, and over the model store it appends one row, whose id is the
next value of the table's sequence, and answers 201 with that row. -/
theorem post_outcome (t : Tabla) (body : JObj) (s : Campus) :
    (present (postRequired t) body = false →
      ∀ (σ : Type) (pool : Store σ) (x : σ),
        (postRecurso t pool body x).response.status = 400 ∧
        (postRecurso t pool body x).queries = [] ∧
        (postRecurso t pool body x).state = x) ∧
    (present (postRequired t) body = true →
      (postRecurso t campusQuery body s).queries
        = [{ text := .insertInto t (columnas t), values := postValues t body }] ∧
      (postRecurso t campusQuery body s).response
        = { status := 201, body := postBody t (postFila t body s).obj } ∧
      (postFila t body s).obj.get "id" = JVal.num (s.serial t) ∧
      (postRecurso t campusQuery body s).state.tabla t = s.tabla t ++ [postFila t body s] ∧
      (∀ u, u ≠ t → (postRecurso t campusQuery body s).state.tabla u = s.tabla u)) := by
  have hother : ∀ u, u ≠ t → ∀ rows : List Fila, Function.update s.tabla t rows u = s.tabla u :=
    fun u hu rows => Function.update_noteq hu rows s.tabla
  constructor
  · intro hp σ pool x
    cases t <;> simp [present, postRequired] at hp <;>
      first
      | (simp [postRecurso, postLugar, postCategoria, postEdificio, postBloque, postWifi,
          hp]; done)
      | (cases h1 : (body.get "nombre").truthy <;>
          cases h2 : (body.get "lugar_id").truthy <;>
          simp_all [postRecurso, postLugar, postCategoria, postEdificio, postBloque, postWifi])
  · intro hp
    cases t <;> simp [present, postRequired] at hp <;>
      refine ⟨?_, ?_, rfl, ?_, ?_⟩ <;>
      first
      | (simp [postRecurso, postLugar, postCategoria, postEdificio, postBloque, postEvaluacion,
          postWifi, hp, campusQuery, columnas, postValues, postBody, postFila]; done)
      | (simp [postRecurso, postLugar, postCategoria, postEdificio, postBloque, postEvaluacion,
          postWifi, hp, campusQuery, columnas, postValues, postBody, postFila]
         exact fun u hu => hother u hu _)

/-- Witness for C18: a Building without a category, and a complete Place. -/
theorem post_outcome_witness :
    ((postRecurso .edificios campusQuery
        [("nombre", JVal.str "Edificio B"), ("lugar_id", JVal.num 1)]
        sampleCampus).response.status = 400 ∧
     (postRecurso .edificios campusQuery
        [("nombre", JVal.str "Edificio B"), ("lugar_id", JVal.num 1)]
        sampleCampus).queries = [] ∧
     (postRecurso .edificios campusQuery
        [("nombre", JVal.str "Edificio B"), ("lugar_id", JVal.num 1)]
        sampleCampus).state = sampleCampus) ∧
    (postRecurso .lugar campusQuery sampleLugarBody sampleCampus).response
      = { status := 201, body := postBody .lugar (postFila .lugar sampleLugarBody sampleCampus).obj } ∧
    (postFila .lugar sampleLugarBody sampleCampus).obj.get "id" = JVal.num 3 :=
  ⟨(post_outcome .edificios [("nombre", JVal.str "Edificio B"), ("lugar_id", JVal.num 1)]
      sampleCampus).1 (by decide) Campus campusQuery sampleCampus,
   ((post_outcome .lugar sampleLugarBody sampleCampus).2 (by decide)).2.1,
   ((post_outcome .lugar sampleLugarBody sampleCampus).2 (by decide)).2.2.1⟩

/-! ### C19: list queries with optional filters -/

theorem conditionsOf_length (sup : List (String × JVal)) :
    (conditionsOf sup).length = sup.length := by
  simp [conditionsOf, List.enum]

theorem supplied_nil (filters : List (String × String)) (query : JObj)
    (h : ∀ f ∈ filters, (query.get f.2).truthy = false) : supplied filters query = [] := by
  unfold supplied
  rw [List.map_eq_nil_iff, List.filter_eq_nil_iff]
  intro f hf
  simp [h f hf]

/-- C19 as stated fails for `GET /api/edificios` of index.js: a supplied,
non-empty `id` filter adds no condition and no parameter. -/
theorem edificios_index_ignores_id_counterexample :
    (JObj.get [("id", JVal.str "5")] "id").truthy = true ∧
    edificiosListQueryIndex [("id", JVal.str "5")]
      = ("SELECT * FROM edificios WHERE 1=1", []) ∧
    edificiosListQuery [("id", JVal.str "5")]
      = ("SELECT * FROM edificios WHERE 1=1 AND id = $1", [JVal.str "5"]) := by
  refine ⟨by decide, by decide, by decide⟩

/-- C19 (amended): the edificios list query of primero.js (filters id,
categoria_id, lugar_id), that of index.js (filters categoria_id and lugar_id
only; an id parameter is not read) and the bloques list query (filters
edificio_id, lugar_id, categoria_id) each carry one equality condition per
supplied truthy filter and none for the others, in the order the filters are
tested; the k-th condition compares its column with placeholder number k and
its value is the k-th parameter, so there are as many placeholders as
parameters. The edificios conditions are each appended with AND to
`WHERE 1=1`; the bloques conditions are joined with AND after WHERE, and with
no filter supplied the bloques text has no WHERE clause. -/
theorem list_query_conditions (select : String) (query : JObj) :
    edificiosListQuery query =
      ("SELECT * FROM edificios WHERE 1=1" ++
          String.join ((conditionsOf (supplied edificiosFilters query)).map fun c =>
            " AND " ++ c),
        (supplied edificiosFilters query).map Prod.snd) ∧
    edificiosListQueryIndex query =
      ("SELECT * FROM edificios WHERE 1=1" ++
          String.join ((conditionsOf (supplied edificiosFiltersIndex query)).map fun c =>
            " AND " ++ c),
        (supplied edificiosFiltersIndex query).map Prod.snd) ∧
    bloquesListQuery select query =
      (if supplied bloquesFilters query = [] then select
        else select ++ " WHERE " ++
          " AND ".intercalate (conditionsOf (supplied bloquesFilters query)),
        (supplied bloquesFilters query).map Prod.snd) ∧
    (∀ filters : List (String × String),
      (conditionsOf (supplied filters query)).length
        = ((supplied filters query).map Prod.snd).length ∧
      (∀ k (h : k < (supplied filters query).length),
        (conditionsOf (supplied filters query))[k]?
          = some (((supplied filters query).get ⟨k, h⟩).1 ++ " = $" ++ toString (k + 1))) ∧
      ((∀ f ∈ filters, (query.get f.2).truthy = false) → supplied filters query = [])) := by
  refine ⟨?_, ?_, ?_, ?_⟩
  · cases h1 : (query.get "id").truthy <;> cases h2 : (query.get "categoria_id").truthy <;>
      cases h3 : (query.get "lugar_id").truthy <;>
      simp [edificiosListQuery, pushAnd, supplied, edificiosFilters, conditionsOf, h1, h2, h3,
        List.enum, List.enumFrom, String.join, String.append_assoc] <;> decide
  · cases h2 : (query.get "categoria_id").truthy <;>
      cases h3 : (query.get "lugar_id").truthy <;>
      simp [edificiosListQueryIndex, pushAnd, supplied, edificiosFiltersIndex, conditionsOf,
        h2, h3, List.enum, List.enumFrom, String.join, String.append_assoc] <;> decide
  · cases h1 : (query.get "edificio_id").truthy <;> cases h2 : (query.get "lugar_id").truthy <;>
      cases h3 : (query.get "categoria_id").truthy <;>
      simp [bloquesListQuery, pushCondition, supplied, bloquesFilters, conditionsOf, h1, h2, h3,
        List.enum, List.enumFrom, String.intercalate, String.intercalate.go,
        String.append_assoc] <;>
      exact congrArg (fun x => select ++ x) (by decide)
  · intro filters
    refine ⟨by simp [conditionsOf_length], ?_, supplied_nil filters query⟩
    intro k h
    simp [conditionsOf, List.enum, List.getElem?_map, List.getElem?_enumFrom, h]

/-- Witness for C19: a request that supplies `id` and `lugar_id`. -/
theorem list_query_conditions_witness :
    edificiosListQuery sampleFilters
      = ("SELECT * FROM edificios WHERE 1=1 AND id = $1 AND lugar_id = $2",
         [JVal.str "5", JVal.str "2"]) ∧
    bloquesListQuery "SELECT * FROM bloques" sampleFilters
      = ("SELECT * FROM bloques WHERE edificios.lugar_id = $1", [JVal.str "2"]) ∧
    bloquesListQuery "SELECT * FROM bloques" []
      = ("SELECT * FROM bloques", []) := by
  have h := list_query_conditions "SELECT * FROM bloques" sampleFilters
  have h0 := list_query_conditions "SELECT * FROM bloques" []
  refine ⟨?_, ?_, ?_⟩
  · rw [h.1]
    decide
  · rw [h.2.2.1]
    decide
  · rw [h0.2.2.1]
    decide

/-! ### C20: the evaluations list as an inner join -/

theorem refiere_same_id (ref : JVal) (a b : Fila) (ha : refiere ref a = true)
    (hb : refiere ref b = true) : a.id = b.id := by
  unfold refiere at ha hb
  cases hp : pgInt ref with
  | error e => simp [hp] at ha
  | ok key =>
    cases key with
    | none => simp [hp] at ha
    | some k =>
      simp only [hp, beq_iff_eq] at ha hb
      rw [ha, hb]

/-- In a table with distinct ids, the rows a reference matches are the first
such row, if any. -/
theorem filter_refiere_eq_find (ref : JVal) (rows : List Fila) (hnd : uniqueIds rows) :
    rows.filter (refiere ref) = (rows.find? (refiere ref)).toList := by
  induction rows with
  | nil => rfl
  | cons a rest ih =>
    have hnd2 : (a.id ∉ rest.map Fila.id) ∧ uniqueIds rest := by
      simpa [uniqueIds] using hnd
    by_cases ha : refiere ref a = true
    · have hrest : rest.filter (refiere ref) = [] := by
        rw [List.filter_eq_nil_iff]
        intro y hy hyr
        exact hnd2.1 (by
          rw [refiere_same_id ref a y ha hyr]
          exact List.mem_map_of_mem Fila.id hy)
      simp [List.filter_cons, List.find?_cons, ha, hrest]
    · have ha2 : refiere ref a = false := by simpa using ha
      simp [List.filter_cons, List.find?_cons, ha2, ih hnd2.2]

theorem find_refiere_of_mem (ref : JVal) (rows : List Fila) (x : Fila) (hnd : uniqueIds rows)
    (hx : x ∈ rows) (hr : refiere ref x = true) : rows.find? (refiere ref) = some x := by
  have hmem : x ∈ rows.filter (refiere ref) := List.mem_filter.mpr ⟨hx, hr⟩
  rw [filter_refiere_eq_find ref rows hnd] at hmem
  cases hf : rows.find? (refiere ref) with
  | none => simp [hf] at hmem
  | some y =>
    simp only [hf, Option.toList_some, List.mem_singleton] at hmem
    rw [hmem]

theorem find_refiere_none (ref : JVal) (rows : List Fila)
    (h : ∀ r ∈ rows, refiere ref r = false) : rows.find? (refiere ref) = none := by
  rw [List.find?_eq_none]
  intro r hr
  simp [h r hr]

theorem flatMap_toList_eq_filterMap {α β : Type} (f : α → Option β) (l : List α) :
    (l.flatMap fun a => (f a).toList) = l.filterMap f := by
  induction l with
  | nil => rfl
  | cons a rest ih =>
    cases hfa : f a <;> simp [List.flatMap_cons, List.filterMap_cons, hfa, ih]

/-- With distinct ids in the four referenced tables, the join produces for an
evaluation exactly its enriched view, if it has one. -/
theorem evaluacionRows_eq_enrich (s : Campus) (e : Fila)
    (hl : uniqueIds (s.tabla .lugar)) (hc : uniqueIds (s.tabla .categoria))
    (hed : uniqueIds (s.tabla .edificios)) (hb : uniqueIds (s.tabla .bloques)) :
    evaluacionRows s e = (enrich? s e).toList := by
  unfold evaluacionRows enrich?
  rw [filter_refiere_eq_find _ _ hl, filter_refiere_eq_find _ _ hc,
    filter_refiere_eq_find _ _ hed, filter_refiere_eq_find _ _ hb]
  cases (s.tabla .lugar).find? (refiere (e.col "lugar_id")) <;>
    cases (s.tabla .categoria).find? (refiere (e.col "categoria_id")) <;>
    cases (s.tabla .edificios).find? (refiere (e.col "edificio_id")) <;>
    cases (s.tabla .bloques).find? (refiere (e.col "bloque_id")) <;>
    simp

/-- An evaluation with a reference that matches no row yields no row of the
join, whatever the tables hold. -/
theorem evaluacionRows_dangling (s : Campus) (e : Fila)
    (h : (∀ r ∈ s.tabla .lugar, refiere (e.col "lugar_id") r = false) ∨
         (∀ r ∈ s.tabla .categoria, refiere (e.col "categoria_id") r = false) ∨
         (∀ r ∈ s.tabla .edificios, refiere (e.col "edificio_id") r = false) ∨
         (∀ r ∈ s.tabla .bloques, refiere (e.col "bloque_id") r = false)) :
    evaluacionRows s e = [] := by
  unfold evaluacionRows
  rcases h with h | h | h | h
  · rw [List.filter_eq_nil_iff.mpr (fun r hr => by simp [h r hr])]
    rfl
  · simp [List.filter_eq_nil_iff.mpr (fun r hr => by simp [h r hr] :
      ∀ r ∈ s.tabla .categoria, ¬ refiere (e.col "categoria_id") r = true)]
  · simp [List.filter_eq_nil_iff.mpr (fun r hr => by simp [h r hr] :
      ∀ r ∈ s.tabla .edificios, ¬ refiere (e.col "edificio_id") r = true)]
  · simp [List.filter_eq_nil_iff.mpr (fun r hr => by simp [h r hr] :
      ∀ r ∈ s.tabla .bloques, ¬ refiere (e.col "bloque_id") r = true)]

/-- C20: over the model store, with JOIN read as inner join and distinct ids
in lugar, categoria, edificios and bloques, `GET /api/evaluaciones` answers
200 with exactly one row per evaluation whose four references each match an
existing row, in table order, each carrying the evaluation's columns and the
four referenced names. An evaluation with any one reference that matches no
row contributes nothing to the result, although its row is in the table. -/
theorem evaluaciones_inner_join (s : Campus)
    (hl : uniqueIds (s.tabla .lugar)) (hc : uniqueIds (s.tabla .categoria))
    (hed : uniqueIds (s.tabla .edificios)) (hb : uniqueIds (s.tabla .bloques)) :
    (getEvaluaciones campusQuery s).response
      = { status := 200,
          body := Json.list (((s.tabla .evaluaciones).filterMap (enrich? s)).map jsonObj) } ∧
    (getEvaluaciones campusQuery s).state = s ∧
    (∀ e l c ed b, l ∈ s.tabla .lugar → c ∈ s.tabla .categoria → ed ∈ s.tabla .edificios →
      b ∈ s.tabla .bloques → refiere (e.col "lugar_id") l = true →
      refiere (e.col "categoria_id") c = true → refiere (e.col "edificio_id") ed = true →
      refiere (e.col "bloque_id") b = true →
      enrich? s e = some (enriched e l c ed b)) ∧
    (∀ e,
      ((∀ r ∈ s.tabla .lugar, refiere (e.col "lugar_id") r = false) ∨
       (∀ r ∈ s.tabla .categoria, refiere (e.col "categoria_id") r = false) ∨
       (∀ r ∈ s.tabla .edificios, refiere (e.col "edificio_id") r = false) ∨
       (∀ r ∈ s.tabla .bloques, refiere (e.col "bloque_id") r = false)) →
      enrich? s e = none ∧ evaluacionRows s e = []) := by
  have hjoin : evaluacionesJoinRows s = (s.tabla .evaluaciones).filterMap (enrich? s) := by
    unfold evaluacionesJoinRows
    rw [← flatMap_toList_eq_filterMap]
    congr 1
    funext e
    exact evaluacionRows_eq_enrich s e hl hc hed hb
  refine ⟨?_, ?_, ?_, ?_⟩
  · simp [getEvaluaciones, campusQuery, hjoin]
  · simp [getEvaluaciones, campusQuery]
  · intro e l c ed b ml mc med mb rl rc red rb
    unfold enrich?
    rw [find_refiere_of_mem _ _ l hl ml rl, find_refiere_of_mem _ _ c hc mc rc,
      find_refiere_of_mem _ _ ed hed med red, find_refiere_of_mem _ _ b hb mb rb]
  · intro e h
    have hrows := evaluacionRows_dangling s e h
    refine ⟨?_, hrows⟩
    have := evaluacionRows_eq_enrich s e hl hc hed hb
    rw [hrows] at this
    cases he : enrich? s e with
    | none => rfl
    | some x => simp [he] at this

/-- Witness for C20: in the sample store evaluation 1 is listed with its four
names and evaluation 2, whose block 77 does not exist, is not. -/
theorem evaluaciones_inner_join_witness :
    (getEvaluaciones campusQuery sampleCampus).response
      = { status := 200,
          body := Json.list
            (((sampleCampus.tabla .evaluaciones).filterMap (enrich? sampleCampus)).map
              jsonObj) } ∧
    (sampleCampus.tabla .evaluaciones).filterMap (enrich? sampleCampus)
      = [[("id", JVal.num 1), ("nombre", JVal.str "Parcial"),
          ("lugar_id", JVal.num 1), ("lugar_nombre", JVal.str "Campus Sur"),
          ("categoria_id", JVal.num 1), ("categoria_nombre", JVal.str "Aulas"),
          ("edificio_id", JVal.num 1), ("edificio_nombre", JVal.str "Edificio A"),
          ("bloque_id", JVal.num 1), ("bloque_nombre", JVal.str "Bloque 1"),
          ("laboratorios", JVal.arr ["L1"]), ("fecha_inicio", JVal.str "2024-01-10"),
          ("fecha_fin", JVal.str "2024-01-11"), ("horarios", JVal.str "08:00")]] :=
  ⟨(evaluaciones_inner_join sampleCampus (by unfold uniqueIds; decide)
      (by unfold uniqueIds; decide) (by unfold uniqueIds; decide)
      (by unfold uniqueIds; decide)).1,
   by decide⟩

/-! ### C28: `next()` inside the `try` of `authRequired` -/

/-- C28: with a token that verifies, `authRequired` sets `req.user` and runs
`next` on it; if `next` throws synchronously the catch answers 401
`Token inválido o expirado` on top of whatever `next` left. When `next`
returns normally `authRequired` adds nothing of its own, so only then does a
401 of `authRequired` mean that verification failed. -/
theorem authRequired_next_throws (env : Env) (h tok : String) (decoded : JObj) (next : Next)
    (c c1 : Ctx) (e : JsError)
    (hseg : bearerSegment h = some tok) (htok : tok ≠ "")
    (hver : jwtVerify env tok = .ok decoded)
    (hthrow : next { c with user := some decoded } = (c1, some e)) :
    authRequired env (some h) next c
      = c1.respond 401 (errorBody "Token inválido o expirado") ∧
    (c1.user = some decoded →
      (authRequired env (some h) next c).user = some decoded) ∧
    (∀ (next2 : Next) (c2 : Ctx), next2 { c with user := some decoded } = (c2, none) →
      authRequired env (some h) next2 c = c2) := by
  refine ⟨?_, ?_, ?_⟩
  · rw [authRequired_verified env h tok decoded next c hseg htok hver, hthrow]
  · intro hu
    rw [authRequired_verified env h tok decoded next c hseg htok hver, hthrow]
    exact hu
  · intro next2 c2 h2
    rw [authRequired_verified env h tok decoded next2 c hseg htok hver, h2]

/-- Witness for C28: the token `good` with a handler that throws. -/
theorem authRequired_next_throws_witness :
    authRequired sampleEnv (some "Bearer good") throwingNext sampleCtx
      = ({ sampleCtx with user := some sampleJwt.claims } : Ctx).respond 401
          (errorBody "Token inválido o expirado") :=
  (authRequired_next_throws sampleEnv "Bearer good" "good" sampleJwt.claims throwingNext
    sampleCtx { sampleCtx with user := some sampleJwt.claims }
    { code := none, message := "boom" } (by decide) (by decide) rfl rfl).1

/-! ### C22: logout -/

/-- C22: `POST /api/logout` answers 200 `Sesión cerrada correctamente` for
every request, with or without an Authorization header, makes no call and
leaves the store as it was; hence `authRequired`, `/api/verify-token` and
`/api/profile` treat every header after the logout exactly as before it. -/
theorem logout_changes_nothing (authorization : Option String) (db : Db) :
    (logout authorization db).response
      = { status := 200, body := messageBody "Sesión cerrada correctamente" } ∧
    (logout authorization db).effects = [] ∧
    (logout authorization db).db = db ∧
    (∀ (env : Env) (pool : Pool) (header : Option String),
      verifyToken env pool header (logout authorization db).db
        = verifyToken env pool header db ∧
      profile env pool header (logout authorization db).db = profile env pool header db) ∧
    (∀ (env : Env) (header : Option String) (next : Next) (c : Ctx),
      authRequired env header next { c with db := (logout authorization c.db).db }
        = authRequired env header next c) := by
  refine ⟨rfl, rfl, rfl, fun _ _ _ => ⟨rfl, rfl⟩, fun _ _ _ _ => rfl⟩

/-! ### C26: the two entry points -/

/-- C26: for every environment, store, store state and request body, the
`POST /register` handler of index.js and that of primero.js make the same
run: the same response (status and body), the same calls with the same
parameters, the same final store; likewise the two `POST /api/login`
handlers. -/
theorem entry_points_agree (env : Env) (pool : Pool) (body : JObj) (db : Db) :
    registerIndex env pool body db = register env pool body db ∧
    loginIndex env pool body db = login env pool body db := by
  constructor
  · unfold registerIndex register
    simp only
    split
    · rfl
    · split
      · rfl
      · split
        · rfl
        · rcases pool _ db with ⟨res, db1⟩
          cases res with
          | error e => rfl
          | ok result =>
            obtain ⟨rows⟩ := result
            cases rows <;> rfl
  · unfold loginIndex login
    simp only
    split
    · rfl
    · rcases pool _ db with ⟨res, db1⟩
      cases res with
      | error e => rfl
      | ok result =>
        obtain ⟨rows⟩ := result
        cases rows with
        | nil => rfl
        | cons user rest =>
          simp only [List.length_cons, Nat.add_one_ne_zero, ↓reduceIte, List.head?_cons]
          cases bcryptCompare env (body.get "password") (user.get "password") with
          | error e => rfl
          | ok b =>
            cases b with
            | false => rfl
            | true =>
              simp only [Bool.not_true, Bool.false_eq_true, ↓reduceIte]
              cases jwtSign env [("id", user.get "id"), ("email", user.get "email")] "1h" <;>
                rfl

/-! ### C27: the role of a new user -/

theorem colVal_ne_undefined (o : Option String) : colVal o ≠ JVal.undefined := by
  cases o <;> simp [colVal]

/-- C27: over the model store, every registration answered 201 appends one
row whose role is the request's `rol` when that is truthy and `estudiante`
otherwise, and echoes the same role; a non-empty string is stored as it is,
`admin` included, without any check against the set of roles. -/
theorem register_role (env : Env) (body : JObj) (db : Db)
    (hok : (register env pgQuery body db).response.status = 201) :
    ∃ u : Usuario,
      (register env pgQuery body db).db.usuarios = db.usuarios ++ [u] ∧
      u.rol = pgText (registerRole body) ∧
      echoedRol (register env pgQuery body db) = some (Json.val (colVal u.rol)) ∧
      (∀ r : String, body.get "rol" = JVal.str r → r ≠ "" → u.rol = some r) ∧
      ((body.get "rol").absentOrEmpty → u.rol = some "estudiante") := by
  obtain ⟨q, user, rest, db1, hq, hins⟩ := register_status_created env pgQuery body db hok
  obtain ⟨pw, _, hqe, hrun⟩ := register_created env pgQuery body db db1 q user rest hq hins
  subst hqe
  obtain ⟨huser, _, hdb1, _⟩ := pgQuery_register_ok env body pw db db1 user rest hins
  refine ⟨registerRow env body pw db.nextId, ?_, rfl, ?_, ?_, ?_⟩
  · rw [hrun, hdb1]
  · rw [hrun, huser]
    simp [echoedRol, Json.field, registerBody, List.lookup, jsonObj, definedFields, Usuario.row,
      JObj.get, colVal_ne_undefined, registerRow]
  · intro r hr hne
    simp [registerRow, registerRole, hr, JVal.truthy, hne, pgText]
  · intro habs
    rcases habs with h | h | h <;> simp [registerRow, registerRole, h, JVal.truthy, pgText]

/-- Witness for C27: a registration that asks for `admin` gets it. -/
theorem register_role_witness :
    ∃ u : Usuario,
      (register sampleEnv pgQuery sampleAdminBody sampleDb).db.usuarios
        = sampleDb.usuarios ++ [u] ∧
      u.rol = pgText (registerRole sampleAdminBody) ∧
      echoedRol (register sampleEnv pgQuery sampleAdminBody sampleDb)
        = some (Json.val (colVal u.rol)) ∧
      (∀ r : String, sampleAdminBody.get "rol" = JVal.str r → r ≠ "" → u.rol = some r) ∧
      ((sampleAdminBody.get "rol").absentOrEmpty → u.rol = some "estudiante") :=
  register_role sampleEnv sampleAdminBody sampleDb (by decide)

/-! ### C30: the registration token at the identity endpoints -/

/-- What `jwt.verify` returns is the claims of the decoded token. -/
theorem jwtVerify_ok_claims (env : Env) (tok : String) (decoded : JObj)
    (h : jwtVerify env tok = .ok decoded) :
    ∃ t, env.decode tok = some t ∧ decoded = t.claims := by
  unfold jwtVerify at h
  cases hd : env.decode tok with
  | none => simp [hd] at h
  | some t =>
    refine ⟨t, rfl, ?_⟩
    simp only [hd] at h
    split at h
    · simp at h
    · split at h
      · simp at h
      · split at h
        · split at h
          · simp at h
          · simpa using h.symm
        · simpa using h.symm

/-- The claims of a token signed over `{ email }` have no `id`. -/
theorem registration_claims_no_id (env : Env) (v : JVal) (span : Nat) :
    (signedContent env [("email", v)] span).claims.get "id" = JVal.undefined := by
  by_cases hv : v = JVal.undefined <;>
    simp [signedContent, Jwt.claims, definedFields, JObj.get, List.lookup, hv]

/-- A content that is signed with the process secret and has not expired
verifies. -/
theorem jwtVerify_ok (env : Env) (tok : String) (t : Jwt) (x : Nat)
    (hd : env.decode tok = some t) (hsec : env.secret ≠ "") (hkey : t.key = env.secret)
    (hx : t.exp = some x) (hlt : env.now < x) :
    jwtVerify env tok = .ok t.claims := by
  unfold jwtVerify
  simp [hd, hsec, hkey, hx, Nat.not_le.mpr hlt]

/-- A 200 of an identity endpoint over the model store means the presented
token verified and its claimed id is the id of a stored row. -/
theorem identity_ok_has_id (env : Env) (header : Option String) (db : Db)
    (h : (verifyToken env pgQuery header db).response.status = 200 ∨
         (profile env pgQuery header db).response.status = 200) :
    ∃ tok decoded u, optionalBearer header = some tok ∧ jwtVerify env tok = .ok decoded ∧
      u ∈ db.usuarios ∧ pgInt (decoded.get "id") = .ok (some u.id) := by
  cases hb : optionalBearer header with
  | none =>
    exfalso
    rcases h with h | h
    · simp [verifyToken, hb] at h
    · simp [profile, hb] at h
  | some tok =>
    by_cases htok : tok = ""
    · exfalso
      rcases h with h | h
      · simp [verifyToken, hb, htok] at h
      · simp [profile, hb, htok] at h
    · cases hv : jwtVerify env tok with
      | error e =>
        exfalso
        rcases h with h | h
        · simp [verifyToken, hb, htok, hv] at h
        · simp [profile, hb, htok, hv] at h
      | ok decoded =>
        cases hk : pgInt (decoded.get "id") with
        | error e =>
          exfalso
          rcases h with h | h
          · simp [verifyToken, hb, htok, hv, pgQuery, hk] at h
          · simp [profile, hb, htok, hv, pgQuery, hk] at h
        | ok key =>
          cases hf : (db.usuarios.filter fun r => some r.id == key) with
          | nil =>
            exfalso
            rcases h with h | h
            · simp [verifyToken, hb, htok, hv, pgQuery, hk, hf] at h
            · simp [profile, hb, htok, hv, pgQuery, hk, hf] at h
          | cons u rest =>
            have hu : u ∈ db.usuarios.filter fun r => some r.id == key := by
              rw [hf]
              exact List.mem_cons_self _ _
            rw [List.mem_filter] at hu
            refine ⟨tok, decoded, u, rfl, hv, hu.1, ?_⟩
            have := hu.2
            simp only [beq_iff_eq] at this
            rw [this, hk]

/-- C30: the token `POST /register` mints for a body never yields 200 at
`GET /api/verify-token` or `GET /api/profile`, on whatever store answers a
lookup by an absent id with no row (the model store does so in every state);
when it is still unexpired under the same secret the answers over the model
store are 401 `Usuario no encontrado` and 404 `Usuario no encontrado.`; and a
200 of either endpoint means the token claims the id of a stored row, which
is what the token of `POST /api/login` carries. -/
theorem registration_token_rejected (envR envV : Env) (pool : Pool) (body : JObj)
    (h : String) (db : Db)
    (hseg : bearerSegment h = some (registerToken envR body))
    (hdec : envV.decode (registerToken envR body)
      = some (signedContent envR [("email", body.get "email")] 3600))
    (hnone : ∀ sql ∈ identityLookups, ∀ res db1,
      pool { text := sql, values := [JVal.undefined] } db = (.ok res, db1) → res.rows = []) :
    (verifyToken envV pool (some h) db).response.status ≠ 200 ∧
    (profile envV pool (some h) db).response.status ≠ 200 ∧
    (∀ db2, ∀ sql ∈ identityLookups, ∀ res db1,
      pgQuery { text := sql, values := [JVal.undefined] } db2 = (.ok res, db1) →
        res.rows = []) ∧
    (registerToken envR body ≠ "" → envR.secret ≠ "" → envV.secret = envR.secret →
      envV.now < envR.now + 3600 →
      (verifyToken envV pgQuery (some h) db).response
        = { status := 401, body := errorBody "Usuario no encontrado" } ∧
      (profile envV pgQuery (some h) db).response
        = { status := 404, body := messageBody "Usuario no encontrado." }) ∧
    (∀ (header : Option String) (db2 : Db),
      (verifyToken envV pgQuery header db2).response.status = 200 ∨
        (profile envV pgQuery header db2).response.status = 200 →
      ∃ tok decoded u, optionalBearer header = some tok ∧ jwtVerify envV tok = .ok decoded ∧
        u ∈ db2.usuarios ∧ pgInt (decoded.get "id") = .ok (some u.id)) := by
  have hid := registration_claims_no_id envR (body.get "email") 3600
  refine ⟨?_, ?_, ?_, ?_, fun header db2 h2 => identity_ok_has_id envV header db2 h2⟩
  · by_cases htok : registerToken envR body = ""
    · simp [verifyToken, optionalBearer, hseg, htok]
    · cases hv : jwtVerify envV (registerToken envR body) with
      | error e => simp [verifyToken, optionalBearer, hseg, htok, hv]
      | ok decoded =>
        obtain ⟨t, ht, hdc⟩ := jwtVerify_ok_claims envV _ decoded hv
        rw [hdec] at ht
        cases ht
        rw [(identity_verified envV pool h _ decoded db hseg htok hv).1, hdc, hid]
        rcases hp : pool { text := Sql.selectVerifyById, values := [JVal.undefined] } db
          with ⟨res, db1⟩
        cases res with
        | error e => simp
        | ok result =>
          have := hnone Sql.selectVerifyById (by simp [identityLookups]) result db1 hp
          simp [this]
  · by_cases htok : registerToken envR body = ""
    · simp [profile, optionalBearer, hseg, htok]
    · cases hv : jwtVerify envV (registerToken envR body) with
      | error e => simp [profile, optionalBearer, hseg, htok, hv]
      | ok decoded =>
        obtain ⟨t, ht, hdc⟩ := jwtVerify_ok_claims envV _ decoded hv
        rw [hdec] at ht
        cases ht
        rw [(identity_verified envV pool h _ decoded db hseg htok hv).2, hdc, hid]
        rcases hp : pool { text := Sql.selectProfileById, values := [JVal.undefined] } db
          with ⟨res, db1⟩
        cases res with
        | error e => simp
        | ok result =>
          have := hnone Sql.selectProfileById (by simp [identityLookups]) result db1 hp
          simp [this]
  · intro db2 sql hsql res db1 hq
    simp only [identityLookups, List.mem_cons, List.mem_singleton, List.not_mem_nil,
      or_false] at hsql
    rcases hsql with rfl | rfl <;>
    · simp only [pgQuery, pgInt, Prod.mk.injEq, Except.ok.injEq] at hq
      rw [← hq.1]
      simp
  · intro htok hsec hsame hlt
    have hv : jwtVerify envV (registerToken envR body)
        = .ok (signedContent envR [("email", body.get "email")] 3600).claims :=
      jwtVerify_ok envV _ _ (envR.now + 3600) hdec (by rw [hsame]; exact hsec)
        (by rw [hsame]; rfl) rfl hlt
    obtain ⟨h1, h2⟩ := identity_verified envV pgQuery h _ _ db hseg htok hv
    obtain ⟨hq1, hq2⟩ := pgQuery_select_missing db JVal.undefined none rfl (by simp)
    rw [h1, h2, hid, hq1, hq2]
    exact ⟨rfl, rfl⟩

/-- Witness for C30: the token `reg` of the sample registration, presented
once the registered user is in the store. -/
theorem registration_token_rejected_witness :
    (∃ u ∈ sampleDbAfter.usuarios, u.email = some "eva@x.com" ∧ u.token = some "reg") ∧
    (verifyToken regEnv pgQuery (some "Bearer reg") sampleDbAfter).response
      = { status := 401, body := errorBody "Usuario no encontrado" } ∧
    (profile regEnv pgQuery (some "Bearer reg") sampleDbAfter).response
      = { status := 404, body := messageBody "Usuario no encontrado." } :=
  ⟨⟨sampleInserted, by decide, rfl, rfl⟩,
   (registration_token_rejected sampleEnv regEnv pgQuery sampleBody "Bearer reg" sampleDbAfter
      (by decide) rfl
      (fun sql hsql res db1 hq => by
        simp only [identityLookups, List.mem_cons, List.mem_singleton, List.not_mem_nil,
          or_false] at hsql
        rcases hsql with rfl | rfl <;>
        · simp only [pgQuery, pgInt, Prod.mk.injEq, Except.ok.injEq] at hq
          rw [← hq.1]
          simp)).2.2.2.1
     (by decide) (by decide) rfl (by decide)⟩

/-! ### C23: the profile projection -/

theorem splitSpace_no_space (cs : List Char) (h : ' ' ∉ cs) : splitSpace cs = [cs] := by
  induction cs with
  | nil => rfl
  | cons c rest ih =>
    have hc : c ≠ ' ' := fun h0 => h (by simp [h0])
    have hr : ' ' ∉ rest := fun h0 => h (List.mem_cons_of_mem _ h0)
    simp [splitSpace, hc, ih hr]

/-- A header made of `Bearer`, one space and a token without spaces carries
that token as its second segment. -/
theorem bearerSegment_bearer (tok : String) (h : ' ' ∉ tok.data) :
    bearerSegment ("Bearer " ++ tok) = some tok := by
  have hd : ("Bearer " ++ tok).data = 'B' :: 'e' :: 'a' :: 'r' :: 'e' :: 'r' :: ' ' :: tok.data :=
    by rw [String.data_append]; rfl
  unfold bearerSegment
  rw [hd]
  simp [splitSpace, splitSpace_no_space tok.data h]

/-- Over the model store, a verifying token whose claimed id is that of a row
gets that row's four public columns from `GET /api/profile`. -/
theorem profile_row (env : Env) (h tok : String) (decoded : JObj) (db : Db) (u : Usuario)
    (hseg : bearerSegment h = some tok) (htok : tok ≠ "")
    (hver : jwtVerify env tok = .ok decoded)
    (hkey : pgInt (decoded.get "id") = .ok (some u.id)) (hmem : u ∈ db.usuarios)
    (huniq : ∀ v ∈ db.usuarios, v.id = u.id → v = u) :
    profile env pgQuery (some h) db =
      { response := { status := 200, body := profileBody u }, db := db,
        effects := [.query { text := Sql.selectProfileById, values := [decoded.get "id"] }] } := by
  have hhead : ((db.usuarios.filter fun r => some r.id == some u.id).map
      fun r => [("nombre", colVal r.nombre), ("apellido", colVal r.apellido),
                ("email", colVal r.email), ("rol", colVal r.rol)]).head?
      = some [("nombre", colVal u.nombre), ("apellido", colVal u.apellido),
              ("email", colVal u.email), ("rol", colVal u.rol)] := by
    rw [List.head?_map,
      filter_head_unique (fun r => some r.id == some u.id) db.usuarios u hmem (by simp)
        (fun v hv hpv => huniq v hv (by simpa using hpv))]
    rfl
  rw [(identity_verified env pgQuery h tok decoded db hseg htok hver).2]
  simp only [pgQuery, hkey, hhead]
  simp [profileBody, jsonObj, definedFields, colVal_ne_undefined]

/-- A login with the right password of the one row holding the email. -/
theorem login_ok_run (env : Env) (db : Db) (body : JObj) (u : Usuario)
    (email password hash : String)
    (hsec : env.secret ≠ "") (hemail : email ≠ "") (hpassword : password ≠ "")
    (hbe : body.get "email" = JVal.str email) (hbp : body.get "password" = JVal.str password)
    (hmem : u ∈ db.usuarios) (hu : u.email = some email)
    (huniq : ∀ v ∈ db.usuarios, v.email = some email → v = u)
    (hhash : u.password = some hash) (hcmp : env.compare password hash = true) :
    login env pgQuery body db =
      { response := { status := 200, body := loginBody (loginToken env u.id email) u.row },
        db := db,
        effects :=
          [Effect.query { text := Sql.selectUsuarioByEmail, values := [JVal.str email] },
           Effect.compare (JVal.str password) (JVal.str hash),
           Effect.sign [("id", JVal.num u.id), ("email", JVal.str email)] "1h"] } := by
  have hhead : ((db.usuarios.filter fun r => sqlTextEq r.email (pgText (JVal.str email))).map
      Usuario.row).head? = some u.row := by
    rw [List.head?_map,
      filter_head_unique (fun r => sqlTextEq r.email (pgText (JVal.str email))) db.usuarios u
        hmem (by simp [pgText, sqlTextEq, hu])
        (fun v hv hpv => huniq v hv (by
          simp only [pgText, sqlTextEq_some, beq_iff_eq] at hpv
          exact hpv))]
    rfl
  have hpwcol : u.row.get "password" = JVal.str hash := by
    simp [Usuario.row, JObj.get, List.lookup, hhash, colVal]
  have hidcol : u.row.get "id" = JVal.num u.id := by
    simp [Usuario.row, JObj.get, List.lookup]
  have hmailcol : u.row.get "email" = JVal.str email := by
    simp [Usuario.row, JObj.get, List.lookup, hu, colVal]
  have hte : (JVal.str email).truthy = true := by simp [JVal.truthy, hemail]
  have htp : (JVal.str password).truthy = true := by simp [JVal.truthy, hpassword]
  unfold login
  simp only [hbe, hbp, hte, htp, Bool.not_true, Bool.or_self, Bool.false_eq_true, ↓reduceIte,
    pgQuery, hhead, hpwcol, hidcol, hmailcol, bcryptCompare, hcmp,
    jwtSign_one_hour env _ hsec, loginToken]

/-- C23: over the model store, for every token that verifies and whose
claimed id is the id of a row, `GET /api/profile` answers 200 with that row's
nombre, apellido, email and rol and no other key; and after registering Ana
Ruiz (`ana@x.com`, cedula 123, password `secret1`, no role) in a store that
has neither that email nor that cedula and logging in with that password, the
profile read with the login token is Ana, Ruiz, `ana@x.com`, `estudiante`. -/
theorem profile_projection :
    (∀ (env : Env) (h tok : String) (decoded : JObj) (db : Db) (u : Usuario),
      bearerSegment h = some tok → tok ≠ "" → jwtVerify env tok = .ok decoded →
      pgInt (decoded.get "id") = .ok (some u.id) → u ∈ db.usuarios →
      (∀ v ∈ db.usuarios, v.id = u.id → v = u) →
      (profile env pgQuery (some h) db).response.status = 200 ∧
      (profile env pgQuery (some h) db).response.body = profileBody u ∧
      (profile env pgQuery (some h) db).response.body.keys
        = ["nombre", "apellido", "email", "rol"]) ∧
    (∀ (env : Env) (db : Db),
      env.secret ≠ "" → env.compare "secret1" (env.hash "secret1") = true →
      env.decode (loginToken env db.nextId "ana@x.com")
        = some (signedContent env
            [("id", JVal.num db.nextId), ("email", JVal.str "ana@x.com")] 3600) →
      loginToken env db.nextId "ana@x.com" ≠ "" →
      ' ' ∉ (loginToken env db.nextId "ana@x.com").data →
      (∀ r ∈ db.usuarios,
        r.email ≠ some "ana@x.com" ∧ r.cedula ≠ some "123" ∧ r.id ≠ db.nextId) →
      (register env pgQuery anaBody db).response.status = 201 ∧
      (login env pgQuery sampleLogin (register env pgQuery anaBody db).db).response.status
        = 200 ∧
      (login env pgQuery sampleLogin (register env pgQuery anaBody db).db).response.body.field
          "token" = some (Json.val (JVal.str (loginToken env db.nextId "ana@x.com"))) ∧
      (profile env pgQuery (some ("Bearer " ++ loginToken env db.nextId "ana@x.com"))
          (login env pgQuery sampleLogin (register env pgQuery anaBody db).db).db).response
        = { status := 200,
            body := Json.obj
              [("nombre", Json.val (JVal.str "Ana")), ("apellido", Json.val (JVal.str "Ruiz")),
               ("email", Json.val (JVal.str "ana@x.com")),
               ("rol", Json.val (JVal.str "estudiante"))] }) := by
  constructor
  · intro env h tok decoded db u hseg htok hver hkey hmem huniq
    rw [profile_row env h tok decoded db u hseg htok hver hkey hmem huniq]
    exact ⟨rfl, rfl, rfl⟩
  · intro env db hsec hcmp hdec htok hsp hfresh
    have hv : ∀ k ∈ requiredFields, (anaBody.get k).truthy = true := by decide
    have hins : insertUsuarioRow db (registerRow env anaBody "secret1" db.nextId)
        = (.ok (registerRow env anaBody "secret1" db.nextId),
           { usuarios := db.usuarios ++ [registerRow env anaBody "secret1" db.nextId],
             nextId := db.nextId + 1 }) := by
      unfold insertUsuarioRow
      have hany : db.usuarios.any (fun r =>
          sqlTextEq r.email (registerRow env anaBody "secret1" db.nextId).email ||
          sqlTextEq r.cedula (registerRow env anaBody "secret1" db.nextId).cedula) = false := by
        rw [List.any_eq_false]
        intro r hr
        obtain ⟨h1, h2, _⟩ := hfresh r hr
        have e1 : (registerRow env anaBody "secret1" db.nextId).email = some "ana@x.com" := rfl
        have e2 : (registerRow env anaBody "secret1" db.nextId).cedula = some "123" := rfl
        rw [e1, e2, sqlTextEq_some, sqlTextEq_some]
        simp [h1, h2]
      simp [hany]
    have hreg : register env pgQuery anaBody db =
        { response :=
            { status := 201,
              body := registerBody (registerToken env anaBody)
                (registerRow env anaBody "secret1" db.nextId).row },
          db := { usuarios := db.usuarios ++ [registerRow env anaBody "secret1" db.nextId],
                  nextId := db.nextId + 1 },
          effects := registerEffects env anaBody "secret1" } := by
      rw [register_reached env pgQuery anaBody db "secret1" hv rfl hsec, pgQuery_registerQuery,
        hins]
      rfl
    have hmem : registerRow env anaBody "secret1" db.nextId
        ∈ db.usuarios ++ [registerRow env anaBody "secret1" db.nextId] := by simp
    have hlogin := login_ok_run env
      { usuarios := db.usuarios ++ [registerRow env anaBody "secret1" db.nextId],
        nextId := db.nextId + 1 }
      sampleLogin (registerRow env anaBody "secret1" db.nextId) "ana@x.com" "secret1"
      (env.hash "secret1") hsec (by decide) (by decide) rfl rfl hmem rfl
      (by
        intro v hv2 he
        rcases List.mem_append.mp hv2 with h0 | h0
        · exact absurd he (hfresh v h0).1
        · simpa using h0)
      rfl hcmp
    have hver : jwtVerify env (loginToken env db.nextId "ana@x.com")
        = .ok (signedContent env
            [("id", JVal.num db.nextId), ("email", JVal.str "ana@x.com")] 3600).claims :=
      jwtVerify_ok env _ _ (env.now + 3600) hdec hsec rfl rfl (by omega)
    have hprof := profile_row env ("Bearer " ++ loginToken env db.nextId "ana@x.com")
      (loginToken env db.nextId "ana@x.com") _
      { usuarios := db.usuarios ++ [registerRow env anaBody "secret1" db.nextId],
        nextId := db.nextId + 1 }
      (registerRow env anaBody "secret1" db.nextId)
      (bearerSegment_bearer _ hsp) htok hver
      (by simp [signedContent, Jwt.claims, definedFields, JObj.get, List.lookup, pgInt,
            registerRow])
      hmem
      (by
        intro v hv2 hid
        rcases List.mem_append.mp hv2 with h0 | h0
        · exact absurd hid (hfresh v h0).2.2
        · simpa using h0)
    rw [hreg]
    refine ⟨rfl, ?_, ?_, ?_⟩
    · rw [hlogin]
    · rw [hlogin]
      rfl
    · rw [hlogin, hprof]
      rfl

/-- Witness for C23: the sample token of user 7, and the worked example run
from an empty store. -/
theorem profile_projection_witness :
    (profile sampleEnv pgQuery (some "Bearer good") sampleDb).response.body
      = profileBody sampleAna ∧
    (profile anaEnv pgQuery (some ("Bearer " ++ loginToken anaEnv emptyDb.nextId "ana@x.com"))
        (login anaEnv pgQuery sampleLogin (register anaEnv pgQuery anaBody emptyDb).db).db).response
      = { status := 200,
          body := Json.obj
            [("nombre", Json.val (JVal.str "Ana")), ("apellido", Json.val (JVal.str "Ruiz")),
             ("email", Json.val (JVal.str "ana@x.com")),
             ("rol", Json.val (JVal.str "estudiante"))] } :=
  ⟨(profile_projection.1 sampleEnv "Bearer good" "good" sampleJwt.claims sampleDb sampleAna
      (by decide) (by decide) rfl rfl (by decide) (by decide)).2.1,
   (profile_projection.2 anaEnv emptyDb (by decide) (by decide) rfl (by decide) (by decide)
      (by decide)).2.2.2⟩

/-! ### C29: the password of `PUT /api/usuarios/:id` -/

theorem givenPassword_some (body : JObj) (pw : String) (h : givenPassword body = some pw) :
    body.get "password" = JVal.str pw ∧ jsTrim pw ≠ "" ∧ (body.get "password").truthy = true := by
  unfold givenPassword at h
  split at h
  · rename_i p hp
    split at h
    · rename_i hne
      simp only [Option.some.injEq] at h
      subst h
      refine ⟨hp, hne, ?_⟩
      rw [hp]
      simp only [JVal.truthy, bne_iff_ne, ne_eq]
      intro h0
      subst h0
      exact hne rfl
    · simp at h
  · simp at h

/-- With a password that is a string not empty after trimming the handler
hashes it and issues the seven-parameter UPDATE. -/
theorem putUsuario_given (env : Env) (pool : Pool) (id : String) (body : JObj) (db : Db)
    (pw : String) (h : givenPassword body = some pw) :
    putUsuario env pool id body db =
      putUsuarioRun pool [.hash (JVal.str pw)]
        { text := Sql.updateUsuarioPassword,
          values := putUsuarioValues id body [JVal.str (env.hash pw)] } db := by
  obtain ⟨hp, hne, ht⟩ := givenPassword_some body pw h
  rw [hp] at ht
  unfold putUsuario
  simp only [hp, ht, ↓reduceIte, hne, ne_eq, not_false_eq_true, bcryptHash, putUsuarioValues,
    List.cons_append, List.nil_append]

/-- Without such a password the handler either throws on `trim` before any
call (a truthy value that is not a string) or issues the six-parameter
UPDATE. -/
theorem putUsuario_not_given (env : Env) (pool : Pool) (id : String) (body : JObj) (db : Db)
    (h : givenPassword body = none) :
    (putUsuario env pool id body db =
        { response := putUsuarioFailed, db := db, effects := [] } ∧
      (body.get "password").truthy = true ∧ ∀ pw, body.get "password" ≠ JVal.str pw) ∨
    putUsuario env pool id body db =
      putUsuarioRun pool []
        { text := Sql.updateUsuario, values := putUsuarioValues id body [] } db := by
  unfold givenPassword at h
  unfold putUsuario
  cases hp : body.get "password" with
  | undefined => right; simp [JVal.truthy, putUsuarioValues]
  | null => right; simp [JVal.truthy, putUsuarioValues]
  | str pw =>
    right
    rw [hp] at h
    have hne : jsTrim pw = "" := by
      by_contra h0
      simp [h0] at h
    by_cases ht : (JVal.str pw).truthy = true
    · simp [ht, hne, putUsuarioValues]
    · simp [ht, hne, putUsuarioValues]
  | bool b =>
    cases b
    · right; simp [JVal.truthy, putUsuarioValues]
    · left; simp [JVal.truthy]
  | num n =>
    by_cases hn : n = 0
    · right; simp [JVal.truthy, hn, putUsuarioValues]
    · left; simp [JVal.truthy, hn]
  | arr xs => left; simp [JVal.truthy]

theorem putUsuarioRun_queries (pool : Pool) (before : List Effect) (q : Query) (db : Db) :
    (putUsuarioRun pool before q db).effects = before ++ [.query q] := by
  unfold putUsuarioRun
  rcases pool q db with ⟨res, db1⟩
  cases res with
  | error e => rfl
  | ok result =>
    simp only
    split <;> rfl

/-- A 200 of `putUsuarioRun` over the model store: the store resolved. -/
theorem putUsuarioRun_ok (before : List Effect) (q : Query) (db : Db)
    (h : (putUsuarioRun pgQuery before q db).response.status = 200) :
    ∃ result, pgQuery q db = (.ok result, (putUsuarioRun pgQuery before q db).db) ∧
      result.rows ≠ [] := by
  unfold putUsuarioRun at h ⊢
  rcases hq : pgQuery q db with ⟨res, db1⟩
  rw [hq] at h
  cases res with
  | error e => simp [putUsuarioFailed] at h
  | ok result =>
    simp only at h ⊢
    split at h
    · simp at h
    · rename_i hlen
      simp only [hlen, ↓reduceIte]
      exact ⟨result, rfl, fun h0 => hlen (by simp [h0])⟩

/-- What a resolved UPDATE by id leaves in the model store. -/
theorem updateUsuarioRows_ok (db db1 : Db) (key : Option Int) (f : Usuario → Usuario)
    (result : QueryResult) (h : updateUsuarioRows db key f = (.ok result, db1)) :
    db1.usuarios = db.usuarios.map (fun r => if some r.id == key then f r else r) := by
  unfold updateUsuarioRows at h
  simp only at h
  split at h
  · simp at h
  · simp only [Prod.mk.injEq, Except.ok.injEq] at h
    rw [← h.2]

/-- An UPDATE by id that is rejected or touches no row leaves the model store
as it was. -/
theorem updateUsuarioRows_frame (db : Db) (key : Option Int) (f : Usuario → Usuario)
    (hf : ∀ r, (f r).id = r.id) :
    (∀ e db1, updateUsuarioRows db key f = (.error e, db1) → db1 = db) ∧
    (∀ result db1, updateUsuarioRows db key f = (.ok result, db1) → result.rows = [] →
      db1 = db) := by
  constructor
  · intro e db1 h
    unfold updateUsuarioRows at h
    simp only at h
    split at h
    · simp only [Prod.mk.injEq] at h
      exact h.2.symm
    · simp at h
  · intro result db1 h hrows
    unfold updateUsuarioRows at h
    simp only at h
    split at h
    · simp at h
    · simp only [Prod.mk.injEq, Except.ok.injEq] at h
      obtain ⟨h1, h2⟩ := h
      rw [← h1] at hrows
      simp only [List.map_eq_nil_iff, List.filter_eq_nil_iff, List.mem_map] at hrows
      have hid : (db.usuarios.map fun r => if some r.id == key then f r else r) = db.usuarios := by
        conv_rhs => rw [← List.map_id db.usuarios]
        apply List.map_congr_left
        intro r hr
        by_cases hk : (some r.id == key) = true
        · exfalso
          apply hrows (f r) ⟨r, hr, by simp [hk]⟩
          rw [hf r]
          exact hk
        · simp [hk]
      rw [← h2, hid]

/-- The store after a statement of `PUT /api/usuarios/:id` that did not end
in a 200. -/
theorem putUsuarioRun_frame (before : List Effect) (q : Query) (db : Db) (key : Option Int)
    (f : Usuario → Usuario) (hf : ∀ r, (f r).id = r.id)
    (hq : pgQuery q db = updateUsuarioRows db key f)
    (h : (putUsuarioRun pgQuery before q db).response.status ≠ 200) :
    (putUsuarioRun pgQuery before q db).db = db := by
  obtain ⟨h1, h2⟩ := updateUsuarioRows_frame db key f hf
  unfold putUsuarioRun at h ⊢
  rw [hq] at h ⊢
  rcases hu : updateUsuarioRows db key f with ⟨res, db1⟩
  rw [hu] at h
  cases res with
  | error e => exact h1 e db1 hu
  | ok result =>
    simp only at h ⊢
    split
    · rename_i hlen
      exact h2 result db1 hu (List.length_eq_zero.mp hlen)
    · rename_i hlen
      simp [hlen] at h

/-- A `PUT /api/usuarios/:id` that does not answer 200 leaves the model store
as it was. -/
theorem putUsuario_frame (env : Env) (id : String) (body : JObj) (db : Db)
    (h : (putUsuario env pgQuery id body db).response.status ≠ 200) :
    (putUsuario env pgQuery id body db).db = db := by
  cases hk : pgInt (JVal.str id) with
  | error e =>
    cases hg : givenPassword body with
    | some pw =>
      rw [putUsuario_given env pgQuery id body db pw hg]
      simp [putUsuarioRun, pgQuery, putUsuarioValues, hk]
    | none =>
      rcases putUsuario_not_given env pgQuery id body db hg with ⟨h1, _⟩ | h1
      · rw [h1]
      · rw [h1]
        simp [putUsuarioRun, pgQuery, putUsuarioValues, hk]
  | ok key =>
    cases hg : givenPassword body with
    | some pw =>
      rw [putUsuario_given env pgQuery id body db pw hg] at h ⊢
      exact putUsuarioRun_frame _ _ db key
        (fun r => r.assign (body.get "nombre") (body.get "apellido") (body.get "email")
          (body.get "cedula") (body.get "rol") (some (JVal.str (env.hash pw))))
        (fun r => rfl) (by simp [pgQuery, putUsuarioValues, hk]) h
    | none =>
      rcases putUsuario_not_given env pgQuery id body db hg with ⟨h1, _⟩ | h1
      · rw [h1]
      · rw [h1] at h ⊢
        exact putUsuarioRun_frame _ _ db key
          (fun r => r.assign (body.get "nombre") (body.get "apellido") (body.get "email")
            (body.get "cedula") (body.get "rol") none)
          (fun r => rfl) (by simp [pgQuery, putUsuarioValues, hk]) h

/-- C29: `PUT /api/usuarios/:id` issues the UPDATE that sets the password
column exactly when the body's password is a string that is not empty after
trimming, and then the parameter for that column is the hash, the other
parameters being the body's nombre, apellido, email, cedula and rol and the
id; when the password is absent, null, empty or white space the only
statement is the UPDATE without the password column. Over the model store a
200 answer means every row with that id now holds the five body values, with
the hash of the given password if there is one and its former hash
otherwise, and all other rows are as before; any other answer leaves the
store as it was. -/
theorem put_usuario_password (env : Env) (id : String) (body : JObj) (db : Db) :
    (∀ (pool : Pool) (q : Query), q ∈ (putUsuario env pool id body db).queries →
      (q.text = Sql.updateUsuarioPassword ↔ givenPassword body ≠ none) ∧
      (∀ pw, givenPassword body = some pw →
        q = { text := Sql.updateUsuarioPassword,
              values := putUsuarioValues id body [JVal.str (env.hash pw)] }) ∧
      (givenPassword body = none →
        q = { text := Sql.updateUsuario, values := putUsuarioValues id body [] })) ∧
    (∀ (pool : Pool), blankPassword (body.get "password") →
      (putUsuario env pool id body db).queries
        = [{ text := Sql.updateUsuario, values := putUsuarioValues id body [] }]) ∧
    ((putUsuario env pgQuery id body db).response.status = 200 →
      ∃ k : Int, pgInt (JVal.str id) = .ok (some k) ∧
        (∃ u ∈ db.usuarios, u.id = k) ∧
        (putUsuario env pgQuery id body db).db.usuarios
          = db.usuarios.map (fun r =>
              if r.id = k then
                { r with
                  nombre := pgText (body.get "nombre"),
                  apellido := pgText (body.get "apellido"),
                  email := pgText (body.get "email"),
                  cedula := pgText (body.get "cedula"),
                  rol := pgText (body.get "rol"),
                  password := match givenPassword body with
                    | some pw => some (env.hash pw)
                    | none => r.password }
              else r)) ∧
    ((putUsuario env pgQuery id body db).response.status ≠ 200 →
      (putUsuario env pgQuery id body db).db = db) := by
  refine ⟨?_, ?_, ?_, putUsuario_frame env id body db⟩
  · intro pool q hq
    cases hg : givenPassword body with
    | some pw =>
      rw [putUsuario_given env pool id body db pw hg] at hq
      simp only [Run.queries, putUsuarioRun_queries, List.cons_append, List.nil_append,
        List.filterMap_cons, List.filterMap_nil, List.mem_singleton] at hq
      subst hq
      simp
    | none =>
      rcases putUsuario_not_given env pool id body db hg with ⟨h1, _⟩ | h1
      · rw [h1] at hq
        simp [Run.queries] at hq
      · rw [h1] at hq
        simp only [Run.queries, putUsuarioRun_queries, List.nil_append,
          List.filterMap_cons, List.filterMap_nil, List.mem_singleton] at hq
        subst hq
        simp
  · intro pool hb
    have hg : givenPassword body = none := by
      unfold givenPassword
      rcases hb with h | h | ⟨pw, h, ht⟩ <;> simp [h]
      exact ht
    rcases putUsuario_not_given env pool id body db hg with ⟨_, h2, h3⟩ | h1
    · exfalso
      rcases hb with h | h | ⟨pw, h, _⟩
      · simp [h, JVal.truthy] at h2
      · simp [h, JVal.truthy] at h2
      · exact h3 pw h
    · rw [h1]
      simp [Run.queries, putUsuarioRun_queries]
  · intro hok
    cases hg : givenPassword body with
    | some pw =>
      rw [putUsuario_given env pgQuery id body db pw hg] at hok ⊢
      obtain ⟨result, hq, hne⟩ := putUsuarioRun_ok _ _ db hok
      generalize (putUsuarioRun pgQuery [Effect.hash (JVal.str pw)]
        { text := Sql.updateUsuarioPassword,
          values := putUsuarioValues id body [JVal.str (env.hash pw)] } db).db = db1 at hq ⊢
      simp only [pgQuery, putUsuarioValues, List.cons_append, List.nil_append] at hq
      cases hk : pgInt (JVal.str id) with
      | error e => simp [hk] at hq
      | ok key =>
        simp only [hk] at hq
        have hdb := updateUsuarioRows_ok db db1 key _ result hq
        cases key with
        | none =>
          exfalso
          unfold updateUsuarioRows at hq
          simp only at hq
          split at hq
          · simp at hq
          · simp only [Prod.mk.injEq, Except.ok.injEq] at hq
            apply hne
            rw [← hq.1]
            simp
        | some k =>
          refine ⟨k, rfl, ?_, ?_⟩
          · unfold updateUsuarioRows at hq
            simp only at hq
            split at hq
            · simp at hq
            · simp only [Prod.mk.injEq, Except.ok.injEq] at hq
              rw [← hq.1] at hne
              simp only [ne_eq, List.map_eq_nil_iff, List.filter_eq_nil_iff, List.mem_map,
                not_forall] at hne
              obtain ⟨x, ⟨r, hr, hrx⟩, hx⟩ := hne
              refine ⟨r, hr, ?_⟩
              by_cases hrk : r.id = k
              · exact hrk
              · exfalso
                apply hx
                rw [← hrx]
                simp [hrk]
          · rw [hdb]
            apply List.map_congr_left
            intro r _
            by_cases hrk : r.id = k <;> simp [hrk, Usuario.assign, pgText]
    | none =>
      rcases putUsuario_not_given env pgQuery id body db hg with ⟨h1, _⟩ | h1
      · rw [h1] at hok
        simp [putUsuarioFailed] at hok
      · rw [h1] at hok ⊢
        obtain ⟨result, hq, hne⟩ := putUsuarioRun_ok _ _ db hok
        generalize (putUsuarioRun pgQuery []
          { text := Sql.updateUsuario, values := putUsuarioValues id body [] } db).db = db1
          at hq ⊢
        simp only [pgQuery, putUsuarioValues, List.cons_append, List.nil_append] at hq
        cases hk : pgInt (JVal.str id) with
        | error e => simp [hk] at hq
        | ok key =>
          simp only [hk] at hq
          have hdb := updateUsuarioRows_ok db db1 key _ result hq
          cases key with
          | none =>
            exfalso
            unfold updateUsuarioRows at hq
            simp only at hq
            split at hq
            · simp at hq
            · simp only [Prod.mk.injEq, Except.ok.injEq] at hq
              apply hne
              rw [← hq.1]
              simp
          | some k =>
            refine ⟨k, rfl, ?_, ?_⟩
            · unfold updateUsuarioRows at hq
              simp only at hq
              split at hq
              · simp at hq
              · simp only [Prod.mk.injEq, Except.ok.injEq] at hq
                rw [← hq.1] at hne
                simp only [ne_eq, List.map_eq_nil_iff, List.filter_eq_nil_iff, List.mem_map,
                  not_forall] at hne
                obtain ⟨x, ⟨r, hr, hrx⟩, hx⟩ := hne
                refine ⟨r, hr, ?_⟩
                by_cases hrk : r.id = k
                · exact hrk
                · exfalso
                  apply hx
                  rw [← hrx]
                  simp [hrk]
            · rw [hdb]
              apply List.map_congr_left
              intro r _
              by_cases hrk : r.id = k <;> simp [hrk, Usuario.assign]


/-- Witness for C29: user 7 of the sample store is updated once with the new
password `nueva` and once with a password of two spaces. -/
theorem put_usuario_password_witness :
    (putUsuario sampleEnv pgQuery "7" samplePutBlank sampleDb).queries
      = [{ text := Sql.updateUsuario, values := putUsuarioValues "7" samplePutBlank [] }] ∧
    (∃ k : Int, pgInt (JVal.str "7") = .ok (some k) ∧
      (∃ u ∈ sampleDb.usuarios, u.id = k) ∧
      (putUsuario sampleEnv pgQuery "7" samplePutPassword sampleDb).db.usuarios
        = sampleDb.usuarios.map (fun r =>
            if r.id = k then
              { r with
                nombre := pgText (samplePutPassword.get "nombre"),
                apellido := pgText (samplePutPassword.get "apellido"),
                email := pgText (samplePutPassword.get "email"),
                cedula := pgText (samplePutPassword.get "cedula"),
                rol := pgText (samplePutPassword.get "rol"),
                password := match givenPassword samplePutPassword with
                  | some pw => some (sampleEnv.hash pw)
                  | none => r.password }
            else r)) :=
  ⟨(put_usuario_password sampleEnv "7" samplePutBlank sampleDb).2.1 pgQuery
      (Or.inr (Or.inr ⟨"  ", rfl, by decide⟩)),
   (put_usuario_password sampleEnv "7" samplePutPassword sampleDb).2.2.1 (by decide)⟩

/-! ### C24: the laboratorios literal of `POST /api/bloques` -/

/-- C24 fails in the code: `POST /api/bloques` joins the submitted strings
with commas between braces without quoting them, so the literal denotes the
submitted sequence for the empty list, for a value that is not an array and
for plain names, but a name with a comma is read as two elements and an
empty name as none; the array `PUT /api/bloques/:id` hands to the driver for
the same column denotes the submitted sequence. -/
theorem laboratorios_literal_reading :
    (∀ v : JVal, (∀ xs, v ≠ JVal.arr xs) →
      pgReadTextArray (laboratoriosLiteral v) = some []) ∧
    pgReadTextArray (laboratoriosLiteral (JVal.arr [])) = some [] ∧
    pgReadTextArray (laboratoriosLiteral (JVal.arr ["Lab 1", "Lab 2"]))
      = some [some "Lab 1", some "Lab 2"] ∧
    pgReadTextArray (laboratoriosLiteral (JVal.arr ["Lab 1,piso 2"]))
      = some [some "Lab 1", some "piso 2"] ∧
    pgReadTextArray (laboratoriosLiteral (JVal.arr [""])) = some [] ∧
    (∀ (σ : Type) (pool : Store σ) (s : σ),
      ultimoParametro (postBloque pool sampleBloqueBody s)
        = some (JVal.str (laboratoriosLiteral (JVal.arr ["Lab 1,piso 2"]))) ∧
      (ultimoParametro (postBloque pool sampleBloqueBody s)).bind pgTextArrayParam
        = some [some "Lab 1", some "piso 2"] ∧
      ((putBloque pool "1" sampleBloqueBody s).queries.head?.bind fun q =>
          (q.values.get? 5).bind pgTextArrayParam)
        = some [some "Lab 1,piso 2"]) := by
  refine ⟨?_, by decide, by decide, by decide, by decide, ?_⟩
  · intro v hv
    have hempty : pgReadTextArray ("\x7b" ++ "\x7d") = some [] := by decide
    cases v with
    | arr xs => exact absurd rfl (hv xs)
    | _ => exact hempty
  · intro σ pool s
    have hn : sampleBloqueBody.get "nombre" = JVal.str "Bloque A" := by decide
    have he : sampleBloqueBody.get "edificios_id" = JVal.num 1 := by decide
    have hl : sampleBloqueBody.get "laboratorios" = JVal.arr ["Lab 1,piso 2"] := by decide
    have hv : (!(JVal.str "Bloque A").truthy || !(JVal.num 1).truthy) = false := by decide
    have hq : ultimoParametro (postBloque pool sampleBloqueBody s)
        = some (JVal.str (laboratoriosLiteral (JVal.arr ["Lab 1,piso 2"]))) := by
      unfold postBloque
      simp only [hn, he, hl, hv, Bool.false_eq_true, ↓reduceIte]
      rcases pool _ s with ⟨res, s1⟩
      cases res <;> rfl
    have hp : ((putBloque pool "1" sampleBloqueBody s).queries.head?.bind fun q =>
        q.values.get? 5) = some (JVal.arr ["Lab 1,piso 2"]) := by
      unfold putBloque
      simp only [hl]
      rcases pool _ s with ⟨res, s1⟩
      cases res with
      | error e => rfl
      | ok result =>
        simp only
        split <;> rfl
    refine ⟨hq, ?_, ?_⟩
    · rw [hq]
      decide
    · have h2 : ((putBloque pool "1" sampleBloqueBody s).queries.head?.bind fun q =>
          (q.values.get? 5).bind pgTextArrayParam)
          = (((putBloque pool "1" sampleBloqueBody s).queries.head?.bind fun q =>
              q.values.get? 5).bind pgTextArrayParam) := by
        cases (putBloque pool "1" sampleBloqueBody s).queries.head? <;> rfl
      rw [h2, hp]
      decide

/-! ### C21: a rejected statement -/

theorem failsWith_intro (pool : Pool) (db : Db) (run : Run) (r : JsError → Response)
    (h : run.queries = [] ∨ ∃ q0, run.queries = [q0] ∧
      ∀ e db1, pool q0 db = (.error e, db1) → run.response = r e ∧ run.db = db1) :
    failsWith pool db run r := by
  intro q e db1 hq hp
  rcases h with h | ⟨q0, h, hf⟩
  · rw [h] at hq
    simp at hq
  · rw [h] at hq ⊢
    simp only [List.mem_singleton] at hq
    subst hq
    obtain ⟨h1, h2⟩ := hf e db1 hp
    exact ⟨h1, rfl, h2⟩

theorem readFails_intro {σ : Type} (pool : TextStore σ) (s : σ) (o : TextOut σ)
    (h : ∃ q0, o.queries = [q0] ∧
      ∀ e s1, pool q0 s = (.error e, s1) → o.response = serverError ∧ o.state = s1) :
    readFails pool s o := by
  intro q e s1 hq hp
  obtain ⟨q0, h, hf⟩ := h
  rw [h] at hq ⊢
  simp only [List.mem_singleton] at hq
  subst hq
  obtain ⟨h1, h2⟩ := hf e s1 hp
  exact ⟨h1, rfl, h2⟩

/-- For `GET /api/verify-token` a rejected lookup is answered 401. -/
theorem verifyToken_store_failure (env : Env) (pool : Pool) (header : Option String) (db : Db) :
    failsWith pool db (verifyToken env pool header db)
      (fun _ => { status := 401, body := errorBody "Token inválido" }) := by
  apply failsWith_intro
  unfold verifyToken
  cases hb : optionalBearer header with
  | none => left; rfl
  | some tok =>
    by_cases htok : tok = ""
    · left; simp [htok, Run.queries]
    · cases hv : jwtVerify env tok with
      | error e0 => left; simp [htok, hv, Run.queries]
      | ok decoded =>
        right
        refine ⟨{ text := Sql.selectVerifyById, values := [decoded.get "id"] }, ?_⟩
        simp only [htok, ↓reduceIte, hv]
        rcases hpool : pool { text := Sql.selectVerifyById, values := [decoded.get "id"] } db
          with ⟨res, db2⟩
        cases res with
        | error e0 => simp [Run.queries]
        | ok result => cases hh : result.rows.head? <;> simp [hh, Run.queries]

/-- For `GET /api/profile` a rejected lookup is answered 400. -/
theorem profile_store_failure (env : Env) (pool : Pool) (header : Option String) (db : Db) :
    failsWith pool db (profile env pool header db)
      (fun _ => { status := 400, body := messageBody "Token no válido." }) := by
  apply failsWith_intro
  unfold profile
  cases hb : optionalBearer header with
  | none => left; rfl
  | some tok =>
    by_cases htok : tok = ""
    · left; simp [htok, Run.queries]
    · cases hv : jwtVerify env tok with
      | error e0 => left; simp [htok, hv, Run.queries]
      | ok decoded =>
        right
        refine ⟨{ text := Sql.selectProfileById, values := [decoded.get "id"] }, ?_⟩
        simp only [htok, ↓reduceIte, hv]
        rcases hpool : pool { text := Sql.selectProfileById, values := [decoded.get "id"] } db
          with ⟨res, db2⟩
        cases res with
        | error e0 => simp [Run.queries]
        | ok result => cases hh : result.rows.head? <;> simp [hh, Run.queries]

theorem login_store_failure (env : Env) (pool : Pool) (body : JObj) (db : Db) :
    failsWith pool db (login env pool body db)
      (fun e => { status := 500, body := errorBody e.message }) := by
  apply failsWith_intro
  by_cases h : (body.get "email").truthy = true ∧ (body.get "password").truthy = true
  · right
    refine ⟨loginQuery body, ?_⟩
    rw [login_truthy env pool body db h.1 h.2]
    rcases hpool : pool (loginQuery body) db with ⟨res, db2⟩
    cases res with
    | error e0 => simp [Run.queries]
    | ok result =>
      cases hh : result.rows.head? with
      | none => simp [hh, Run.queries]
      | some user =>
        cases hc : bcryptCompare env (body.get "password") (user.get "password") with
        | error e1 => simp [hh, hc, Run.queries]
        | ok b =>
          cases b with
          | false => simp [hh, hc, Run.queries]
          | true =>
            cases hs : jwtSign env [("id", user.get "id"), ("email", user.get "email")] "1h" <;>
              simp [hh, hc, hs, Run.queries]
  · left
    rw [login_falsy env pool body db (by
      by_contra hc
      apply h
      simp only [not_or, Bool.not_eq_false] at hc
      exact hc)]
    rfl

theorem mem_queries_iff (run : Run) (q : Query) :
    q ∈ run.queries ↔ Effect.query q ∈ run.effects := by
  unfold Run.queries
  rw [List.mem_filterMap]
  constructor
  · rintro ⟨e, he, heq⟩
    cases e <;> simp at heq
    subst heq
    exact he
  · intro h
    exact ⟨_, h, rfl⟩

theorem register_store_failure (env : Env) (pool : Pool) (body : JObj) (db : Db) :
    failsWith pool db (register env pool body db) registerCatch := by
  intro q e db1 hq hp
  rw [mem_queries_iff] at hq
  obtain ⟨hv, hsec, pw, hpw, hqe⟩ := register_query env pool body db q hq
  subst hqe
  rw [register_reached env pool body db pw hv hpw hsec, hp]
  exact ⟨rfl, by simp [Run.queries, registerEffects], rfl⟩

theorem crearusuarios_store_failure (env : Env) (pool : Pool) (body : JObj) (db : Db) :
    failsWith pool db (crearusuarios env pool body db) crearusuariosCatch := by
  intro q e db1 hq hp
  rw [mem_queries_iff] at hq
  obtain ⟨pw, _, _, hrun⟩ := crearusuarios_query env pool body db q hq
  rw [hrun, hp]
  exact ⟨rfl, by simp [Run.queries], rfl⟩

theorem deleteUsuario_store_failure (pool : Pool) (id : String) (db : Db) :
    failsWith pool db (deleteUsuario pool id db)
      (fun _ => { status := 500, body := errorBody "Error en el servidor" }) := by
  apply failsWith_intro
  right
  refine ⟨{ text := Sql.deleteUsuarioById, values := [JVal.str id] }, ?_⟩
  unfold deleteUsuario
  simp only
  rcases hpool : pool { text := Sql.deleteUsuarioById, values := [JVal.str id] } db
    with ⟨res, db2⟩
  cases res with
  | error e0 => simp [Run.queries]
  | ok result =>
    simp only
    split <;> simp [Run.queries]

theorem getUsuarios_store_failure (pool : Pool) (db : Db) :
    failsWith pool db (getUsuarios pool db)
      (fun e => { status := 500, body := errorBody e.message }) := by
  apply failsWith_intro
  right
  refine ⟨{ text := Sql.selectUsuarios, values := [] }, ?_⟩
  unfold getUsuarios
  simp only
  rcases hpool : pool { text := Sql.selectUsuarios, values := [] } db with ⟨res, db2⟩
  cases res with
  | error e0 => simp [Run.queries]
  | ok result => simp [Run.queries]

theorem putUsuarioRun_store_failure (pool : Pool) (before : List Effect) (q : Query) (db : Db)
    (hb : ∀ e ∈ before, ∀ q0, e ≠ Effect.query q0) :
    (putUsuarioRun pool before q db).queries = [q] ∧
      ∀ e db1, pool q db = (.error e, db1) →
        (putUsuarioRun pool before q db).response = putUsuarioFailed ∧
        (putUsuarioRun pool before q db).db = db1 := by
  have hnil : ({ response := putUsuarioFailed, db := db, effects := before } : Run).queries
      = [] := by
    unfold Run.queries
    rw [List.filterMap_eq_nil_iff]
    intro e he
    cases e with
    | query q0 => exact absurd rfl (hb _ he q0)
    | _ => rfl
  unfold Run.queries at hnil
  constructor
  · rw [Run.queries, putUsuarioRun_queries, List.filterMap_append, hnil]
    rfl
  · intro e db1 hp
    unfold putUsuarioRun
    rw [hp]
    exact ⟨rfl, rfl⟩

theorem putUsuario_store_failure (env : Env) (pool : Pool) (id : String) (body : JObj)
    (db : Db) :
    failsWith pool db (putUsuario env pool id body db) (fun _ => putUsuarioFailed) := by
  apply failsWith_intro
  cases hg : givenPassword body with
  | some pw =>
    right
    rw [putUsuario_given env pool id body db pw hg]
    exact ⟨_, putUsuarioRun_store_failure pool _ _ db (by simp)⟩
  | none =>
    rcases putUsuario_not_given env pool id body db hg with ⟨h1, _⟩ | h1
    · left
      rw [h1]
      rfl
    · right
      rw [h1]
      exact ⟨_, putUsuarioRun_store_failure pool _ _ db (by simp)⟩

theorem listRows_readFails {σ : Type} (pool : TextStore σ) (q : TextQuery) (s : σ) :
    readFails pool s (listRows pool q s) := by
  apply readFails_intro
  refine ⟨q, ?_⟩
  unfold listRows
  rcases hpool : pool q s with ⟨res, s2⟩
  cases res <;> simp

theorem consulta_store_failure {σ : Type} (pool : TextStore σ) (route : ConsultaRoute)
    (req : Request) (s : σ) :
    readFails pool s (consultaRoute pool route req s) := by
  cases route with
  | wifi =>
    apply readFails_intro
    refine ⟨{ text := "SELECT * FROM wifi LIMIT 1", values := [] }, ?_⟩
    simp only [consultaRoute, getWifi]
    rcases hpool : pool { text := "SELECT * FROM wifi LIMIT 1", values := [] } s with ⟨res, s2⟩
    cases res with
    | error e0 => simp
    | ok result =>
      simp only
      split <;> simp
  | categorias => exact listRows_readFails pool _ s
  | categoriasLugar =>
    simp only [consultaRoute, getCategoriasLugar]
    split <;> exact listRows_readFails pool _ s
  | edificios => exact listRows_readFails pool _ s
  | edificiosIndex => exact listRows_readFails pool _ s
  | laboratorios =>
    apply readFails_intro
    refine ⟨{ text := "SELECT laboratorios FROM bloques WHERE id = $1",
              values := [req.query.get "bloque_id"] }, ?_⟩
    simp only [consultaRoute, getLaboratorios]
    rcases hpool : pool { text := "SELECT laboratorios FROM bloques WHERE id = $1",
                          values := [req.query.get "bloque_id"] } s with ⟨res, s2⟩
    cases res <;> simp
  | bloque select =>
    apply readFails_intro
    refine ⟨{ text := select, values := [JVal.str req.id] }, ?_⟩
    simp only [consultaRoute, getBloque]
    rcases hpool : pool { text := select, values := [JVal.str req.id] } s with ⟨res, s2⟩
    cases res with
    | error e0 => simp
    | ok result =>
      simp only
      split <;> simp
  | bloques select => exact listRows_readFails pool _ s

theorem delete_store_failure {σ : Type} (pool : Store σ) (t : Tabla) (id : String) (s : σ) :
    failsLast (deleteRecurso t (logged pool) id (s, [])) := by
  cases t
  case categoria =>
    simp only [deleteRecurso, deleteCategoria, logged]
    rcases pool { text := .selectById .categoria, values := [JVal.str id] } s with ⟨res, s1⟩
    cases res with
    | error e0 => simp [failsLast, serverError]
    | ok r1 =>
      simp only
      split
      · simp [failsLast]
      · rcases pool { text := .deleteById .categoria false, values := [JVal.str id] } s1
          with ⟨res2, s2⟩
        cases res2 <;> simp [failsLast, serverError]
  case bloques =>
    simp only [deleteRecurso, deleteBloque, logged]
    rcases pool { text := .selectById .bloques, values := [JVal.str id] } s with ⟨res, s1⟩
    cases res with
    | error e0 => simp [failsLast, serverError]
    | ok r1 =>
      simp only
      split
      · simp [failsLast]
      · rcases pool { text := .deleteById .bloques false, values := [JVal.str id] } s1
          with ⟨res2, s2⟩
        cases res2 <;> simp [failsLast, serverError]
  all_goals
    simp only [deleteRecurso, deleteLugar, deleteEdificio, deleteEvaluacion, deleteWifi, logged]
    rcases pool _ s with ⟨res, s1⟩
    cases res with
    | error e0 => simp [failsLast, serverError]
    | ok r1 =>
      simp only
      split <;> simp [failsLast]

theorem put_store_failure {σ : Type} (pool : Store σ) (t : Tabla) (id : String) (body : JObj)
    (s : σ) :
    failsLast (putRecurso t (logged pool) id body (s, [])) := by
  cases t <;>
    simp only [putRecurso, putLugar, putCategoria, putEdificio, putBloque, putEvaluacion,
      putWifi, logged] <;>
    first
    | (rcases pool _ s with ⟨res, s1⟩
       cases res with
       | error e0 => simp [failsLast, serverError]
       | ok r1 =>
         simp only
         split <;> simp [failsLast])
    | (split
       · simp [failsLast]
       · rcases pool _ s with ⟨res, s1⟩
         cases res with
         | error e0 => simp [failsLast, serverError]
         | ok r1 =>
           simp only
           split <;> simp [failsLast])

theorem post_store_failure {σ : Type} (pool : Store σ) (t : Tabla) (body : JObj) (s : σ) :
    failsLast (postRecurso t (logged pool) body (s, [])) := by
  cases t <;>
    simp only [postRecurso, postLugar, postCategoria, postEdificio, postBloque, postEvaluacion,
      postWifi, logged] <;>
    first
    | (rcases pool _ s with ⟨res, s1⟩
       cases res <;> (simp [failsLast, serverError]; done))
    | (split
       · simp [failsLast]
       · rcases pool _ s with ⟨res, s1⟩
         cases res <;> simp [failsLast, serverError])

theorem recurso_store_failure {σ : Type} (pool : Store σ) (route : RecursoRoute)
    (req : Request) (s : σ) :
    failsLast (recursoRoute (logged pool) route req (s, [])) := by
  cases route with
  | create t => exact post_store_failure pool t req.body s
  | update t => exact put_store_failure pool t req.id req.body s
  | delete t => exact delete_store_failure pool t req.id s
  | evaluaciones =>
    simp only [recursoRoute, getEvaluaciones, logged]
    rcases pool _ s with ⟨res, s1⟩
    cases res <;> simp [failsLast, serverError]

theorem lugar_store_failure {σ : Type} (pool : Store σ) (req : Request) (s : σ) :
    ∃ o, lugarRoute (.ok ()) (logged pool) req (s, []) = .ok o ∧ failsLast o := by
  simp only [lugarRoute, getLugar, logged]
  rcases pool _ s with ⟨res, s1⟩
  cases res <;> simp [failsLast]

/-- C21 as stated fails for the identity endpoints: with a store that
rejects every statement, the lookup of `GET /api/verify-token` for a verifying
token is rejected and the answer is 401, and that of `GET /api/profile` is
answered 400; neither is a 500. -/
theorem store_failure_counterexample :
    (∃ q e, q ∈ (verifyToken sampleEnv downPool (some "Bearer good") sampleDb).queries ∧
      downPool q sampleDb = (.error e, sampleDb)) ∧
    (verifyToken sampleEnv downPool (some "Bearer good") sampleDb).response.status = 401 ∧
    (profile sampleEnv downPool (some "Bearer good") sampleDb).response.status = 400 ∧
    (verifyToken sampleEnv downPool (some "Bearer good") sampleDb).response.status ≠ 500 ∧
    (profile sampleEnv downPool (some "Bearer good") sampleDb).response.status ≠ 500 := by
  have h1 : (verifyToken sampleEnv downPool (some "Bearer good") sampleDb).response.status = 401 :=
    rfl
  have h2 : (profile sampleEnv downPool (some "Bearer good") sampleDb).response.status = 400 :=
    rfl
  refine ⟨⟨{ text := Sql.selectVerifyById, values := [JVal.num 7] }, _, ?_, rfl⟩, h1, h2, ?_, ?_⟩
  · decide
  · rw [h1]
    decide
  · rw [h2]
    decide

/-- C21 (amended): every handler that reaches the store issues its statements
one after another and stops at the first one the store rejects. The user
endpoints issue one statement; when it is rejected login and the user list
answer 500 with the error's message, update and delete of a user answer 500,
`POST /register` answers 400 and `POST /api/crearusuarios` 409 when the error
code is 23505 and 500 otherwise, `GET /api/verify-token` answers 401
`Token inválido` and `GET /api/profile` 400 `Token no válido.`. Every resource
route, the evaluations list and the places list (once it has its connection)
answer 500 with the rejected statement the last one sent, and every reading
route answers 500 `Error en el servidor`. -/
theorem store_failure_response (env : Env) (pool : Pool) (req : Request) (db : Db) :
    failsWith pool db (login env pool req.body db)
      (fun e => { status := 500, body := errorBody e.message }) ∧
    failsWith pool db (usuariosRoute env pool .list req db)
      (fun e => { status := 500, body := errorBody e.message }) ∧
    failsWith pool db (usuariosRoute env pool .update req db)
      (fun _ => { status := 500, body := errorBody "Error al actualizar usuario" }) ∧
    failsWith pool db (usuariosRoute env pool .delete req db)
      (fun _ => { status := 500, body := errorBody "Error en el servidor" }) ∧
    failsWith pool db (register env pool req.body db)
      (fun e => if e.code = some "23505" then
          { status := 400, body := errorBody "El correo ya está registrado" }
        else { status := 500, body := errorBody e.message }) ∧
    failsWith pool db (usuariosRoute env pool .create req db)
      (fun e => if e.code = some "23505" then
          { status := 409, body := errorBody "La cédula o el email ya existen" }
        else { status := 500, body := errorBody "Error al crear usuario" }) ∧
    failsWith pool db (verifyToken env pool req.authorization db)
      (fun _ => { status := 401, body := errorBody "Token inválido" }) ∧
    failsWith pool db (profile env pool req.authorization db)
      (fun _ => { status := 400, body := messageBody "Token no válido." }) ∧
    (∀ (σ : Type) (store : Store σ) (route : RecursoRoute) (s : σ),
      failsLast (recursoRoute (logged store) route req (s, []))) ∧
    (∀ (σ : Type) (store : Store σ) (s : σ),
      ∃ o, lugarRoute (.ok ()) (logged store) req (s, []) = .ok o ∧ failsLast o) ∧
    (∀ (σ : Type) (store : TextStore σ) (route : ConsultaRoute) (s : σ),
      readFails store s (consultaRoute store route req s)) :=
  ⟨login_store_failure env pool req.body db,
   getUsuarios_store_failure pool db,
   putUsuario_store_failure env pool req.id req.body db,
   deleteUsuario_store_failure pool req.id db,
   register_store_failure env pool req.body db,
   crearusuarios_store_failure env pool req.body db,
   verifyToken_store_failure env pool req.authorization db,
   profile_store_failure env pool req.authorization db,
   fun _ store route s => recurso_store_failure store route req s,
   fun _ store s => lugar_store_failure store req s,
   fun _ store route s => consulta_store_failure store route req s⟩

/-- Witness for C21: the update of user 7 against a store that rejects every
statement, and the removal of a category whose lookup is rejected. -/
theorem store_failure_response_witness :
    ((usuariosRoute sampleEnv downPool .update sampleAnonymous sampleDb).response
        = { status := 500, body := errorBody "Error al actualizar usuario" } ∧
      (usuariosRoute sampleEnv downPool .update sampleAnonymous sampleDb).queries
        = [{ text := Sql.updateUsuarioPassword,
             values := putUsuarioValues "7" samplePutPassword
               [JVal.str (sampleEnv.hash "nueva")] }] ∧
      (usuariosRoute sampleEnv downPool .update sampleAnonymous sampleDb).db = sampleDb) ∧
    failsLast (recursoRoute (logged downStore) (.delete .categoria) sampleAnonymous
      (sampleCampus, [])) :=
  ⟨(store_failure_response sampleEnv downPool sampleAnonymous sampleDb).2.2.1
      { text := Sql.updateUsuarioPassword,
        values := putUsuarioValues "7" samplePutPassword [JVal.str (sampleEnv.hash "nueva")] }
      { code := some "ECONNREFUSED", message := "connect ECONNREFUSED" } sampleDb
      (by decide) rfl,
   (store_failure_response sampleEnv downPool sampleAnonymous sampleDb).2.2.2.2.2.2.2.2.1
      Campus downStore (.delete .categoria) sampleCampus⟩

/-! ### C25: the resource routes and the Authorization header -/

/-- C25: for every two requests with the same path id, query string and
body, whatever their Authorization headers and `req.user`, every route on
usuarios, on the resource tables and every reading route makes the same run
on the same store: same response, same statements, same final store. -/
theorem routes_ignore_authorization (r1 r2 : Request) (h : sameButAuth r1 r2) :
    (∀ (env : Env) (pool : Pool) (route : UsuariosRoute) (db : Db),
      usuariosRoute env pool route r1 db = usuariosRoute env pool route r2 db) ∧
    (∀ (σ : Type) (pool : Store σ) (route : RecursoRoute) (s : σ),
      recursoRoute pool route r1 s = recursoRoute pool route r2 s) ∧
    (∀ (σ : Type) (pool : TextStore σ) (route : ConsultaRoute) (s : σ),
      consultaRoute pool route r1 s = consultaRoute pool route r2 s) ∧
    (∀ (σ : Type) (connect : Except JsError Unit) (pool : Store σ) (s : σ),
      lugarRoute connect pool r1 s = lugarRoute connect pool r2 s) := by
  obtain ⟨hid, hquery, hbody⟩ := h
  refine ⟨?_, ?_, ?_, ?_⟩
  · intro env pool route db
    cases route <;> simp only [usuariosRoute, hid, hbody]
  · intro σ pool route s
    cases route <;> simp only [recursoRoute, hid, hbody]
  · intro σ pool route s
    cases route <;> simp only [consultaRoute, hid, hquery]
  · intro σ connect pool s
    rfl

/-- Witness for C25: the update of user 7 sent without a header and sent
with the administrator token. -/
theorem routes_ignore_authorization_witness :
    usuariosRoute sampleEnv pgQuery .update sampleAnonymous sampleDb
      = usuariosRoute sampleEnv pgQuery .update sampleAsBoss sampleDb :=
  (routes_ignore_authorization sampleAnonymous sampleAsBoss ⟨rfl, rfl, rfl⟩).1
    sampleEnv pgQuery .update sampleDb

end Tesis
